import Mathlib

/-!
BillDesk payment reconciliation: shallow embedding and verified properties.

The development embeds `services/billDeskService.js` and
`controllers/billDeskController.js` of the backend, with `updateOrderStatus` of
`controllers/paymentController.js`, the pre-save hook of `models/Order.js` and the
one-time passwords of `utils/twilioUtils.js`:

* JavaScript strings are Lean strings, handled through their character lists;
  `split('|')`, `slice(0, -1)`, `join('|')`, `trim` and the two `replace` calls
  are structural functions on character lists.
* `crypto.createHash('sha256')` and `crypto.createHmac('sha256', key)` are the
  FIPS 180-4 and RFC 2104 algorithms over the UTF-8 bytes of the input, with
  32-bit words as natural numbers reduced modulo `2^32`.
* The database is an explicit state that every handler threads through, together
  with the trace of the database calls made so far.
* `order.save()` runs the pre-save hook of the Order schema, which computes the totals
  of the Order again from its line items.
* Numbers are IEEE-754 doubles with exact rounding; `Number.prototype.toString` prints
  the shortest digits that read back.
-/

set_option autoImplicit false

namespace BillDesk

/-! ## JavaScript strings -/

/-- The delimiter of the gateway message format. -/
def pipe : Char := '|'

/-- The character-level work of `String.prototype.split('|')`: the fields between
the delimiters; a string without delimiter is a single field. -/
def splitChars : List Char → List (List Char)
  | [] => [[]]
  | c :: cs =>
    match splitChars cs with
    | [] => [[c]]
    | f :: fs => if c = pipe then [] :: f :: fs else (c :: f) :: fs

/-- The character-level work of `Array.prototype.join('|')`. -/
def joinChars : List (List Char) → List Char
  | [] => []
  | [f] => f
  | f :: g :: fs => f ++ pipe :: joinChars (g :: fs)

/-- JavaScript `s.split('|')`. -/
def jsSplit (s : String) : List String := (splitChars s.data).map String.mk

/-- JavaScript `fields.join('|')`. -/
def jsJoin (fields : List String) : String := String.mk (joinChars (fields.map String.data))

/-- JavaScript `fields.slice(0, -1)`: every element but the last. -/
def sliceInit (fields : List String) : List String := fields.dropLast

/-- JavaScript `fields[i]`: `none` stands for `undefined`. -/
def fieldAt (fields : List String) (i : Nat) : Option String := fields.get? i

/-- JavaScript string concatenation `s + v` where `v` may be `undefined`. -/
def jsConcat (s : String) (v : Option String) : String :=
  match v with
  | some t => s ++ t
  | none => s ++ "undefined"

/-- JavaScript `a || b` on strings: the empty string is falsy. -/
def jsOr (a b : String) : String := if a = "" then b else a

/-- JavaScript `v || ''` for a value that is a string or `undefined`. -/
def orEmpty (v : Option String) : String :=
  match v with
  | some t => jsOr t ""
  | none => ""

/-- The code points matched by `\s` and removed by `trim` (ECMAScript WhiteSpace and
LineTerminator). -/
def isJsSpace (c : Char) : Bool :=
  let n := c.toNat
  n = 9 || n = 10 || n = 11 || n = 12 || n = 13 || n = 32 || n = 0xA0 || n = 0x1680 ||
  (0x2000 ≤ n && n ≤ 0x200A) || n = 0x2028 || n = 0x2029 || n = 0x202F || n = 0x205F ||
  n = 0x3000 || n = 0xFEFF

/-- JavaScript `s.trim()` on characters. -/
def trimChars (cs : List Char) : List Char :=
  ((cs.dropWhile isJsSpace).reverse.dropWhile isJsSpace).reverse

/-- JavaScript `s.replace(/\s+/g, ' ')` on characters: every maximal run of white
space becomes one space. The flag says that the previous character was white space,
whose run has already been replaced. -/
def collapseSpacesFrom : Bool → List Char → List Char
  | _, [] => []
  | inRun, c :: cs =>
    if isJsSpace c then
      if inRun then collapseSpacesFrom true cs else ' ' :: collapseSpacesFrom true cs
    else c :: collapseSpacesFrom false cs

/-- JavaScript `s.replace(/\s+/g, ' ')` on characters. -/
def collapseSpaces (cs : List Char) : List Char := collapseSpacesFrom false cs

/-- JavaScript `s.replace(/\D/g, '')` on characters: only the digits stay. -/
def digitsOnly (cs : List Char) : List Char :=
  cs.filter (fun c => decide ('0' ≤ c) && decide (c ≤ '9'))

/-! ## JavaScript numbers

Amounts are JavaScript numbers, that is IEEE-754 doubles. A finite double is kept as
sign, integer mantissa and binary exponent; every arithmetic result is rounded to the
nearest double, ties to even, as the language prescribes. -/

/-- A JavaScript number: `NaN`, an infinity, or the finite value
`(-1)^neg * mant * 2^exp`. -/
inductive JsNumber
  | nan
  | inf (neg : Bool)
  | fin (neg : Bool) (mant : Nat) (exp : Int)
  deriving Repr, DecidableEq

/-- Number of binary digits of `n`, counted by halving at most `fuel` times. -/
def bitLengthFrom : Nat → Nat → Nat
  | 0, _ => 0
  | fuel + 1, n => if n = 0 then 0 else bitLengthFrom fuel (n / 2) + 1

/-- Number of binary digits of a natural number. -/
def bitLength (n : Nat) : Nat := bitLengthFrom n n

/-- An exact dyadic value that is too large for a double becomes an infinity. -/
def overflowToInf (neg : Bool) (mant : Nat) (exp : Int) : JsNumber :=
  if (bitLength mant : Int) + exp > 1024 then JsNumber.inf neg else JsNumber.fin neg mant exp

/-- Round the exact value `(-1)^neg * mant * 2^exp` to the nearest double (53
significant bits, least exponent -1074), ties to even. -/
def roundToDouble (neg : Bool) (mant : Nat) (exp : Int) : JsNumber :=
  let shift : Int := max ((bitLength mant : Int) - 53) (-1074 - exp)
  if shift ≤ 0 then overflowToInf neg mant exp
  else
    let s := shift.toNat
    let q := mant >>> s
    let r := mant % 2 ^ s
    let half := 2 ^ (s - 1)
    let q1 := if r > half ∨ (r = half ∧ q % 2 = 1) then q + 1 else q
    overflowToInf neg q1 (exp + shift)

/-- JavaScript `isNaN(x)` on a number. -/
def jsIsNaN : JsNumber → Bool
  | JsNumber.nan => true
  | _ => false

/-- JavaScript `parseFloat(x)` on a number: the number is printed and read back, which
returns it unchanged but for the sign of a negative zero. -/
def parseFloat : JsNumber → JsNumber
  | JsNumber.fin _ 0 _ => JsNumber.fin false 0 0
  | x => x

/-- JavaScript `x * 100`. -/
def times100 : JsNumber → JsNumber
  | JsNumber.nan => JsNumber.nan
  | JsNumber.inf neg => JsNumber.inf neg
  | JsNumber.fin neg mant exp => roundToDouble neg (mant * 100) exp

/-- The integer `floor(v + 1/2)` for the finite value `v = (-1)^neg * mant * 2^exp`. -/
def roundHalfUp (neg : Bool) (mant : Nat) (exp : Int) : Int :=
  let m : Int := if neg then -(mant : Int) else (mant : Int)
  if 0 ≤ exp then m * ((2 ^ exp.toNat : Nat) : Int)
  else
    let d : Int := ((2 ^ (-exp).toNat : Nat) : Int)
    Int.fdiv (2 * m + d) (2 * d)

/-- JavaScript `Math.round(x)`. A result of zero keeps the sign of `x`. -/
def mathRound : JsNumber → JsNumber
  | JsNumber.nan => JsNumber.nan
  | JsNumber.inf neg => JsNumber.inf neg
  | JsNumber.fin neg mant exp =>
    let n := roundHalfUp neg mant exp
    JsNumber.fin (if n = 0 then neg else decide (n < 0)) n.natAbs 0

/-- Decimal digits of a natural number, most significant first; `fuel` bounds the
number of digits. -/
def decimalDigits : Nat → Nat → List Char → List Char
  | 0, _, acc => acc
  | fuel + 1, n, acc =>
    let acc1 := Char.ofNat (48 + n % 10) :: acc
    if n / 10 = 0 then acc1 else decimalDigits fuel (n / 10) acc1

/-- Decimal representation of a natural number. -/
def natToDecimal (n : Nat) : String := String.mk (decimalDigits (bitLength n + 1) n [])

/-- The exact integer value of a finite number with a non-negative exponent. -/
def intValue (mant : Nat) (exp : Int) : Nat := mant * 2 ^ exp.toNat

/-- Whether the decimal `s * unit` is read back as the double of value `x`. -/
def readsBackAs (x s unit : Nat) : Bool :=
  match roundToDouble false (s * unit) 0 with
  | JsNumber.fin _ m e => decide (intValue m e = x)
  | _ => false

/-- Search for the shortest significand: for `k = 1, 2, ...` digits, the candidates are
the two multiples of `10^(n-k)` around `x`; the first `k` with a candidate that reads
back as `x` wins, the nearer candidate first and the even one on a tie. -/
def shortestDigits (x n : Nat) : Nat → Nat → Nat × Nat
  | 0, k => (x / 10 ^ (n - k), k)
  | fuel + 1, k =>
    let unit := 10 ^ (n - k)
    let lo := x / unit
    let hi := lo + 1
    let okLo := readsBackAs x lo unit
    let okHi := readsBackAs x hi unit
    let dLo := x - lo * unit
    let dHi := hi * unit - x
    if okLo && okHi then
      (if dLo < dHi then (lo, k) else if dHi < dLo then (hi, k)
       else if lo % 2 = 0 then (lo, k) else (hi, k))
    else if okLo then (lo, k)
    else if okHi then (hi, k)
    else shortestDigits x n fuel (k + 1)

/-- JavaScript `Number.prototype.toString()` for a positive integer value of at least
`10^21`: exponent notation with the shortest significand that reads back. -/
def exponentNotation (x : Nat) : String :=
  let n := (natToDecimal x).length
  let (s, k) := shortestDigits x n 17 1
  let (s1, n1) := if s = 10 ^ k then (10 ^ (k - 1), n + 1) else (s, n)
  let ds := String.mk (((natToDecimal s1).data.reverse.dropWhile (fun c => c = '0')).reverse)
  let head := String.mk (ds.data.take 1)
  let tail := String.mk (ds.data.drop 1)
  (if tail = "" then head else head ++ "." ++ tail) ++ "e+" ++ natToDecimal (n1 - 1)

/-- The integer that the shortest digits of `x` spell: the shortest significand that
reads back as `x`, followed by zeros up to the number of digits of `x`. -/
def shortestValue (x : Nat) : Nat :=
  let n := (natToDecimal x).length
  let (s, k) := shortestDigits x n 17 1
  s * 10 ^ (n - k)

/-- JavaScript `Number.prototype.toString()` for a positive integer value below `10^21`:
the shortest digits that read back as the double, followed by zeros. Below `2^53` every
integer is a double, so no other integer reads back as `x` and all the digits of `x` are
printed. -/
def plainNotation (x : Nat) : String :=
  if x < 2 ^ 53 then natToDecimal x else natToDecimal (shortestValue x)

/-- JavaScript `x.toString()` for a number whose value is an integer, the only numbers
that `Math.round` returns. -/
def numberToString : JsNumber → String
  | JsNumber.nan => "NaN"
  | JsNumber.inf neg => if neg then "-Infinity" else "Infinity"
  | JsNumber.fin neg mant exp =>
    let x := intValue mant exp
    let body := if x < 10 ^ 21 then plainNotation x else exponentNotation x
    if neg && decide (x ≠ 0) then "-" ++ body else body

/-- The number literal for a natural number, as the source writes it. -/
def JsNumber.ofNat (n : Nat) : JsNumber := roundToDouble false n 0

/-- JavaScript truthiness of a number, negated: `!x` holds for `0`, `-0` and `NaN`. -/
def jsNumberFalsy : JsNumber → Bool
  | JsNumber.nan => true
  | JsNumber.fin _ 0 _ => true
  | _ => false

/-- JavaScript `x <= 0` on a number. -/
def jsLeZero : JsNumber → Bool
  | JsNumber.nan => false
  | JsNumber.inf neg => neg
  | JsNumber.fin neg mant _ => neg || decide (mant = 0)

/-- The number literal `0`. -/
def jsZero : JsNumber := JsNumber.fin false 0 0

/-- JavaScript unary minus. -/
def jsNeg : JsNumber → JsNumber
  | JsNumber.nan => JsNumber.nan
  | JsNumber.inf neg => JsNumber.inf (!neg)
  | JsNumber.fin neg mant exp => JsNumber.fin (!neg) mant exp

/-- The integer `(-1)^neg * mant * 2^k`. -/
def signedScaled (neg : Bool) (mant k : Nat) : Int :=
  (if neg then -(mant : Int) else (mant : Int)) * ((2 ^ k : Nat) : Int)

/-- JavaScript `x + y`: the exact sum, rounded to the nearest double. An exact sum of
zero is `-0` only when both operands are `-0`. -/
def jsAdd : JsNumber → JsNumber → JsNumber
  | JsNumber.nan, _ => JsNumber.nan
  | _, JsNumber.nan => JsNumber.nan
  | JsNumber.inf a, JsNumber.inf b => if a = b then JsNumber.inf a else JsNumber.nan
  | JsNumber.inf a, JsNumber.fin _ _ _ => JsNumber.inf a
  | JsNumber.fin _ _ _, JsNumber.inf b => JsNumber.inf b
  | JsNumber.fin na a ea, JsNumber.fin nb b eb =>
    let e := min ea eb
    let s := signedScaled na a (ea - e).toNat + signedScaled nb b (eb - e).toNat
    if s = 0 then JsNumber.fin (na && nb) 0 0
    else roundToDouble (decide (s < 0)) s.natAbs e

/-- JavaScript `x - y`. -/
def jsSub (x y : JsNumber) : JsNumber := jsAdd x (jsNeg y)

/-- JavaScript `x * y`: the exact product, rounded to the nearest double. -/
def jsMul : JsNumber → JsNumber → JsNumber
  | JsNumber.nan, _ => JsNumber.nan
  | _, JsNumber.nan => JsNumber.nan
  | JsNumber.inf a, JsNumber.inf b => JsNumber.inf (xor a b)
  | JsNumber.inf a, JsNumber.fin nb b _ => if b = 0 then JsNumber.nan else JsNumber.inf (xor a nb)
  | JsNumber.fin na a _, JsNumber.inf b => if a = 0 then JsNumber.nan else JsNumber.inf (xor na b)
  | JsNumber.fin na a ea, JsNumber.fin nb b eb => roundToDouble (xor na nb) (a * b) (ea + eb)

/-- JavaScript `Math.floor(x)`. A result of zero keeps the sign of `x`. -/
def mathFloor : JsNumber → JsNumber
  | JsNumber.nan => JsNumber.nan
  | JsNumber.inf neg => JsNumber.inf neg
  | JsNumber.fin neg mant exp =>
    let m : Int := if neg then -(mant : Int) else (mant : Int)
    let n : Int :=
      if 0 ≤ exp then m * ((2 ^ exp.toNat : Nat) : Int)
      else Int.fdiv m ((2 ^ (-exp).toNat : Nat) : Int)
    JsNumber.fin (if n = 0 then neg else decide (n < 0)) n.natAbs 0

/-- JavaScript `Math.pow(10, k)` for an integer `k`, taken as the double nearest to
`10^k`. For `0 ≤ k ≤ 22` the power `10^k` is itself a double. The language leaves the
accuracy of `Math.pow` to the engine, which for other exponents can return a neighbour
of the nearest double; the properties below read the powers with `0 ≤ k ≤ 22` only.
For a negative `k` the quotient `1 / 10^(-k)` is cut after more binary digits than a
double holds, with one more digit set for the rest, which is never zero. -/
def mathPow10 (k : Int) : JsNumber :=
  if 0 ≤ k then roundToDouble false (10 ^ k.toNat) 0
  else
    let s := 4 * (-k).toNat + 64
    roundToDouble false (2 * (2 ^ s / 10 ^ (-k).toNat) + 1) (-((s : Int) + 1))

/-- The number literal `1`. -/
def jsOne : JsNumber := JsNumber.fin false 1 0

/-! ## SHA-256 and HMAC-SHA256 (Node `crypto`) -/

/-- The round constants of SHA-256. -/
def sha256K : List Nat := [
  0x428a2f98, 0x71374491, 0xb5c0fbcf, 0xe9b5dba5, 0x3956c25b, 0x59f111f1, 0x923f82a4, 0xab1c5ed5,
  0xd807aa98, 0x12835b01, 0x243185be, 0x550c7dc3, 0x72be5d74, 0x80deb1fe, 0x9bdc06a7, 0xc19bf174,
  0xe49b69c1, 0xefbe4786, 0x0fc19dc6, 0x240ca1cc, 0x2de92c6f, 0x4a7484aa, 0x5cb0a9dc, 0x76f988da,
  0x983e5152, 0xa831c66d, 0xb00327c8, 0xbf597fc7, 0xc6e00bf3, 0xd5a79147, 0x06ca6351, 0x14292967,
  0x27b70a85, 0x2e1b2138, 0x4d2c6dfc, 0x53380d13, 0x650a7354, 0x766a0abb, 0x81c2c92e, 0x92722c85,
  0xa2bfe8a1, 0xa81a664b, 0xc24b8b70, 0xc76c51a3, 0xd192e819, 0xd6990624, 0xf40e3585, 0x106aa070,
  0x19a4c116, 0x1e376c08, 0x2748774c, 0x34b0bcb5, 0x391c0cb3, 0x4ed8aa4a, 0x5b9cca4f, 0x682e6ff3,
  0x748f82ee, 0x78a5636f, 0x84c87814, 0x8cc70208, 0x90befffa, 0xa4506ceb, 0xbef9a3f7, 0xc67178f2]

/-- The initial hash value of SHA-256. -/
def sha256Init : List Nat :=
  [0x6a09e667, 0xbb67ae85, 0x3c6ef372, 0xa54ff53a, 0x510e527f, 0x9b05688c, 0x1f83d9ab, 0x5be0cd19]

/-- Reduction of a sum to a 32-bit word. -/
def word32 (x : Nat) : Nat := x % 2 ^ 32

/-- Rotation of a 32-bit word to the right. -/
def rotr (x n : Nat) : Nat := ((x >>> n) ||| (x <<< (32 - n))) % 2 ^ 32

/-- The SHA-256 function Ch. -/
def shaCh (x y z : Nat) : Nat := (x &&& y) ^^^ ((x ^^^ 0xffffffff) &&& z)

/-- The SHA-256 function Maj. -/
def shaMaj (x y z : Nat) : Nat := (x &&& y) ^^^ (x &&& z) ^^^ (y &&& z)

/-- The SHA-256 function capital sigma 0. -/
def bigSigma0 (x : Nat) : Nat := rotr x 2 ^^^ rotr x 13 ^^^ rotr x 22

/-- The SHA-256 function capital sigma 1. -/
def bigSigma1 (x : Nat) : Nat := rotr x 6 ^^^ rotr x 11 ^^^ rotr x 25

/-- The SHA-256 function small sigma 0. -/
def smallSigma0 (x : Nat) : Nat := rotr x 7 ^^^ rotr x 18 ^^^ (x >>> 3)

/-- The SHA-256 function small sigma 1. -/
def smallSigma1 (x : Nat) : Nat := rotr x 17 ^^^ rotr x 19 ^^^ (x >>> 10)

/-- Extend a message schedule, kept with its most recent word first, by `n` words. -/
def extendSchedule : Nat → List Nat → List Nat
  | 0, ws => ws
  | n + 1, ws =>
    extendSchedule n
      (word32 (smallSigma1 (ws.getD 1 0) + ws.getD 6 0 + smallSigma0 (ws.getD 14 0)
        + ws.getD 15 0) :: ws)

/-- The 64 words of the message schedule of one 16-word block. -/
def messageSchedule (block : List Nat) : List Nat := (extendSchedule 48 block.reverse).reverse

/-- One round of the compression function on the working variables `a .. h`. -/
def shaRound (s : List Nat) (kw : Nat × Nat) : List Nat :=
  match s with
  | [a, b, c, d, e, f, g, h] =>
    let t1 := h + bigSigma1 e + shaCh e f g + kw.1 + kw.2
    let t2 := bigSigma0 a + shaMaj a b c
    [word32 (t1 + t2), a, b, c, word32 (d + t1), e, f, g]
  | _ => s

/-- The compression function: the hash value after one more block. -/
def shaCompress (hs : List Nat) (block : List Nat) : List Nat :=
  List.zipWith (fun x y => word32 (x + y)) hs
    ((sha256K.zip (messageSchedule block)).foldl shaRound hs)

/-- Big-endian 32-bit words of a byte sequence. -/
def bigEndianWords : List Nat → List Nat
  | a :: b :: c :: d :: rest => (a * 16777216 + b * 65536 + c * 256 + d) :: bigEndianWords rest
  | _ => []

/-- SHA-256 padding: a one bit, zero bits up to 56 modulo 64 bytes, and the bit length
in eight bytes. -/
def shaPad (bytes : List Nat) : List Nat :=
  let l := bytes.length
  bytes ++ [0x80] ++ List.replicate ((119 - l % 64) % 64) 0 ++
    (List.range 8).map (fun i => ((l * 8) >>> (8 * (7 - i))) % 256)

/-- The first `n` blocks of sixteen words. -/
def shaBlocks : Nat → List Nat → List (List Nat)
  | 0, _ => []
  | n + 1, ws => ws.take 16 :: shaBlocks n (ws.drop 16)

/-- The four bytes of a 32-bit word, most significant first. -/
def wordBytes (w : Nat) : List Nat := [w >>> 24 % 256, w >>> 16 % 256, w >>> 8 % 256, w % 256]

/-- SHA-256 of a byte sequence: the 32 bytes of the digest. -/
def sha256 (bytes : List Nat) : List Nat :=
  let ws := bigEndianWords (shaPad bytes)
  ((shaBlocks (ws.length / 16) ws).foldl shaCompress sha256Init).flatMap wordBytes

/-- HMAC (RFC 2104) with SHA-256, block size 64 bytes. -/
def hmacSha256 (key msg : List Nat) : List Nat :=
  let k0 := if key.length > 64 then sha256 key else key
  let k := k0 ++ List.replicate (64 - k0.length) 0
  sha256 (k.map (fun b => b ^^^ 0x5c) ++ sha256 (k.map (fun b => b ^^^ 0x36) ++ msg))

/-- UTF-8 bytes of a character. -/
def utf8Char (c : Char) : List Nat :=
  let n := c.toNat
  if n < 0x80 then [n]
  else if n < 0x800 then [0xC0 ||| (n >>> 6), 0x80 ||| (n &&& 0x3F)]
  else if n < 0x10000 then
    [0xE0 ||| (n >>> 12), 0x80 ||| ((n >>> 6) &&& 0x3F), 0x80 ||| (n &&& 0x3F)]
  else
    [0xF0 ||| (n >>> 18), 0x80 ||| ((n >>> 12) &&& 0x3F), 0x80 ||| ((n >>> 6) &&& 0x3F),
      0x80 ||| (n &&& 0x3F)]

/-- UTF-8 bytes of a string, the encoding `update(string)` uses. -/
def utf8Bytes (s : String) : List Nat := s.data.flatMap utf8Char

/-- Lower-case hexadecimal digit. -/
def hexDigit (n : Nat) : Char := "0123456789abcdef".data.getD n '0'

/-- JavaScript `digest('hex')`: two lower-case hexadecimal digits per byte. -/
def hexOfBytes (bs : List Nat) : String :=
  String.mk (bs.flatMap (fun b => [hexDigit (b / 16), hexDigit (b % 16)]))

/-- JavaScript `crypto.createHash('sha256').update(s).digest('hex')`. -/
def sha256Hex (s : String) : String := hexOfBytes (sha256 (utf8Bytes s))

/-- JavaScript `crypto.createHmac('sha256', key).update(s).digest('hex')`. -/
def hmacSha256Hex (key s : String) : String :=
  hexOfBytes (hmacSha256 (utf8Bytes key) (utf8Bytes s))

/-- JavaScript `s.toLowerCase()` on the ASCII letters, all that a hexadecimal digest
can contain. -/
def toLowerCase (s : String) : String :=
  String.mk (s.data.map (fun c => if 'A' ≤ c ∧ c ≤ 'Z' then Char.ofNat (c.toNat + 32) else c))

/-! ## Configuration (`services/billDeskService.js`, lines 8-29) -/

/-- The process environment: `process.env.NAME` is a string or undefined. -/
abbrev Env := String → Option String

/-- JavaScript `process.env.NAME || fallback`. -/
def envOr (env : Env) (name fallback : String) : String :=
  match env name with
  | some v => jsOr v fallback
  | none => fallback

/-- The keys of the object literal `BILLDESK_CONFIG`. -/
structure BillDeskConfig where
  merchantId : String
  clientId : String
  keyId : String
  encryptionPassword : String
  signingPassword : String
  returnUrl : String
  localReturnUrl : String
  webhookUrl : String
  paymentUrl : String
  sdkJsUrl : String
  flowType : String
  crossButtonHandling : String
  deriving Repr, DecidableEq

/-- The module constant `BILLDESK_CONFIG`, evaluated in a given environment. -/
def BILLDESK_CONFIG (env : Env) : BillDeskConfig where
  merchantId := envOr env "BILLDESK_MERCHANT_ID" "BDUATV2APT"
  clientId := envOr env "BILLDESK_CLIENT_ID" "bduatv2kaptsj"
  keyId := envOr env "BILLDESK_KEY_ID" "88lAHZxdSyXM"
  encryptionPassword := envOr env "BILLDESK_ENCRYPTION_PASSWORD" "4u4akYDyOojgMwgU8xr464yOMmtM2cPe"
  signingPassword := envOr env "BILLDESK_SIGNING_PASSWORD" "xkUzRJ8b3u2z5dmzc0wlAgPFiLQrBsbf"
  returnUrl := envOr env "BILLDESK_RETURN_URL"
    "https://54cd-2409-40f0-11da-bc46-19f2-c574-b602-3639.ngrok-free.app/payment/return"
  localReturnUrl := "http://localhost:5173/payment/return"
  webhookUrl := envOr env "BILLDESK_WEBHOOK_URL"
    "https://54cd-2409-40f0-11da-bc46-19f2-c574-b602-3639.ngrok-free.app/api/payments/billdesk/webhook"
  paymentUrl := "https://uat1.billdesk.com/u2/web/v1_2/embeddedsdk"
  sdkJsUrl := "https://uat1.billdesk.com/u2/assets/js/billdesksdk.js"
  flowType := "payments"
  crossButtonHandling := "Y"

/-- The property read `BILLDESK_CONFIG.checksum` (lines 260 and 350): the object
literal has no key `checksum`, so the read yields `undefined` whatever the
configuration holds. -/
def BillDeskConfig.checksum (_cfg : BillDeskConfig) : Option String := none

/-! ## Signing (`constructMessage`, `generateChecksum`) -/

/-- The function `constructMessage` (lines 141-177). The amount is a number, so the
tests against `undefined` and `null` are settled by the type and `isNaN` remains. -/
def constructMessage (cfg : BillDeskConfig) (refId : String) (amount : JsNumber)
    (customerName customerEmail customerPhone : String) : Except String String :=
  if jsIsNaN amount then Except.error "Invalid amount for BillDesk payment"
  else
    let formattedAmount := numberToString (mathRound (times100 (parseFloat amount)))
    let sanitizedCustomerName :=
      String.mk (collapseSpaces (trimChars (jsOr customerName "Customer").data))
    let sanitizedCustomerEmail :=
      String.mk (trimChars (jsOr customerEmail "customer@example.com").data)
    let sanitizedCustomerPhone :=
      String.mk (digitsOnly (trimChars (jsOr customerPhone "1234567890").data))
    let messageComponents := [
      cfg.merchantId,
      refId,
      formattedAmount,
      "INR",
      sanitizedCustomerName,
      sanitizedCustomerEmail,
      sanitizedCustomerPhone,
      cfg.returnUrl,
      "DIRECT"]
    Except.ok (jsJoin messageComponents)

/-- The function `generateChecksum` (lines 179-196): HMAC-SHA256 of the message under
the signing password, in lower-case hexadecimal. -/
def generateChecksum (cfg : BillDeskConfig) (msg : String) : String :=
  toLowerCase (hmacSha256Hex cfg.signingPassword msg)

/-! ## Stored documents and the database state -/

/-- Status of a Transaction in the BillDesk flow. -/
inductive TxnStatus
  | pending
  | success
  | failed
  deriving Repr, DecidableEq

/-- The enum of `Order.status` (`models/Order.js`, line 98). -/
inductive OrderStatus
  | pending
  | processing
  | shipped
  | delivered
  | cancelled
  | refunded
  deriving Repr, DecidableEq

/-- The enum of `Order.paymentStatus` (`models/Order.js`, line 109). -/
inductive PaymentStatus
  | pending
  | paid
  | failed
  | refunded
  deriving Repr, DecidableEq

/-- The metadata bag of a Transaction: keys in insertion order, a value is a
string or `undefined`. -/
abbrev Metadata := List (String × Option String)

/-- Value stored under a key, if the key is present. -/
def Metadata.get (m : Metadata) (key : String) : Option (Option String) :=
  (m.find? (fun p => p.1 = key)).map Prod.snd

/-- Assignment of one key in an object literal that starts with a spread of `m`:
a key that is present keeps its place and takes the new value, a new key goes last. -/
def Metadata.set (m : Metadata) (key : String) (value : Option String) : Metadata :=
  if m.any (fun p => p.1 = key) then m.map (fun p => if p.1 = key then (key, value) else p)
  else m ++ [(key, value)]

/-- A Transaction document, with the fields the service reads and writes. -/
structure Transaction where
  _id : String
  order : String
  orderNumber : Option String
  amount : JsNumber
  currency : String
  paymentMethod : String
  status : TxnStatus
  metadata : Metadata
  deriving Repr, DecidableEq

/-- The price of a line item. The schema (`models/Order.js`, lines 28-32) requires a
number that is at least 0, so a stored price is neither null nor NaN nor negative: it is
a finite value `mant * 2^exp` or `+Infinity`. -/
inductive Price
  | fin (mant : Nat) (exp : Int)
  | inf
  deriving Repr, DecidableEq

/-- The number a price is. -/
def Price.toNumber : Price → JsNumber
  | Price.fin mant exp => JsNumber.fin false mant exp
  | Price.inf => JsNumber.inf false

/-- A line item of an Order (`OrderItemSchema`). -/
structure OrderItem where
  product : String
  quantity : Nat
  price : Price
  deriving Repr, DecidableEq

/-- An Order document, with the fields the payment flow reads and writes and the fields
the pre-save hook reads and writes. The other paths of the schema, `createdAt` and
`updatedAt` among them, are not part of the record. -/
structure Order where
  _id : String
  orderNumber : String
  customer : String
  items : List OrderItem
  totalAmountUSD : JsNumber
  totalAmountINR : JsNumber
  discountINR : JsNumber
  finalAmount : JsNumber
  status : OrderStatus
  paymentStatus : PaymentStatus
  deriving Repr, DecidableEq

/-- A line of a Cart. -/
structure CartItem where
  product : String
  quantity : Nat
  deriving Repr, DecidableEq

/-- A Cart document. -/
structure Cart where
  _id : String
  user : String
  items : List CartItem
  deriving Repr, DecidableEq

/-- A Product document, with its stock. -/
structure Product where
  _id : String
  stock : Int
  deriving Repr, DecidableEq

/-- A call to the database, as recorded in the trace. -/
inductive DbCall
  | transactionFindOne (orderNumber : Option String)
  | transactionFindById (id : String)
  | transactionSave (id : String)
  | orderFindOne (orderNumber : Option String)
  | orderFindById (id : String)
  | orderSave (id : String)
  | cartFindOne (user : String)
  | cartSave (id : String)
  | productIncStock (id : String) (by_ : Int)
  deriving Repr, DecidableEq

/-- The database: the four collections and the trace of the calls made so far, most
recent last. A handler runs from start to end on this state; interleaving of two
handlers is outside the model. -/
structure Db where
  transactions : List Transaction
  orders : List Order
  carts : List Cart
  products : List Product
  calls : List DbCall
  deriving Repr, DecidableEq

/-- Record a call in the trace. -/
def Db.record (db : Db) (c : DbCall) : Db := { db with calls := db.calls ++ [c] }

/-- The query `Transaction.findOne({ orderNumber })`: the first stored Transaction
with that order number. An `undefined` key is sent as null and matches the documents
without order number. -/
def Transaction.findOne (orderNumber : Option String) (db : Db) : Option Transaction × Db :=
  (db.transactions.find? (fun t => t.orderNumber = orderNumber),
    db.record (DbCall.transactionFindOne orderNumber))

/-- The query `Transaction.findById(id)`. -/
def Transaction.findById (id : String) (db : Db) : Option Transaction × Db :=
  (db.transactions.find? (fun t => t._id = id), db.record (DbCall.transactionFindById id))

/-- The call `transaction.save()` on a document loaded from the store: the stored
document with the same `_id` takes the new field values. -/
def Transaction.save (t : Transaction) (db : Db) : Db :=
  Db.record
    { db with transactions := db.transactions.map (fun (u : Transaction) => if u._id = t._id then t else u) }
    (DbCall.transactionSave t._id)

/-- The query `Order.findOne({ orderNumber })`. Every Order has an order number
(`required: true`), so an `undefined` key matches none. -/
def Order.findOne (orderNumber : Option String) (db : Db) : Option Order × Db :=
  (db.orders.find? (fun o => some o.orderNumber = orderNumber),
    db.record (DbCall.orderFindOne orderNumber))

/-- The method `calculateTotal` (`models/Order.js`, lines 144-166): the totals are
computed again from the line items, the rate 83, the discount and the fee 100, whatever
the document held. A stored price is a number, so the test
`item.price == null || isNaN(item.price)` fails for every item and nothing is thrown. -/
def calculateTotal (o : Order) : Order :=
  let totalUSD := o.items.foldl
    (fun acc item => jsAdd acc (jsMul item.price.toNumber (JsNumber.ofNat item.quantity))) jsZero
  let totalINR := jsMul totalUSD (JsNumber.fin false 83 0)
  let amountAfterDiscount :=
    jsSub totalINR (if jsNumberFalsy o.discountINR then jsZero else o.discountINR)
  { o with
    totalAmountUSD := totalUSD
    totalAmountINR := totalINR
    finalAmount := jsAdd amountAfterDiscount (JsNumber.fin false 100 0) }

/-- The pre-save hook of the Order schema (`models/Order.js`, lines 169-175), on the
document in memory. Its first statement gives an order number to a document without
one; `orderNumber` is `required`, so a stored document has one and the statement does
nothing. Then `calculateTotal` runs. -/
def Order.preSave (o : Order) : Order := calculateTotal o

/-- The call `order.save()` on a document loaded from the store: the pre-save hook
runs on the document in memory, and the stored document with the same `_id` takes the
field values the document then has. -/
def Order.save (o : Order) (db : Db) : Db :=
  Db.record
    { db with
      orders := db.orders.map (fun (u : Order) => if u._id = o._id then Order.preSave o else u) }
    (DbCall.orderSave o._id)

/-- The query `Cart.findOne({ user })`. -/
def Cart.findOne (user : String) (db : Db) : Option Cart × Db :=
  (db.carts.find? (fun c => c.user = user), db.record (DbCall.cartFindOne user))

/-- The call `cart.save()` on a document loaded from the store. -/
def Cart.save (c : Cart) (db : Db) : Db :=
  Db.record
    { db with carts := db.carts.map (fun (u : Cart) => if u._id = c._id then c else u) }
    (DbCall.cartSave c._id)

/-! ## The reconciliation service (`processWebhook`, `handleTransactionReturn`) -/

/-- The parsed body of a request: the `msg` property is a string or `undefined`. -/
structure Body where
  msg : Option String
  deriving Repr, DecidableEq

/-- An Express request; `body` may be `undefined`. -/
structure Request where
  body : Option Body
  deriving Repr, DecidableEq

deriving instance DecidableEq for Except

/-- The object both service functions return. -/
structure ServiceResult where
  success : Bool
  orderNumber : Option String
  status : TxnStatus
  transactionId : String
  deriving Repr, DecidableEq

/-- The `if / else if` chain on the provider status code (lines 289-300 and
376-387). -/
def statusOfCode (txnStatus : Option String) : TxnStatus :=
  if txnStatus = some "0300" then TxnStatus.success
  else if txnStatus = some "0399" then TxnStatus.failed
  else if txnStatus = some "0002" then TxnStatus.pending
  else TxnStatus.failed

/-- The value `calculatedChecksum` both service functions compute (lines 259-261 and
349-351): SHA-256, in hexadecimal, of the fields before the last joined by `|`,
followed by `|` and `BILLDESK_CONFIG.checksum`. -/
def calculatedChecksum (cfg : BillDeskConfig) (responseFields : List String) : String :=
  let dataToVerify := jsJoin (sliceInit responseFields)
  let checksumToVerify := jsConcat (dataToVerify ++ "|") cfg.checksum
  sha256Hex checksumToVerify

/-- The value `receivedChecksum` (lines 258 and 348): the last field. -/
def receivedChecksum (responseFields : List String) : Option String :=
  fieldAt responseFields (responseFields.length - 1)

/-- The object literal assigned to `transaction.metadata` in `processWebhook` (lines
303-312): the spread of the old metadata, then seven keys from the payload. -/
def webhookMetadata (metadata : Metadata) (responseData : String)
    (billDeskTxnId bankTxnId txnAmount : Option String) (responseFields : List String) :
    Metadata :=
  ((((((metadata.set "billDeskResponse" (some responseData)).set
    "billDeskTxnId" billDeskTxnId).set
    "bankTxnId" bankTxnId).set
    "txnAmount" txnAmount).set
    "authStatus" (fieldAt responseFields 7)).set
    "errorStatus" (fieldAt responseFields 17)).set
    "errorDescription" (fieldAt responseFields 18)

/-- The object literal assigned to `transaction.metadata` in `handleTransactionReturn`
(lines 390-399): as in `processWebhook`, with `|| ''` on every field read. -/
def returnMetadata (metadata : Metadata) (responseData : String)
    (responseFields : List String) : Metadata :=
  ((((((metadata.set "billDeskResponse" (some responseData)).set
    "billDeskTxnId" (some (orEmpty (fieldAt responseFields 3)))).set
    "bankTxnId" (some (orEmpty (fieldAt responseFields 4)))).set
    "txnAmount" (some (orEmpty (fieldAt responseFields 5)))).set
    "authStatus" (some (orEmpty (fieldAt responseFields 7)))).set
    "errorStatus" (some (orEmpty (fieldAt responseFields 17)))).set
    "errorDescription" (some (orEmpty (fieldAt responseFields 18)))

/-- The body of the `try` block of `processWebhook` (lines 244-322). -/
def processWebhookTry (cfg : BillDeskConfig) (req : Request) (db : Db) :
    Except String ServiceResult × Db :=
  match req.body with
  | none => (Except.error "No webhook data received", db)
  | some body =>
    match body.msg with
    | none => (Except.error "No webhook data received", db)
    | some responseData =>
      if responseData = "" then (Except.error "No webhook data received", db)
      else
        let responseFields := jsSplit responseData
        if receivedChecksum responseFields ≠ some (calculatedChecksum cfg responseFields) then
          (Except.error "Invalid checksum in webhook", db)
        else
          let merchantId := fieldAt responseFields 0
          let orderNumber := fieldAt responseFields 1
          let txnStatus := fieldAt responseFields 2
          let billDeskTxnId := fieldAt responseFields 3
          let bankTxnId := fieldAt responseFields 4
          let txnAmount := fieldAt responseFields 5
          if merchantId ≠ some cfg.merchantId then
            (Except.error "Invalid merchant ID in webhook", db)
          else
            match Transaction.findOne orderNumber db with
            | (none, db1) => (Except.error "Transaction not found", db1)
            | (some transaction, db1) =>
              let status := statusOfCode txnStatus
              let transaction1 : Transaction :=
                { transaction with
                  status := status
                  metadata :=
                    webhookMetadata transaction.metadata responseData billDeskTxnId bankTxnId
                      txnAmount responseFields }
              let db2 := Transaction.save transaction1 db1
              (Except.ok
                { success := true
                  orderNumber := orderNumber
                  status := status
                  transactionId := transaction1._id }, db2)

/-- The function `processWebhook` (lines 242-327): the `catch` clause rethrows every
error under a prefixed message. -/
def processWebhook (cfg : BillDeskConfig) (req : Request) (db : Db) :
    Except String ServiceResult × Db :=
  match processWebhookTry cfg req db with
  | (Except.error message, db1) =>
    (Except.error ("BillDesk webhook processing failed: " ++ message), db1)
  | (Except.ok result, db1) => (Except.ok result, db1)

/-- The body of the `try` block of `handleTransactionReturn` (lines 336-409). -/
def handleTransactionReturnTry (cfg : BillDeskConfig) (returnData : Option Body) (db : Db) :
    Except String ServiceResult × Db :=
  match returnData with
  | none => (Except.error "No return data received", db)
  | some body =>
    match body.msg with
    | none => (Except.error "No return data received", db)
    | some responseData =>
      if responseData = "" then (Except.error "No return data received", db)
      else
        let responseFields := jsSplit responseData
        if receivedChecksum responseFields ≠ some (calculatedChecksum cfg responseFields) then
          (Except.error "Invalid checksum in return data", db)
        else
          let merchantId := fieldAt responseFields 0
          let orderNumber := fieldAt responseFields 1
          let txnStatus := fieldAt responseFields 2
          if merchantId ≠ some cfg.merchantId then
            (Except.error "Invalid merchant ID in return data", db)
          else
            match Transaction.findOne orderNumber db with
            | (none, db1) => (Except.error "Transaction not found", db1)
            | (some transaction, db1) =>
              let status := statusOfCode txnStatus
              let transaction1 : Transaction :=
                { transaction with
                  status := status
                  metadata := returnMetadata transaction.metadata responseData responseFields }
              let db2 := Transaction.save transaction1 db1
              (Except.ok
                { success := true
                  orderNumber := orderNumber
                  status := status
                  transactionId := transaction1._id }, db2)

/-- The function `handleTransactionReturn` (lines 334-414). -/
def handleTransactionReturn (cfg : BillDeskConfig) (returnData : Option Body) (db : Db) :
    Except String ServiceResult × Db :=
  match handleTransactionReturnTry cfg returnData db with
  | (Except.error message, db1) =>
    (Except.error ("BillDesk return data handling failed: " ++ message), db1)
  | (Except.ok result, db1) => (Except.ok result, db1)

/-! ## The controller (`handleWebhook`, `handlePaymentReturn`) -/

/-- What a handler answers: `res.status(code).json(body)` or `res.redirect(url)`. -/
inductive HttpResponse
  | json (status : Nat) (success : Bool) (message : Option String)
  | redirect (url : String)
  deriving Repr, DecidableEq

/-- Upper-case hexadecimal digit. -/
def upperHexDigit (n : Nat) : Char := "0123456789ABCDEF".data.getD n '0'

/-- Whether `encodeURIComponent` leaves a character as it is. -/
def isUriUnreserved (c : Char) : Bool :=
  let n := c.toNat
  (65 ≤ n && n ≤ 90) || (97 ≤ n && n ≤ 122) || (48 ≤ n && n ≤ 57) ||
  "-_.!~*()".data.contains c || n = 39

/-- JavaScript `encodeURIComponent(s)`. -/
def encodeURIComponent (s : String) : String :=
  String.mk (s.data.flatMap (fun c =>
    if isUriUnreserved c then [c]
    else (utf8Char c).flatMap (fun b => ['%', upperHexDigit (b / 16), upperHexDigit (b % 16)])))

/-- The test `!req.body || !req.body.msg` (line 163). -/
def noWebhookData (req : Request) : Bool :=
  match req.body with
  | none => true
  | some body =>
    match body.msg with
    | none => true
    | some m => decide (m = "")

/-- The function `handleWebhook` (lines 157-200). -/
def handleWebhook (cfg : BillDeskConfig) (req : Request) (db : Db) : HttpResponse × Db :=
  if noWebhookData req then
    (HttpResponse.json 400 false (some "No webhook data received"), db)
  else
    match processWebhook cfg req db with
    | (Except.ok result, db1) =>
      match Order.findOne result.orderNumber db1 with
      | (some order, db2) =>
        let order1 : Order :=
          if result.status = TxnStatus.success then
            { order with paymentStatus := PaymentStatus.paid, status := OrderStatus.processing }
          else if result.status = TxnStatus.failed then
            { order with paymentStatus := PaymentStatus.failed }
          else
            { order with paymentStatus := PaymentStatus.pending }
        let db3 := Order.save order1 db2
        (HttpResponse.json 200 true none, db3)
      | (none, db2) => (HttpResponse.json 200 true none, db2)
    | (Except.error message, db1) => (HttpResponse.json 500 false (some message), db1)

/-- The block that clears the cart after a successful payment (lines 111-122). -/
def clearCart (order : Order) (db : Db) : Db :=
  match Cart.findOne order.customer db with
  | (some cart, db1) => Cart.save { cart with items := [] } db1
  | (none, db1) => db1

/-- The function `handlePaymentReturn` (lines 82-149). -/
def handlePaymentReturn (env : Env) (cfg : BillDeskConfig) (req : Request) (db : Db) :
    HttpResponse × Db :=
  let FRONTEND_URL := envOr env "FRONTEND_URL" "http://localhost:5173"
  match handleTransactionReturn cfg req.body db with
  | (Except.ok result, db1) =>
    match Transaction.findById result.transactionId db1 with
    | (none, db2) =>
      (HttpResponse.redirect (FRONTEND_URL ++ "/payment/failed?message=Transaction not found"), db2)
    | (some _transaction, db2) =>
      match Order.findOne result.orderNumber db2 with
      | (none, db3) =>
        (HttpResponse.redirect (FRONTEND_URL ++ "/payment/failed?message=Order not found"), db3)
      | (some order, db3) =>
        if result.status = TxnStatus.success then
          let order1 : Order :=
            { order with paymentStatus := PaymentStatus.paid, status := OrderStatus.processing }
          let db4 := Order.save order1 db3
          let db5 := clearCart order1 db4
          (HttpResponse.redirect (FRONTEND_URL ++ "/thank-you?orderId=" ++ order1._id), db5)
        else if result.status = TxnStatus.failed then
          let order1 : Order := { order with paymentStatus := PaymentStatus.failed }
          let db4 := Order.save order1 db3
          (HttpResponse.redirect (FRONTEND_URL ++ "/payment/failed?orderId=" ++ order1._id), db4)
        else
          let order1 : Order := { order with paymentStatus := PaymentStatus.pending }
          let db4 := Order.save order1 db3
          (HttpResponse.redirect (FRONTEND_URL ++ "/payment/pending?orderId=" ++ order1._id), db4)
  | (Except.error message, db1) =>
    (HttpResponse.redirect
      (FRONTEND_URL ++ "/payment/failed?message=" ++ encodeURIComponent message), db1)

/-! ## Vocabulary of the properties -/

/-- A request whose body carries the payload `responseData` in `msg`. -/
def requestOf (responseData : String) : Request := { body := some { msg := some responseData } }

/-- Whether a payload passes the checksum test of both service functions (lines 263
and 353). -/
def checksumAccepted (cfg : BillDeskConfig) (responseData : String) : Bool :=
  decide (receivedChecksum (jsSplit responseData)
    = some (calculatedChecksum cfg (jsSplit responseData)))

/-- Whether a payload passes the merchant test of both service functions (lines 276
and 363). -/
def merchantAccepted (cfg : BillDeskConfig) (responseData : String) : Bool :=
  decide (fieldAt (jsSplit responseData) 0 = some cfg.merchantId)

/-- The field `i` of a payload, `none` when the payload has fewer fields. -/
def payloadField (responseData : String) (i : Nat) : Option String :=
  fieldAt (jsSplit responseData) i

/-- A payload closed with the checksum the service calculates: the data, `|`, and the
SHA-256 of the data followed by `|undefined`. No secret enters it. -/
def unkeyedPayload (data : String) : String := data ++ "|" ++ sha256Hex (data ++ "|undefined")

/-- A payload closed with the checksum `generateChecksum` produces. -/
def signedPayload (cfg : BillDeskConfig) (data : String) : String :=
  data ++ "|" ++ generateChecksum cfg data

/-- The stored Transaction a payload refers to. -/
def storedTransaction (db : Db) (orderNumber : Option String) : Option Transaction :=
  db.transactions.find? (fun t => t.orderNumber = orderNumber)

/-- The stored Order a payload refers to. -/
def storedOrder (db : Db) (orderNumber : Option String) : Option Order :=
  db.orders.find? (fun o => some o.orderNumber = orderNumber)

/-- The payment status both handlers write for a transaction status (controller lines
105-139 and 175-182). -/
def paymentStatusOf : TxnStatus → PaymentStatus
  | TxnStatus.success => PaymentStatus.paid
  | TxnStatus.failed => PaymentStatus.failed
  | TxnStatus.pending => PaymentStatus.pending

/-- The Order document in memory after a handler has assigned the fields for a
transaction status (controller lines 105-107, 126-127, 132-134 and 175-182), before
`order.save()`. -/
def applyOutcome (order : Order) (status : TxnStatus) : Order :=
  if status = TxnStatus.success then
    { order with paymentStatus := PaymentStatus.paid, status := OrderStatus.processing }
  else if status = TxnStatus.failed then
    { order with paymentStatus := PaymentStatus.failed }
  else
    { order with paymentStatus := PaymentStatus.pending }

/-- Whether a database call changes the stock of a product. -/
def DbCall.isStockUpdate : DbCall → Bool
  | DbCall.productIncStock _ _ => true
  | _ => false

/-- Whether a database call writes a cart. -/
def DbCall.isCartWrite : DbCall → Bool
  | DbCall.cartSave _ => true
  | _ => false

/-- What a handler may do to the parts of the database outside Transactions and
Orders: nothing to the products and carts, and no call that updates stock or writes a
cart. -/
def Db.sameStockAndCarts (db db1 : Db) : Prop :=
  db1.products = db.products ∧ db1.carts = db.carts ∧
  db1.calls.filter DbCall.isStockUpdate = db.calls.filter DbCall.isStockUpdate ∧
  db1.calls.filter DbCall.isCartWrite = db.calls.filter DbCall.isCartWrite

/-- The value `FRONTEND_URL` that `handlePaymentReturn` reads (controller line 84). -/
def frontendUrl (env : Env) : String := envOr env "FRONTEND_URL" "http://localhost:5173"

/-- The value `sanitizedCustomerName` of `constructMessage` (line 154). -/
def sanitizedName (customerName : String) : String :=
  String.mk (collapseSpaces (trimChars (jsOr customerName "Customer").data))

/-- The value `sanitizedCustomerEmail` of `constructMessage` (line 155). -/
def sanitizedEmail (customerEmail : String) : String :=
  String.mk (trimChars (jsOr customerEmail "customer@example.com").data)

/-- The value `sanitizedCustomerPhone` of `constructMessage` (line 156). -/
def sanitizedPhone (customerPhone : String) : String :=
  String.mk (digitsOnly (trimChars (jsOr customerPhone "1234567890").data))

/-- The value `formattedAmount` of `constructMessage` (line 149). -/
def formattedAmount (amount : JsNumber) : String :=
  numberToString (mathRound (times100 (parseFloat amount)))

/-- The array `messageComponents` of `constructMessage` (lines 160-170). -/
def messageComponents (cfg : BillDeskConfig) (refId : String) (amount : JsNumber)
    (customerName customerEmail customerPhone : String) : List String :=
  [cfg.merchantId, refId, formattedAmount amount, "INR", sanitizedName customerName,
    sanitizedEmail customerEmail, sanitizedPhone customerPhone, cfg.returnUrl, "DIRECT"]

/-! ## Initiating a payment (`createOrder`, `initializePayment`) -/

/-- A User document, with the fields `createOrder` reads; each may be missing. -/
structure User where
  _id : String
  name : Option String
  email : Option String
  phone : Option String
  deriving Repr, DecidableEq

/-- JavaScript `v || fallback` for a value that is a string or `undefined`. -/
def orDefault (v : Option String) (fallback : String) : String :=
  match v with
  | some t => jsOr t fallback
  | none => fallback

/-- The values `createOrder` takes from its runtime: the two readings of `Date.now()`,
the value of `Math.floor(Math.random() * 1000)`, and the `_id` mongoose gives to the new
Transaction document. -/
structure Runtime where
  nowForOrderId : Nat
  random1000 : Nat
  nowForTxnId : Nat
  newTransactionId : String
  deriving Repr, DecidableEq

/-- The object `createOrder` returns (lines 120-129). -/
structure CreateOrderResult where
  success : Bool
  orderId : String
  orderNumber : String
  merchantId : String
  msg : String
  checksum : String
  paymentUrl : String
  transactionId : String
  deriving Repr, DecidableEq

/-- The call `transaction.save()` on a document made with `new Transaction(...)`: the
document is added to the collection. -/
def Transaction.saveNew (t : Transaction) (db : Db) : Db :=
  Db.record { db with transactions := db.transactions ++ [t] } (DbCall.transactionSave t._id)

/-- The value `orderAmount` of `createOrder` (line 56): `order.finalAmount ||
order.totalAmount || order.amount || 0`. The Order schema has no path `totalAmount` or
`amount`, so both reads yield `undefined`. -/
def orderAmountOf (order : Order) : JsNumber :=
  if jsNumberFalsy order.finalAmount then jsZero else order.finalAmount

/-- The test of line 61: `!orderAmount || isNaN(orderAmount) || orderAmount <= 0`. -/
def invalidOrderAmount (orderAmount : JsNumber) : Bool :=
  jsNumberFalsy orderAmount || jsIsNaN orderAmount || jsLeZero orderAmount

/-- The customer details `createOrder` passes to `constructMessage` (lines 72-91): the
defaults, replaced field by field by the truthy fields of the User the order names. A
lookup that throws leaves the defaults, as a lookup that finds nothing does. -/
def customerDetailsOf (users : List User) (customer : String) : String × String × String :=
  if customer = "" then ("Customer", "customer@example.com", "1234567890")
  else
    match users.find? (fun u => u._id = customer) with
    | some customerDetails =>
      (orDefault customerDetails.name "Customer",
        orDefault customerDetails.email "customer@example.com",
        orDefault customerDetails.phone "1234567890")
    | none => ("Customer", "customer@example.com", "1234567890")

/-- The body of the `try` block of `createOrder` (lines 53-129). The User collection is
only read. -/
def createOrderTry (cfg : BillDeskConfig) (users : List User) (rt : Runtime) (order : Order)
    (db : Db) : Except String CreateOrderResult × Db :=
  let orderAmount := orderAmountOf order
  if invalidOrderAmount orderAmount then
    (Except.error "Invalid order amount. Amount must be greater than zero.", db)
  else
    let bdOrderId :=
      jsOr order.orderNumber
        ("ORD-" ++ natToDecimal rt.nowForOrderId ++ "-" ++ natToDecimal rt.random1000)
    let (customerName, customerEmail, customerPhone) := customerDetailsOf users order.customer
    match constructMessage cfg bdOrderId orderAmount customerName customerEmail customerPhone with
    | Except.error message => (Except.error message, db)
    | Except.ok msg =>
      let checksum := generateChecksum cfg msg
      let transaction : Transaction :=
        { _id := rt.newTransactionId
          order := order._id
          orderNumber := some bdOrderId
          amount := orderAmount
          currency := "INR"
          paymentMethod := "billdesk"
          status := TxnStatus.pending
          metadata :=
            [("billDeskOrderId", some bdOrderId),
             ("billDeskTxnId", some ("TXN" ++ natToDecimal rt.nowForTxnId)),
             ("msg", some msg),
             ("checksum", some checksum)] }
      let db1 := Transaction.saveNew transaction db
      (Except.ok
        { success := true
          orderId := order._id
          orderNumber := bdOrderId
          merchantId := cfg.merchantId
          msg := msg
          checksum := checksum
          paymentUrl := cfg.paymentUrl
          transactionId := transaction._id }, db1)

/-- The function `createOrder` (lines 51-134): the `catch` clause rethrows every error
under a prefixed message. -/
def createOrder (cfg : BillDeskConfig) (users : List User) (rt : Runtime) (order : Order)
    (db : Db) : Except String CreateOrderResult × Db :=
  match createOrderTry cfg users rt order db with
  | (Except.error message, db1) =>
    (Except.error ("Failed to create BillDesk order: " ++ message), db1)
  | (Except.ok result, db1) => (Except.ok result, db1)

/-- The cast that mongoose applies to the id handed to `findById` before it queries.
Mongoose is not part of the repository, so the cast is an argument: for a string that
is an ObjectId it yields the id as the stored documents carry it, for any other string
the message of the CastError that `findById` throws. -/
abbrev ObjectIdCast := String → Except String String

/-- The query `Order.findById(id)` for the id of a request: it throws when the id is
not an ObjectId, and no query is sent then. -/
def Order.findById (cast : ObjectIdCast) (id : String) (db : Db) :
    Except String (Option Order) × Db :=
  match cast id with
  | Except.error message => (Except.error message, db)
  | Except.ok key =>
    (Except.ok (db.orders.find? (fun o => o._id = key)), db.record (DbCall.orderFindById key))

/-- The `data` object of the answer of `initializePayment` (lines 56-64). -/
structure PaymentData where
  orderId : String
  orderNumber : String
  transactionId : String
  paymentUrl : String
  merchantId : String
  msg : String
  checksum : String
  deriving Repr, DecidableEq

/-- What `initializePayment` answers: `res.status(code).json(...)` with the payment data
on success and a message otherwise. -/
inductive InitializeResponse
  | ok (data : PaymentData)
  | failure (status : Nat) (message : String)
  deriving Repr, DecidableEq

/-- The function `initializePayment` (controller lines 14-74), for the order id of the
request parameters. An error thrown by `findById` is answered by the outer `catch`
clause. After `order.save()` the document in memory holds what the pre-save hook wrote,
and that document is handed to `createOrder`. -/
def initializePayment (cast : ObjectIdCast) (cfg : BillDeskConfig) (users : List User)
    (rt : Runtime) (orderId : String) (db : Db) : InitializeResponse × Db :=
  match Order.findById cast orderId db with
  | (Except.error message, db1) => (InitializeResponse.failure 500 message, db1)
  | (Except.ok none, db1) => (InitializeResponse.failure 404 "Order not found", db1)
  | (Except.ok (some order), db1) =>
    let order1 : Order := Order.preSave { order with paymentStatus := PaymentStatus.pending }
    let db2 := Order.save { order with paymentStatus := PaymentStatus.pending } db1
    match createOrder cfg users rt order1 db2 with
    | (Except.ok billDeskOrder, db3) =>
      if billDeskOrder.paymentUrl = "" || billDeskOrder.msg = "" || billDeskOrder.checksum = ""
      then
        (InitializeResponse.failure 500 "Missing required payment data from BillDesk service",
          db3)
      else
        (InitializeResponse.ok
          { orderId := order1._id
            orderNumber := order1.orderNumber
            transactionId := billDeskOrder.transactionId
            paymentUrl := billDeskOrder.paymentUrl
            merchantId := billDeskOrder.merchantId
            msg := billDeskOrder.msg
            checksum := billDeskOrder.checksum }, db3)
    | (Except.error message, db3) => (InitializeResponse.failure 500 message, db3)

/-- The stored Order with a given `_id`. -/
def storedOrderById (db : Db) (id : String) : Option Order :=
  db.orders.find? (fun o => o._id = id)

/-- Whether a number is greater than zero. -/
def jsPositive : JsNumber → Bool
  | JsNumber.nan => false
  | JsNumber.inf neg => !neg
  | JsNumber.fin neg mant _ => !neg && decide (mant ≠ 0)

/-- The message `createOrder` builds for an order: `constructMessage` applied to the
order reference, the order amount and the customer details (line 94). -/
def orderMessage (cfg : BillDeskConfig) (users : List User) (order : Order) : String :=
  jsJoin (messageComponents cfg order.orderNumber order.finalAmount
    (customerDetailsOf users order.customer).1
    (customerDetailsOf users order.customer).2.1
    (customerDetailsOf users order.customer).2.2)

/-- The seven metadata keys both service functions write from the payload. -/
def payloadKeys : List String :=
  ["billDeskResponse", "billDeskTxnId", "bankTxnId", "txnAmount", "authStatus", "errorStatus",
    "errorDescription"]

/-! ## Order status transitions (`controllers/paymentController.js`, `updateOrderStatus`) -/

/-- The string a status has in the schema enum. -/
def OrderStatus.name : OrderStatus → String
  | OrderStatus.pending => "pending"
  | OrderStatus.processing => "processing"
  | OrderStatus.shipped => "shipped"
  | OrderStatus.delivered => "delivered"
  | OrderStatus.cancelled => "cancelled"
  | OrderStatus.refunded => "refunded"

/-- The status a string names, if it is one of the six of the schema enum. -/
def OrderStatus.ofName? (s : String) : Option OrderStatus :=
  if s = "pending" then some OrderStatus.pending
  else if s = "processing" then some OrderStatus.processing
  else if s = "shipped" then some OrderStatus.shipped
  else if s = "delivered" then some OrderStatus.delivered
  else if s = "cancelled" then some OrderStatus.cancelled
  else if s = "refunded" then some OrderStatus.refunded
  else none

/-- The object `allowedTransitions` (lines 236-243), read at the key `order.status`. -/
def allowedTransitions : OrderStatus → List String
  | OrderStatus.pending => ["processing", "cancelled"]
  | OrderStatus.processing => ["shipped", "cancelled"]
  | OrderStatus.shipped => ["delivered", "refunded"]
  | OrderStatus.delivered => ["refunded"]
  | OrderStatus.cancelled => []
  | OrderStatus.refunded => []

/-- JavaScript `list.includes(v)` for a value that is a string or `undefined`. -/
def includesValue (list : List String) (v : Option String) : Bool :=
  match v with
  | some s => list.contains s
  | none => false

/-- The call `Product.findByIdAndUpdate(id, { $inc: { stock: n } })`: the stock of the
product with that `_id`, if there is one, grows by `n`. -/
def Product.findByIdAndUpdate (id : String) (n : Int) (db : Db) : Db :=
  Db.record
    { db with
      products := db.products.map (fun (p : Product) =>
        if p._id = id then { p with stock := p.stock + n } else p) }
    (DbCall.productIncStock id n)

/-- The block that restocks the products of an order (lines 259-265): one update per
line item. -/
def restockItems (items : List OrderItem) (db : Db) : Db :=
  items.foldl (fun d item => Product.findByIdAndUpdate item.product (item.quantity : Int) d) db

/-- The two texts of the message catalogue that `updateOrderStatus` uses; the
catalogue itself is not part of the sources at hand. -/
structure Messages where
  orderNotFound : String
  updateSuccess : String
  deriving Repr, DecidableEq

/-- What `updateOrderStatus` answers: `res.status(code).json({ success, data, message })`. -/
structure OrderResponse where
  status : Nat
  success : Bool
  data : Option Order
  message : String
  deriving Repr, DecidableEq

/-- The function `updateOrderStatus` (lines 229-279), for the order id of the request
parameters and the `status` of the request body. The result is the answer sent, or the
error that `asyncHandler` hands to `next`; the error handler is not part of the
sources at hand. The cache invalidation that follows the save does not touch the
database. A requested status that passes the transition test is one of the six names,
so the last branch is not reached; there the schema validation would refuse the save.
The `data` of the answer is the document in memory after the save. -/
def updateOrderStatus (cast : ObjectIdCast) (messages : Messages) (id : String)
    (status : Option String) (db : Db) : Except String OrderResponse × Db :=
  match Order.findById cast id db with
  | (Except.error message, db1) => (Except.error message, db1)
  | (Except.ok none, db1) =>
    (Except.ok { status := 404, success := false, data := none,
                 message := messages.orderNotFound }, db1)
  | (Except.ok (some order), db1) =>
    if !includesValue (allowedTransitions order.status) status then
      (Except.ok { status := 400, success := false, data := none,
                   message := "Invalid status transition." }, db1)
    else
      match status.bind OrderStatus.ofName? with
      | some newStatus =>
        let order1 : Order := { order with status := newStatus }
        let db2 := if newStatus = OrderStatus.cancelled then restockItems order1.items db1 else db1
        let db3 := Order.save order1 db2
        (Except.ok { status := 200, success := true, data := some (Order.preSave order1),
                     message := messages.updateSuccess }, db3)
      | none => (Except.error "Validation failed", db1)

/-- The stock of the product with a given `_id`. -/
def stockOf (db : Db) (id : String) : Option Int :=
  (db.products.find? (fun p => p._id = id)).map Product.stock

/-! ## One-time passwords (`utils/twilioUtils.js`) -/

/-- A value of the map `otpStore`. -/
structure OtpEntry where
  otp : String
  expiresAt : Nat
  deriving Repr, DecidableEq

/-- The map `otpStore`: at most one entry per key, the phone number. -/
abbrev OtpStore := List (String × OtpEntry)

/-- JavaScript `map.get(key)`. -/
def OtpStore.get (store : OtpStore) (key : String) : Option OtpEntry :=
  (store.find? (fun p => p.1 = key)).map Prod.snd

/-- JavaScript `map.delete(key)`. -/
def OtpStore.delete (store : OtpStore) (key : String) : OtpStore :=
  store.filter (fun p => p.1 ≠ key)

/-- The value `formattedPhone` (lines 151-154): the phone number, with a `+` put in
front when it does not start with one. -/
def formatPhone (phoneNumber : String) : String :=
  if phoneNumber.data.head? = some '+' then phoneNumber else "+" ++ phoneNumber

/-- The function `verifyOTP` (lines 144-179), with the reading of `Date.now()` and the
store as arguments; it returns the result and the store it leaves. -/
def verifyOTP (phoneNumber otp : String) (now : Nat) (store : OtpStore) : Bool × OtpStore :=
  if phoneNumber = "" || otp = "" then (false, store)
  else
    let formattedPhone := formatPhone phoneNumber
    match store.get formattedPhone with
    | none => (false, store)
    | some otpData =>
      if now > otpData.expiresAt then (false, store.delete formattedPhone)
      else if otpData.otp = otp then (true, store.delete formattedPhone)
      else (false, store)


/-! ### Generating a code (`generateOTP`) -/

/-- The function `generateOTP` (lines 24-29), with the value of `Math.random()` as an
argument. The source gives `length` the default 6, the only length `sendOTP` asks
for. -/
def generateOTP (length : Nat) (random : JsNumber) : String :=
  let min := mathPow10 ((length : Int) - 1)
  let max := jsSub (mathPow10 (length : Int)) jsOne
  numberToString (mathFloor (jsAdd min (jsMul random (jsAdd (jsSub max min) jsOne))))

/-- Whether a number is a value `Math.random()` can return: a double `r` with
`0 ≤ r < 1`, given by a mantissa below `2^53` and an exponent that is not positive. -/
def isUnitDraw : JsNumber → Bool
  | JsNumber.fin false mant exp =>
    decide (mant < 2 ^ 53) && decide (exp ≤ 0) && decide (mant < 2 ^ (-exp).toNat)
  | _ => false

/-- The exact value `mant * 2^exp` of a finite number that is not negative. -/
def dyadic (mant : Nat) (exp : Int) : ℚ := (mant : ℚ) * (2 : ℚ) ^ exp

/-! ## Plain decimal strings -/

/-- Whether a string is the plain decimal representation of a positive integer: not
empty, decimal digits only, and no zero in front. -/
def isPlainDecimal (s : String) : Bool :=
  !s.data.isEmpty && s.data.all (fun c => decide ('0' ≤ c) && decide (c ≤ '9'))
    && decide (s.data.head? ≠ some '0')

/-- The number a string of decimal digits stands for. -/
def decimalValue (s : String) : Nat :=
  s.data.foldl (fun acc c => 10 * acc + (c.toNat - 48)) 0
/-! ## Sample data -/

/-- The configuration of a process started without any BillDesk variable. -/
def defaultConfig : BillDeskConfig := BILLDESK_CONFIG (fun _ => none)

/-- A Transaction for the order reference `ORD-1`, as `createOrder` stores it, in a
given status. -/
def sampleTransaction (status : TxnStatus) : Transaction where
  _id := "t1"
  order := "o1"
  orderNumber := some "ORD-1"
  amount := JsNumber.fin false 100 0
  currency := "INR"
  paymentMethod := "billdesk"
  status := status
  metadata := [("billDeskOrderId", some "ORD-1"), ("billDeskTxnId", some "TXN0"),
    ("msg", some "m"), ("checksum", some "c")]

/-- The Order `ORD-1` with two units of product `p1` at the price 1. The document
holds the amount 100, while `calculateTotal` makes `2 * 83 - 0 + 100 = 266` of the
items. -/
def sampleOrder (status : OrderStatus) (paymentStatus : PaymentStatus) : Order where
  _id := "o1"
  orderNumber := "ORD-1"
  customer := "u1"
  items := [{ product := "p1", quantity := 2, price := Price.fin 1 0 }]
  totalAmountUSD := JsNumber.fin false 2 0
  totalAmountINR := JsNumber.fin false 166 0
  discountINR := jsZero
  finalAmount := JsNumber.fin false 100 0
  status := status
  paymentStatus := paymentStatus

/-- A database with the sample Transaction and Order, the cart of the customer still
holding the ordered item, ten units of the product in stock, and an empty trace. -/
def sampleDb (txnStatus : TxnStatus) (status : OrderStatus) (paymentStatus : PaymentStatus) :
    Db where
  transactions := [sampleTransaction txnStatus]
  orders := [sampleOrder status paymentStatus]
  carts := [{ _id := "c1", user := "u1", items := [{ product := "p1", quantity := 2 }] }]
  products := [{ _id := "p1", stock := 10 }]
  calls := []

/-- The nineteen data fields of a provider response that reports success (`0300`)
for `ORD-1`. -/
def successData : String :=
  "BDUATV2APT|ORD-1|0300|TXN1|BANK1|10000|HDF|01|NA|INR|NA|NA|NA|NA|NA|NA|NA|NA|NA"

/-- The nineteen data fields of a provider response that reports failure (`0399`)
for `ORD-1`. -/
def failedData : String :=
  "BDUATV2APT|ORD-1|0399|TXN1|BANK1|10000|HDF|01|NA|INR|NA|NA|NA|NA|NA|NA|NA|ERR|declined"

/-- Three data fields only: merchant, order reference, status code. -/
def shortData : String := "BDUATV2APT|ORD-1|0300"

/-- The success response with the merchant id of another merchant. -/
def foreignData : String :=
  "OTHERMERCH|ORD-1|0300|TXN1|BANK1|10000|HDF|01|NA|INR|NA|NA|NA|NA|NA|NA|NA|NA|NA"

/-- A twenty-field payload whose last field is not the calculated checksum. -/
def badChecksumPayload : String := successData ++ "|0000"

/-- The message `constructMessage` builds for `ORD-1`, one hundred rupees and the
customer Asha Rao under the default configuration. -/
def sampleMessage : String :=
  "BDUATV2APT|ORD-1|10000|INR|Asha Rao|asha@example.com|919876543210|" ++
  "https://54cd-2409-40f0-11da-bc46-19f2-c574-b602-3639.ngrok-free.app/payment/return|DIRECT"

/-- The default configuration with another signing password in the environment. -/
def rotatedConfig : BillDeskConfig :=
  BILLDESK_CONFIG (fun name => if name = "BILLDESK_SIGNING_PASSWORD" then some "rotated-secret" else none)

/-- The nineteen data fields of a provider response with a status code the service
does not know (`9999`). -/
def unknownCodeData : String :=
  "BDUATV2APT|ORD-1|9999|TXN1|BANK1|10000|HDF|01|NA|INR|NA|NA|NA|NA|NA|NA|NA|NA|NA"

/-- A success response for the order reference `ORD-404`, which no stored Transaction
has. -/
def unknownRefData : String :=
  "BDUATV2APT|ORD-404|0300|TXN1|BANK1|10000|HDF|01|NA|INR|NA|NA|NA|NA|NA|NA|NA|NA|NA"

/-- The nineteen data fields of a provider response that reports a pending payment
(`0002`) for `ORD-1`. -/
def pendingData : String :=
  "BDUATV2APT|ORD-1|0002|TXN1|BANK1|10000|HDF|01|NA|INR|NA|NA|NA|NA|NA|NA|NA|NA|NA"

/-- The sample database without the Order: the Transaction of `ORD-1` is pending and
no Order has that reference. -/
def sampleDbNoOrder : Db where
  transactions := [sampleTransaction TxnStatus.pending]
  orders := []
  carts := []
  products := [{ _id := "p1", stock := 10 }]
  calls := []

/-- The customer `u1` of the sample Order. -/
def sampleUsers : List User :=
  [{ _id := "u1", name := some "Asha Rao", email := some "asha@example.com",
     phone := some "+91 98765-43210" }]

/-- Runtime values for one call of `createOrder`. -/
def sampleRuntime : Runtime where
  nowForOrderId := 1700000000000
  random1000 := 42
  nowForTxnId := 1700000000001
  newTransactionId := "t2"

/-- The sample Order with a given amount to charge. -/
def sampleOrderOf (finalAmount : JsNumber) : Order :=
  { sampleOrder OrderStatus.pending PaymentStatus.pending with finalAmount := finalAmount }

/-- A database that holds the sample Order, in a given payment status, and nothing
else. -/
def sampleDbBeforePayment (paymentStatus : PaymentStatus) : Db where
  transactions := []
  orders := [sampleOrder OrderStatus.pending paymentStatus]
  carts := []
  products := [{ _id := "p1", stock := 10 }]
  calls := []

/-- The success response for `ORD-1` with the amount field `1` in place of `10000`. -/
def successDataOtherAmount : String :=
  "BDUATV2APT|ORD-1|0300|TXN1|BANK1|1|HDF|01|NA|INR|NA|NA|NA|NA|NA|NA|NA|NA|NA"

/-- The texts of the message catalogue, as far as they matter here. -/
def sampleMessages : Messages where
  orderNotFound := "Order not found"
  updateSuccess := "Order updated successfully"

/-- An OTP store as `sendOTP("+")` leaves it: one entry under the key `+`. -/
def plusStore : OtpStore := [("+", { otp := "123456", expiresAt := 1000 })]


/-- A cast of request ids as mongoose does it for a string of 24 hexadecimal digits,
which it reads as the ObjectId of the same digits in lower case; every other string is
refused here with the message of a CastError. -/
def sampleCast : ObjectIdCast := fun s =>
  if s.data.length = 24 && s.data.all (fun c => "0123456789abcdefABCDEF".data.contains c) then
    Except.ok (toLowerCase s)
  else
    Except.error ("Cast to ObjectId failed for value \"" ++ s ++ "\" (type string) at path \"_id\"")

/-- The `_id` of the Order that the requests for `initializePayment` and
`updateOrderStatus` name. -/
def sampleOrderId : String := "64b7f0c2a1d3e4f5a6b7c8d9"

/-- The sample Order under the `_id` above, in a given status and payment status and
with a given discount. -/
def sampleOrderWithId (status : OrderStatus) (paymentStatus : PaymentStatus)
    (discountINR : JsNumber) : Order :=
  { sampleOrder status paymentStatus with _id := sampleOrderId, discountINR := discountINR }

/-- A database that holds that Order and ten units of its product, and nothing else. -/
def sampleDbWithId (status : OrderStatus) (paymentStatus : PaymentStatus)
    (discountINR : JsNumber) : Db where
  transactions := []
  orders := [sampleOrderWithId status paymentStatus discountINR]
  carts := []
  products := [{ _id := "p1", stock := 10 }]
  calls := []
/-! ## Lemmas on splitting and joining -/

theorem splitChars_ne_nil (cs : List Char) : splitChars cs ≠ [] := by
  cases cs with
  | nil => simp [splitChars]
  | cons c cs =>
    simp only [splitChars]
    split
    · simp
    · split <;> simp

theorem splitChars_cons (c : Char) (cs : List Char) :
    splitChars (c :: cs) =
      if c = pipe then [] :: splitChars cs
      else (c :: (splitChars cs).headD []) :: (splitChars cs).tail := by
  simp only [splitChars]
  cases h : splitChars cs with
  | nil => exact absurd h (splitChars_ne_nil cs)
  | cons f fs => simp

theorem joinChars_cons_head (c : Char) (fs : List (List Char)) (h : fs ≠ []) :
    joinChars ((c :: fs.headD []) :: fs.tail) = c :: joinChars fs := by
  cases fs with
  | nil => exact absurd rfl h
  | cons f gs =>
    cases gs with
    | nil => simp [joinChars]
    | cons g hs => simp [joinChars]

theorem joinChars_nil_cons (fs : List (List Char)) (h : fs ≠ []) :
    joinChars ([] :: fs) = pipe :: joinChars fs := by
  cases fs with
  | nil => exact absurd rfl h
  | cons f gs => simp [joinChars]

theorem joinChars_splitChars (cs : List Char) : joinChars (splitChars cs) = cs := by
  induction cs with
  | nil => simp [splitChars, joinChars]
  | cons c cs ih =>
    rw [splitChars_cons]
    by_cases hc : c = pipe
    · rw [if_pos hc, joinChars_nil_cons _ (splitChars_ne_nil cs), ih, hc]
    · rw [if_neg hc, joinChars_cons_head _ _ (splitChars_ne_nil cs), ih]

theorem splitChars_append_pipe (a b : List Char) :
    splitChars (a ++ pipe :: b) = splitChars a ++ splitChars b := by
  induction a with
  | nil =>
    rw [List.nil_append, splitChars_cons, if_pos rfl]
    simp [splitChars]
  | cons c cs ih =>
    rw [List.cons_append, splitChars_cons, splitChars_cons, ih]
    have hne := splitChars_ne_nil cs
    by_cases hc : c = pipe
    · simp [hc]
    · simp only [hc, if_false]
      cases hs : splitChars cs with
      | nil => exact absurd hs hne
      | cons f fs => simp

theorem splitChars_of_no_pipe (b : List Char) (h : pipe ∉ b) : splitChars b = [b] := by
  induction b with
  | nil => simp [splitChars]
  | cons c cs ih =>
    simp only [List.mem_cons, not_or] at h
    have hc : c ≠ pipe := fun e => h.1 e.symm
    rw [splitChars_cons, if_neg hc, ih h.2]
    simp

theorem hexDigit_ne_pipe (n : Nat) : hexDigit n ≠ pipe := by
  unfold hexDigit
  by_cases h : n < 16
  · interval_cases n <;> decide
  · have : "0123456789abcdef".data.length ≤ n := by simpa using Nat.le_of_not_lt h
    rw [List.getD_eq_default _ _ this]
    decide

theorem pipe_not_mem_hexOfBytes (bs : List Nat) : pipe ∉ (hexOfBytes bs).data := by
  simp only [hexOfBytes, List.mem_flatMap, not_exists, not_and]
  intro b _ hmem
  simp only [List.mem_cons, List.mem_singleton, List.not_mem_nil, or_false] at hmem
  rcases hmem with h | h
  · exact hexDigit_ne_pipe _ h.symm
  · exact hexDigit_ne_pipe _ h.symm

/-! ## Lemmas on payloads -/

theorem jsJoin_jsSplit (d : String) : jsJoin (jsSplit d) = d := by
  simp [jsJoin, jsSplit, List.map_map, Function.comp_def, joinChars_splitChars]

theorem jsSplit_append_field (d h : String) (hp : pipe ∉ h.data) :
    jsSplit (d ++ "|" ++ h) = jsSplit d ++ [h] := by
  have e : (d ++ "|" ++ h).data = d.data ++ pipe :: h.data := by
    simp [String.data_append, pipe]
  simp [jsSplit, e, splitChars_append_pipe, splitChars_of_no_pipe _ hp]

theorem receivedChecksum_concat (fs : List String) (h : String) :
    receivedChecksum (fs ++ [h]) = some h := by
  simp [receivedChecksum, fieldAt]

theorem jsSplit_unkeyedPayload (d : String) :
    jsSplit (unkeyedPayload d) = jsSplit d ++ [sha256Hex (d ++ "|undefined")] :=
  jsSplit_append_field d _ (pipe_not_mem_hexOfBytes _)

theorem checksumAccepted_unkeyedPayload (cfg : BillDeskConfig) (d : String) :
    checksumAccepted cfg (unkeyedPayload d) = true := by
  simp [checksumAccepted, jsSplit_unkeyedPayload, receivedChecksum_concat, calculatedChecksum,
    sliceInit, jsJoin_jsSplit, BillDeskConfig.checksum, jsConcat, String.append_assoc]

theorem payloadField_unkeyedPayload (d : String) (i : Nat) (h : i < (jsSplit d).length) :
    payloadField (unkeyedPayload d) i = payloadField d i := by
  simp [payloadField, fieldAt, jsSplit_unkeyedPayload, List.getElem?_append_left h]

/-! ## Lemmas on the stores -/

theorem find?_map_replace {α : Type} (p : α → Bool) (f : α → α) (new old : α) (l : List α)
    (h : l.find? p = some old) (hf : ∀ u, f u = u ∨ f u = new) (hold : f old = new)
    (hp : p new = true) :
    (l.map f).find? p = some new := by
  induction l with
  | nil => simp at h
  | cons u rest ih =>
    simp only [List.map_cons, List.find?_cons]
    rw [List.find?_cons] at h
    by_cases hu : p u = true
    · simp only [hu, Option.some.injEq] at h
      rw [h, hold, hp]
    · simp only [hu] at h
      rcases hf u with e | e
      · rw [e]
        simp only [hu]
        exact ih h
      · rw [e, hp]

theorem storedTransaction_save (db : Db) (key : Option String) (t t1 : Transaction)
    (h : storedTransaction db key = some t) (hid : t1._id = t._id)
    (hk : t1.orderNumber = t.orderNumber) (c : DbCall) :
    storedTransaction (Transaction.save t1 (db.record c)) key = some t1 := by
  have hkey : t.orderNumber = key := by
    have := List.find?_some h
    simpa using this
  unfold storedTransaction at h ⊢
  simp only [Transaction.save, Db.record]
  refine find?_map_replace _ _ t1 t _ h ?_ ?_ ?_
  · intro u
    by_cases e : u._id = t1._id
    · right; simp [e]
    · left; simp [e]
  · simp [hid]
  · simp [hk, hkey]

theorem Order.preSave_id (o : Order) : (Order.preSave o)._id = o._id := rfl

theorem Order.preSave_orderNumber (o : Order) : (Order.preSave o).orderNumber = o.orderNumber :=
  rfl

theorem Order.preSave_customer (o : Order) : (Order.preSave o).customer = o.customer := rfl

theorem Order.preSave_items (o : Order) : (Order.preSave o).items = o.items := rfl

theorem Order.preSave_status (o : Order) : (Order.preSave o).status = o.status := rfl

theorem Order.preSave_paymentStatus (o : Order) :
    (Order.preSave o).paymentStatus = o.paymentStatus := rfl

theorem storedOrder_save (db : Db) (key : Option String) (o o1 : Order)
    (h : storedOrder db key = some o) (hid : o1._id = o._id)
    (hk : o1.orderNumber = o.orderNumber) :
    storedOrder (Order.save o1 db) key = some (Order.preSave o1) := by
  have hkey : some o.orderNumber = key := by
    have := List.find?_some h
    simpa using this
  unfold storedOrder at h ⊢
  simp only [Order.save, Db.record]
  refine find?_map_replace _ _ (Order.preSave o1) o _ h ?_ ?_ ?_
  · intro u
    by_cases e : u._id = o1._id
    · right; simp [e]
    · left; simp [e]
  · simp [hid]
  · simp [Order.preSave_orderNumber, hk, hkey]

/-! ## The four outcomes of the two service functions -/

theorem requestOf_body (m : String) : (requestOf m).body = some { msg := some m } := rfl

theorem processWebhook_checksum_rejected (cfg : BillDeskConfig) (db : Db) (m : String)
    (hm : m ≠ "") (h : checksumAccepted cfg m = false) :
    processWebhook cfg (requestOf m) db =
      (Except.error "BillDesk webhook processing failed: Invalid checksum in webhook", db) := by
  simp only [checksumAccepted, decide_eq_false_iff_not] at h
  simp [processWebhook, processWebhookTry, requestOf, hm, h]

theorem processWebhook_merchant_rejected (cfg : BillDeskConfig) (db : Db) (m : String)
    (hm : m ≠ "") (hc : checksumAccepted cfg m = true) (h : merchantAccepted cfg m = false) :
    processWebhook cfg (requestOf m) db =
      (Except.error "BillDesk webhook processing failed: Invalid merchant ID in webhook", db) := by
  simp only [checksumAccepted, decide_eq_true_eq] at hc
  simp only [merchantAccepted, decide_eq_false_iff_not] at h
  simp [processWebhook, processWebhookTry, requestOf, hm, hc, h]

theorem processWebhook_unknown (cfg : BillDeskConfig) (db : Db) (m : String)
    (hm : m ≠ "") (hc : checksumAccepted cfg m = true) (hmer : merchantAccepted cfg m = true)
    (ht : storedTransaction db (payloadField m 1) = none) :
    processWebhook cfg (requestOf m) db =
      (Except.error "BillDesk webhook processing failed: Transaction not found",
        db.record (DbCall.transactionFindOne (payloadField m 1))) := by
  simp only [checksumAccepted, decide_eq_true_eq] at hc
  simp only [merchantAccepted, decide_eq_true_eq] at hmer
  simp only [storedTransaction, payloadField] at ht
  simp [processWebhook, processWebhookTry, requestOf, hm, hc, hmer, Transaction.findOne, ht,
    payloadField]

theorem processWebhook_found (cfg : BillDeskConfig) (db : Db) (m : String) (t : Transaction)
    (hm : m ≠ "") (hc : checksumAccepted cfg m = true) (hmer : merchantAccepted cfg m = true)
    (ht : storedTransaction db (payloadField m 1) = some t) :
    processWebhook cfg (requestOf m) db =
      (Except.ok
        { success := true
          orderNumber := payloadField m 1
          status := statusOfCode (payloadField m 2)
          transactionId := t._id },
        Transaction.save
          { t with
            status := statusOfCode (payloadField m 2)
            metadata := webhookMetadata t.metadata m (payloadField m 3) (payloadField m 4)
              (payloadField m 5) (jsSplit m) }
          (db.record (DbCall.transactionFindOne (payloadField m 1)))) := by
  simp only [checksumAccepted, decide_eq_true_eq] at hc
  simp only [merchantAccepted, decide_eq_true_eq] at hmer
  simp only [storedTransaction, payloadField] at ht
  simp [processWebhook, processWebhookTry, requestOf, hm, hc, hmer, Transaction.findOne, ht,
    payloadField]

theorem handleTransactionReturn_checksum_rejected (cfg : BillDeskConfig) (db : Db) (m : String)
    (hm : m ≠ "") (h : checksumAccepted cfg m = false) :
    handleTransactionReturn cfg (requestOf m).body db =
      (Except.error "BillDesk return data handling failed: Invalid checksum in return data",
        db) := by
  simp only [checksumAccepted, decide_eq_false_iff_not] at h
  simp [handleTransactionReturn, handleTransactionReturnTry, requestOf, hm, h]

theorem handleTransactionReturn_merchant_rejected (cfg : BillDeskConfig) (db : Db) (m : String)
    (hm : m ≠ "") (hc : checksumAccepted cfg m = true) (h : merchantAccepted cfg m = false) :
    handleTransactionReturn cfg (requestOf m).body db =
      (Except.error "BillDesk return data handling failed: Invalid merchant ID in return data",
        db) := by
  simp only [checksumAccepted, decide_eq_true_eq] at hc
  simp only [merchantAccepted, decide_eq_false_iff_not] at h
  simp [handleTransactionReturn, handleTransactionReturnTry, requestOf, hm, hc, h]

theorem handleTransactionReturn_unknown (cfg : BillDeskConfig) (db : Db) (m : String)
    (hm : m ≠ "") (hc : checksumAccepted cfg m = true) (hmer : merchantAccepted cfg m = true)
    (ht : storedTransaction db (payloadField m 1) = none) :
    handleTransactionReturn cfg (requestOf m).body db =
      (Except.error "BillDesk return data handling failed: Transaction not found",
        db.record (DbCall.transactionFindOne (payloadField m 1))) := by
  simp only [checksumAccepted, decide_eq_true_eq] at hc
  simp only [merchantAccepted, decide_eq_true_eq] at hmer
  simp only [storedTransaction, payloadField] at ht
  simp [handleTransactionReturn, handleTransactionReturnTry, requestOf, hm, hc, hmer,
    Transaction.findOne, ht, payloadField]

theorem handleTransactionReturn_found (cfg : BillDeskConfig) (db : Db) (m : String)
    (t : Transaction)
    (hm : m ≠ "") (hc : checksumAccepted cfg m = true) (hmer : merchantAccepted cfg m = true)
    (ht : storedTransaction db (payloadField m 1) = some t) :
    handleTransactionReturn cfg (requestOf m).body db =
      (Except.ok
        { success := true
          orderNumber := payloadField m 1
          status := statusOfCode (payloadField m 2)
          transactionId := t._id },
        Transaction.save
          { t with
            status := statusOfCode (payloadField m 2)
            metadata := returnMetadata t.metadata m (jsSplit m) }
          (db.record (DbCall.transactionFindOne (payloadField m 1)))) := by
  simp only [checksumAccepted, decide_eq_true_eq] at hc
  simp only [merchantAccepted, decide_eq_true_eq] at hmer
  simp only [storedTransaction, payloadField] at ht
  simp [handleTransactionReturn, handleTransactionReturnTry, requestOf, hm, hc, hmer,
    Transaction.findOne, ht, payloadField]

/-! ## The outcome of the two handlers on an accepted payload -/

theorem noWebhookData_requestOf (m : String) (hm : m ≠ "") :
    noWebhookData (requestOf m) = false := by
  simp [noWebhookData, requestOf, hm]

theorem handleWebhook_found (cfg : BillDeskConfig) (db : Db) (m : String) (t : Transaction)
    (o : Order) (hm : m ≠ "") (hc : checksumAccepted cfg m = true)
    (hmer : merchantAccepted cfg m = true)
    (ht : storedTransaction db (payloadField m 1) = some t)
    (ho : storedOrder db (payloadField m 1) = some o) :
    handleWebhook cfg (requestOf m) db =
      (HttpResponse.json 200 true none,
        Order.save (applyOutcome o (statusOfCode (payloadField m 2)))
          ((processWebhook cfg (requestOf m) db).2.record
            (DbCall.orderFindOne (payloadField m 1)))) := by
  have h1 := processWebhook_found cfg db m t hm hc hmer ht
  have ho1 : List.find? (fun o => decide (some o.orderNumber = payloadField m 1)) db.orders
      = some o := ho
  simp only [handleWebhook, noWebhookData_requestOf m hm, Bool.false_eq_true, if_false, h1,
    Order.findOne, Transaction.save, Db.record, ho1, applyOutcome]

theorem handleWebhook_no_order (cfg : BillDeskConfig) (db : Db) (m : String) (t : Transaction)
    (hm : m ≠ "") (hc : checksumAccepted cfg m = true)
    (hmer : merchantAccepted cfg m = true)
    (ht : storedTransaction db (payloadField m 1) = some t)
    (ho : storedOrder db (payloadField m 1) = none) :
    handleWebhook cfg (requestOf m) db =
      (HttpResponse.json 200 true none,
        (processWebhook cfg (requestOf m) db).2.record
          (DbCall.orderFindOne (payloadField m 1))) := by
  have h1 := processWebhook_found cfg db m t hm hc hmer ht
  have ho1 : List.find? (fun o => decide (some o.orderNumber = payloadField m 1)) db.orders
      = none := ho
  simp only [handleWebhook, noWebhookData_requestOf m hm, Bool.false_eq_true, if_false, h1,
    Order.findOne, Transaction.save, Db.record, ho1]

theorem findById_after_save (db : Db) (t t1 : Transaction) (c : DbCall)
    (hmem : t ∈ db.transactions) (hid : t1._id = t._id) :
    ∃ x, (Transaction.save t1 (db.record c)).transactions.find? (fun u => u._id = t._id)
      = some x := by
  have hm1 : t1 ∈ (Transaction.save t1 (db.record c)).transactions := by
    simp only [Transaction.save, Db.record, List.mem_map]
    exact ⟨t, hmem, by simp [hid]⟩
  have hs : ((Transaction.save t1 (db.record c)).transactions.find?
      (fun u => u._id = t._id)).isSome = true := by
    rw [List.find?_isSome]
    exact ⟨t1, hm1, by simp [hid]⟩
  exact Option.isSome_iff_exists.mp hs

theorem clearCart_orders (o : Order) (db : Db) : (clearCart o db).orders = db.orders := by
  unfold clearCart Cart.findOne
  cases h : List.find? (fun (c : Cart) => decide (c.user = o.customer)) db.carts <;>
    simp [Cart.save, Db.record]

theorem handlePaymentReturn_found (env : Env) (cfg : BillDeskConfig) (db : Db) (m : String)
    (t : Transaction) (o : Order) (hm : m ≠ "") (hc : checksumAccepted cfg m = true)
    (hmer : merchantAccepted cfg m = true)
    (ht : storedTransaction db (payloadField m 1) = some t)
    (ho : storedOrder db (payloadField m 1) = some o) :
    (handlePaymentReturn env cfg (requestOf m) db).2.orders =
      (Order.save (applyOutcome o (statusOfCode (payloadField m 2))) db).orders := by
  have h1 := handleTransactionReturn_found cfg db m t hm hc hmer ht
  have ho1 : List.find? (fun o => decide (some o.orderNumber = payloadField m 1)) db.orders
      = some o := ho
  obtain ⟨x, hx⟩ := findById_after_save db t
    { t with
      status := statusOfCode (payloadField m 2)
      metadata := returnMetadata t.metadata m (jsSplit m) }
    (DbCall.transactionFindOne (payloadField m 1)) (List.mem_of_find?_eq_some ht) rfl
  simp only [handlePaymentReturn, h1, Transaction.findById, hx]
  simp only [Order.findOne, Transaction.save, Db.record, ho1, applyOutcome]
  split
  · rw [clearCart_orders]; simp [Order.save, Db.record]
  · split <;> simp [Order.save, Db.record]
theorem handleWebhook_found_orders (cfg : BillDeskConfig) (db : Db) (m : String)
    (t : Transaction) (o : Order) (hm : m ≠ "") (hc : checksumAccepted cfg m = true)
    (hmer : merchantAccepted cfg m = true)
    (ht : storedTransaction db (payloadField m 1) = some t)
    (ho : storedOrder db (payloadField m 1) = some o) :
    (handleWebhook cfg (requestOf m) db).2.orders =
      (Order.save (applyOutcome o (statusOfCode (payloadField m 2))) db).orders := by
  rw [handleWebhook_found cfg db m t o hm hc hmer ht ho,
    processWebhook_found cfg db m t hm hc hmer ht]
  simp [Order.save, Transaction.save, Db.record]

theorem storedOrder_congr (db1 db2 : Db) (key : Option String) (h : db1.orders = db2.orders) :
    storedOrder db1 key = storedOrder db2 key := by
  simp [storedOrder, h]

theorem applyOutcome_id (o : Order) (s : TxnStatus) : (applyOutcome o s)._id = o._id := by
  unfold applyOutcome; split <;> [rfl; (split <;> rfl)]

theorem applyOutcome_orderNumber (o : Order) (s : TxnStatus) :
    (applyOutcome o s).orderNumber = o.orderNumber := by
  unfold applyOutcome; split <;> [rfl; (split <;> rfl)]

theorem applyOutcome_paymentStatus (o : Order) (s : TxnStatus) :
    (applyOutcome o s).paymentStatus = paymentStatusOf s := by
  cases s <;> simp [applyOutcome, paymentStatusOf]

theorem applyOutcome_status (o : Order) (s : TxnStatus) :
    (applyOutcome o s).status = if s = TxnStatus.success then OrderStatus.processing else o.status := by
  cases s <;> simp [applyOutcome]

theorem storedOrder_after_handlers (env : Env) (cfg : BillDeskConfig) (db : Db) (m : String)
    (t : Transaction) (o : Order) (hm : m ≠ "") (hc : checksumAccepted cfg m = true)
    (hmer : merchantAccepted cfg m = true)
    (ht : storedTransaction db (payloadField m 1) = some t)
    (ho : storedOrder db (payloadField m 1) = some o) :
    storedOrder (handleWebhook cfg (requestOf m) db).2 (payloadField m 1)
      = some (Order.preSave (applyOutcome o (statusOfCode (payloadField m 2)))) ∧
    storedOrder (handlePaymentReturn env cfg (requestOf m) db).2 (payloadField m 1)
      = some (Order.preSave (applyOutcome o (statusOfCode (payloadField m 2)))) := by
  have hs := storedOrder_save db (payloadField m 1) o
    (applyOutcome o (statusOfCode (payloadField m 2))) ho (applyOutcome_id _ _)
    (applyOutcome_orderNumber _ _)
  constructor
  · rw [storedOrder_congr _ _ _ (handleWebhook_found_orders cfg db m t o hm hc hmer ht ho)]
    exact hs
  · rw [storedOrder_congr _ _ _ (handlePaymentReturn_found env cfg db m t o hm hc hmer ht ho)]
    exact hs
theorem sameStockAndCarts_refl (db : Db) : db.sameStockAndCarts db :=
  ⟨rfl, rfl, rfl, rfl⟩

theorem sameStockAndCarts_trans (a b c : Db) (h1 : a.sameStockAndCarts b)
    (h2 : b.sameStockAndCarts c) : a.sameStockAndCarts c :=
  ⟨h2.1.trans h1.1, h2.2.1.trans h1.2.1, h2.2.2.1.trans h1.2.2.1, h2.2.2.2.trans h1.2.2.2⟩

theorem processWebhook_no_data (cfg : BillDeskConfig) (req : Request) (db : Db)
    (h : noWebhookData req = true) :
    processWebhook cfg req db =
      (Except.error "BillDesk webhook processing failed: No webhook data received", db) := by
  obtain ⟨body⟩ := req
  cases body with
  | none => simp [processWebhook, processWebhookTry]
  | some b =>
    obtain ⟨msg⟩ := b
    cases msg with
    | none => simp [processWebhook, processWebhookTry]
    | some m =>
      have hm : m = "" := by simpa [noWebhookData] using h
      simp [processWebhook, processWebhookTry, hm]

theorem request_cases (req : Request) :
    noWebhookData req = true ∨ ∃ m, m ≠ "" ∧ req = requestOf m := by
  obtain ⟨body⟩ := req
  cases body with
  | none => left; rfl
  | some b =>
    obtain ⟨msg⟩ := b
    cases msg with
    | none => left; rfl
    | some m =>
      by_cases hm : m = ""
      · left; simp [noWebhookData, hm]
      · right; exact ⟨m, hm, rfl⟩

theorem processWebhook_frame (cfg : BillDeskConfig) (req : Request) (db : Db) :
    db.sameStockAndCarts (processWebhook cfg req db).2 ∧
    (processWebhook cfg req db).2.orders = db.orders := by
  rcases request_cases req with h | ⟨m, hm, rfl⟩
  · rw [processWebhook_no_data cfg req db h]
    exact ⟨sameStockAndCarts_refl db, rfl⟩
  · cases hc : checksumAccepted cfg m with
    | false =>
      rw [processWebhook_checksum_rejected cfg db m hm hc]
      exact ⟨sameStockAndCarts_refl db, rfl⟩
    | true =>
      cases hmer : merchantAccepted cfg m with
      | false =>
        rw [processWebhook_merchant_rejected cfg db m hm hc hmer]
        exact ⟨sameStockAndCarts_refl db, rfl⟩
      | true =>
        cases ht : storedTransaction db (payloadField m 1) with
        | none =>
          rw [processWebhook_unknown cfg db m hm hc hmer ht]
          simp [Db.sameStockAndCarts, Db.record, List.filter_append, DbCall.isStockUpdate,
            DbCall.isCartWrite]
        | some t =>
          rw [processWebhook_found cfg db m t hm hc hmer ht]
          simp [Db.sameStockAndCarts, Transaction.save, Db.record, List.filter_append,
            DbCall.isStockUpdate, DbCall.isCartWrite]

theorem handleWebhook_frame (cfg : BillDeskConfig) (req : Request) (db : Db) :
    db.sameStockAndCarts (handleWebhook cfg req db).2 := by
  have hp := processWebhook_frame cfg req db
  unfold handleWebhook
  split
  · exact sameStockAndCarts_refl db
  · cases hr : processWebhook cfg req db with
    | mk r db1 =>
      rw [hr] at hp
      cases r with
      | error e => exact hp.1
      | ok result =>
        simp only
        cases ho : List.find? (fun (o : Order) =>
            decide (some o.orderNumber = result.orderNumber)) db1.orders with
        | none =>
          simp only [Order.findOne, ho]
          refine sameStockAndCarts_trans _ _ _ hp.1 ?_
          simp [Db.sameStockAndCarts, Db.record, List.filter_append, DbCall.isStockUpdate,
            DbCall.isCartWrite]
        | some o =>
          simp only [Order.findOne, ho]
          refine sameStockAndCarts_trans _ _ _ hp.1 ?_
          simp [Db.sameStockAndCarts, Order.save, Db.record, List.filter_append,
            DbCall.isStockUpdate, DbCall.isCartWrite]


/-! ## The answers of the two handlers -/

theorem handleTransactionReturn_no_data (cfg : BillDeskConfig) (req : Request) (db : Db)
    (h : noWebhookData req = true) :
    handleTransactionReturn cfg req.body db =
      (Except.error "BillDesk return data handling failed: No return data received", db) := by
  obtain ⟨body⟩ := req
  cases body with
  | none => simp [handleTransactionReturn, handleTransactionReturnTry]
  | some b =>
    obtain ⟨msg⟩ := b
    cases msg with
    | none => simp [handleTransactionReturn, handleTransactionReturnTry]
    | some m =>
      have hm : m = "" := by simpa [noWebhookData] using h
      simp [handleTransactionReturn, handleTransactionReturnTry, hm]

theorem handleWebhook_error (cfg : BillDeskConfig) (req : Request) (db db1 : Db) (e : String)
    (hd : noWebhookData req = false)
    (h : processWebhook cfg req db = (Except.error e, db1)) :
    handleWebhook cfg req db = (HttpResponse.json 500 false (some e), db1) := by
  simp [handleWebhook, hd, h]

theorem handlePaymentReturn_error (env : Env) (cfg : BillDeskConfig) (req : Request)
    (db db1 : Db) (e : String)
    (h : handleTransactionReturn cfg req.body db = (Except.error e, db1)) :
    handlePaymentReturn env cfg req db =
      (HttpResponse.redirect
        (frontendUrl env ++ "/payment/failed?message=" ++ encodeURIComponent e), db1) := by
  simp [handlePaymentReturn, h, frontendUrl]

theorem handlePaymentReturn_found_full (env : Env) (cfg : BillDeskConfig) (db : Db)
    (m : String) (t : Transaction) (o : Order) (hm : m ≠ "")
    (hc : checksumAccepted cfg m = true) (hmer : merchantAccepted cfg m = true)
    (ht : storedTransaction db (payloadField m 1) = some t)
    (ho : storedOrder db (payloadField m 1) = some o) :
    handlePaymentReturn env cfg (requestOf m) db =
      if statusOfCode (payloadField m 2) = TxnStatus.success then
        (HttpResponse.redirect (frontendUrl env ++ "/thank-you?orderId=" ++ o._id),
          clearCart (applyOutcome o TxnStatus.success)
            (Order.save (applyOutcome o TxnStatus.success)
              (((handleTransactionReturn cfg (requestOf m).body db).2.record
                (DbCall.transactionFindById t._id)).record
                (DbCall.orderFindOne (payloadField m 1)))))
      else if statusOfCode (payloadField m 2) = TxnStatus.failed then
        (HttpResponse.redirect (frontendUrl env ++ "/payment/failed?orderId=" ++ o._id),
          Order.save (applyOutcome o TxnStatus.failed)
            (((handleTransactionReturn cfg (requestOf m).body db).2.record
              (DbCall.transactionFindById t._id)).record
              (DbCall.orderFindOne (payloadField m 1))))
      else
        (HttpResponse.redirect (frontendUrl env ++ "/payment/pending?orderId=" ++ o._id),
          Order.save (applyOutcome o TxnStatus.pending)
            (((handleTransactionReturn cfg (requestOf m).body db).2.record
              (DbCall.transactionFindById t._id)).record
              (DbCall.orderFindOne (payloadField m 1)))) := by
  have h1 := handleTransactionReturn_found cfg db m t hm hc hmer ht
  have ho1 : List.find? (fun o => decide (some o.orderNumber = payloadField m 1)) db.orders
      = some o := ho
  obtain ⟨x, hx⟩ := findById_after_save db t
    { t with
      status := statusOfCode (payloadField m 2)
      metadata := returnMetadata t.metadata m (jsSplit m) }
    (DbCall.transactionFindOne (payloadField m 1)) (List.mem_of_find?_eq_some ht) rfl
  simp only [handlePaymentReturn, h1, Transaction.findById, hx]
  simp only [Order.findOne, Transaction.save, Db.record, ho1, applyOutcome, frontendUrl]
  split
  · simp
  · split <;> simp

theorem handlePaymentReturn_no_order (env : Env) (cfg : BillDeskConfig) (db : Db)
    (m : String) (t : Transaction) (hm : m ≠ "")
    (hc : checksumAccepted cfg m = true) (hmer : merchantAccepted cfg m = true)
    (ht : storedTransaction db (payloadField m 1) = some t)
    (ho : storedOrder db (payloadField m 1) = none) :
    handlePaymentReturn env cfg (requestOf m) db =
      (HttpResponse.redirect (frontendUrl env ++ "/payment/failed?message=Order not found"),
        ((handleTransactionReturn cfg (requestOf m).body db).2.record
          (DbCall.transactionFindById t._id)).record
          (DbCall.orderFindOne (payloadField m 1))) := by
  have h1 := handleTransactionReturn_found cfg db m t hm hc hmer ht
  have ho1 : List.find? (fun o => decide (some o.orderNumber = payloadField m 1)) db.orders
      = none := ho
  obtain ⟨x, hx⟩ := findById_after_save db t
    { t with
      status := statusOfCode (payloadField m 2)
      metadata := returnMetadata t.metadata m (jsSplit m) }
    (DbCall.transactionFindOne (payloadField m 1)) (List.mem_of_find?_eq_some ht) rfl
  simp only [handlePaymentReturn, h1, Transaction.findById, hx]
  simp only [Order.findOne, Transaction.save, Db.record, ho1, frontendUrl]

/-! ## What the handlers leave of the Transactions, the stock and the carts -/

theorem storedTransaction_congr (db1 db2 : Db) (key : Option String)
    (h : db1.transactions = db2.transactions) :
    storedTransaction db1 key = storedTransaction db2 key := by
  simp [storedTransaction, h]

theorem clearCart_transactions (o : Order) (db : Db) :
    (clearCart o db).transactions = db.transactions := by
  unfold clearCart Cart.findOne
  cases h : List.find? (fun (c : Cart) => decide (c.user = o.customer)) db.carts <;>
    simp [Cart.save, Db.record]

theorem clearCart_products (o : Order) (db : Db) :
    (clearCart o db).products = db.products := by
  unfold clearCart Cart.findOne
  cases h : List.find? (fun (c : Cart) => decide (c.user = o.customer)) db.carts <;>
    simp [Cart.save, Db.record]

theorem handleTransactionReturn_frame (cfg : BillDeskConfig) (req : Request) (db : Db) :
    db.sameStockAndCarts (handleTransactionReturn cfg req.body db).2 ∧
    (handleTransactionReturn cfg req.body db).2.orders = db.orders := by
  rcases request_cases req with h | ⟨m, hm, rfl⟩
  · rw [handleTransactionReturn_no_data cfg req db h]
    exact ⟨sameStockAndCarts_refl db, rfl⟩
  · cases hc : checksumAccepted cfg m with
    | false =>
      rw [handleTransactionReturn_checksum_rejected cfg db m hm hc]
      exact ⟨sameStockAndCarts_refl db, rfl⟩
    | true =>
      cases hmer : merchantAccepted cfg m with
      | false =>
        rw [handleTransactionReturn_merchant_rejected cfg db m hm hc hmer]
        exact ⟨sameStockAndCarts_refl db, rfl⟩
      | true =>
        cases ht : storedTransaction db (payloadField m 1) with
        | none =>
          rw [handleTransactionReturn_unknown cfg db m hm hc hmer ht]
          simp [Db.sameStockAndCarts, Db.record, List.filter_append, DbCall.isStockUpdate,
            DbCall.isCartWrite]
        | some t =>
          rw [handleTransactionReturn_found cfg db m t hm hc hmer ht]
          simp [Db.sameStockAndCarts, Transaction.save, Db.record, List.filter_append,
            DbCall.isStockUpdate, DbCall.isCartWrite]

theorem storedTransaction_after_handlers (env : Env) (cfg : BillDeskConfig) (db : Db)
    (m : String) (t : Transaction) (o : Order) (hm : m ≠ "")
    (hc : checksumAccepted cfg m = true) (hmer : merchantAccepted cfg m = true)
    (ht : storedTransaction db (payloadField m 1) = some t)
    (ho : storedOrder db (payloadField m 1) = some o) :
    (storedTransaction (handleWebhook cfg (requestOf m) db).2 (payloadField m 1)).map
        Transaction.status = some (statusOfCode (payloadField m 2)) ∧
    (storedTransaction (handlePaymentReturn env cfg (requestOf m) db).2 (payloadField m 1)).map
        Transaction.status = some (statusOfCode (payloadField m 2)) := by
  have s1 := storedTransaction_save db _ t
    { t with
      status := statusOfCode (payloadField m 2)
      metadata := webhookMetadata t.metadata m (payloadField m 3) (payloadField m 4)
        (payloadField m 5) (jsSplit m) }
    ht rfl rfl (DbCall.transactionFindOne (payloadField m 1))
  have s2 := storedTransaction_save db _ t
    { t with
      status := statusOfCode (payloadField m 2)
      metadata := returnMetadata t.metadata m (jsSplit m) }
    ht rfl rfl (DbCall.transactionFindOne (payloadField m 1))
  have e1 : (handleWebhook cfg (requestOf m) db).2.transactions
      = (processWebhook cfg (requestOf m) db).2.transactions := by
    rw [handleWebhook_found cfg db m t o hm hc hmer ht ho]
    simp [Order.save, Db.record]
  have e2 : (handlePaymentReturn env cfg (requestOf m) db).2.transactions
      = (handleTransactionReturn cfg (requestOf m).body db).2.transactions := by
    rw [handlePaymentReturn_found_full env cfg db m t o hm hc hmer ht ho]
    split
    · simp [clearCart_transactions, Order.save, Db.record]
    · split <;> simp [Order.save, Db.record]
  rw [storedTransaction_congr _ _ _ e1, storedTransaction_congr _ _ _ e2,
    processWebhook_found cfg db m t hm hc hmer ht,
    handleTransactionReturn_found cfg db m t hm hc hmer ht]
  simp only [s1, s2, Option.map_some']
  simp

theorem handlePaymentReturn_frame_not_success (env : Env) (cfg : BillDeskConfig) (db : Db)
    (m : String) (t : Transaction) (o : Order) (hm : m ≠ "")
    (hc : checksumAccepted cfg m = true) (hmer : merchantAccepted cfg m = true)
    (ht : storedTransaction db (payloadField m 1) = some t)
    (ho : storedOrder db (payloadField m 1) = some o)
    (hs : statusOfCode (payloadField m 2) ≠ TxnStatus.success) :
    db.sameStockAndCarts (handlePaymentReturn env cfg (requestOf m) db).2 := by
  have hf := (handleTransactionReturn_frame cfg (requestOf m) db).1
  rw [handlePaymentReturn_found_full env cfg db m t o hm hc hmer ht ho, if_neg hs]
  refine sameStockAndCarts_trans _ _ _ hf ?_
  split <;>
    simp [Db.sameStockAndCarts, Order.save, Db.record, List.filter_append,
      DbCall.isStockUpdate, DbCall.isCartWrite]

/-! ## The two service functions side by side -/

theorem jsOr_empty (s : String) : jsOr s "" = s := by
  unfold jsOr
  split
  · next h => exact h.symm
  · rfl

theorem orEmpty_fieldAt (fs : List String) (i : Nat) (h : i < fs.length) :
    some (orEmpty (fieldAt fs i)) = fieldAt fs i := by
  simp [fieldAt, List.getElem?_eq_getElem h, orEmpty, jsOr_empty]

theorem webhookMetadata_eq_returnMetadata (md : Metadata) (m : String) (fs : List String)
    (h : 19 ≤ fs.length) :
    webhookMetadata md m (fieldAt fs 3) (fieldAt fs 4) (fieldAt fs 5) fs
      = returnMetadata md m fs := by
  unfold webhookMetadata returnMetadata
  rw [orEmpty_fieldAt fs 3 (by omega), orEmpty_fieldAt fs 4 (by omega),
    orEmpty_fieldAt fs 5 (by omega), orEmpty_fieldAt fs 7 (by omega),
    orEmpty_fieldAt fs 17 (by omega), orEmpty_fieldAt fs 18 (by omega)]

/-! ## Lemmas on the message of `constructMessage` -/

theorem constructMessage_eq (cfg : BillDeskConfig) (refId : String) (amount : JsNumber)
    (name email phone : String) (ha : jsIsNaN amount = false) :
    constructMessage cfg refId amount name email phone
      = Except.ok (jsJoin (messageComponents cfg refId amount name email phone)) := by
  simp [constructMessage, ha, messageComponents, sanitizedName, sanitizedEmail, sanitizedPhone,
    formattedAmount]

theorem splitChars_joinChars (fs : List (List Char)) (hne : fs ≠ [])
    (h : ∀ f ∈ fs, pipe ∉ f) : splitChars (joinChars fs) = fs := by
  induction fs with
  | nil => exact absurd rfl hne
  | cons f rest ih =>
    cases rest with
    | nil =>
      simp only [joinChars]
      exact splitChars_of_no_pipe f (h f (List.mem_cons_self _ _))
    | cons g gs =>
      simp only [joinChars]
      rw [splitChars_append_pipe, splitChars_of_no_pipe f (h f (List.mem_cons_self _ _)),
        ih (by simp) (fun x hx => h x (List.mem_cons_of_mem _ hx))]
      rfl

theorem pipe_not_mem_splitChars (cs : List Char) : ∀ f ∈ splitChars cs, pipe ∉ f := by
  induction cs with
  | nil => simp [splitChars]
  | cons c cs ih =>
    rw [splitChars_cons]
    have hne := splitChars_ne_nil cs
    cases hs : splitChars cs with
    | nil => exact absurd hs hne
    | cons g gs =>
      rw [hs] at ih
      by_cases hc : c = pipe
      · simp only [hc, if_true]
        intro f hf
        rcases List.mem_cons.mp hf with e | e
        · simp [e]
        · exact ih f e
      · simp only [hc, if_false, List.headD_cons, List.tail_cons]
        intro f hf
        rcases List.mem_cons.mp hf with e | e
        · rw [e]
          intro hp
          rcases List.mem_cons.mp hp with e1 | e1
          · exact hc e1.symm
          · exact ih g (List.mem_cons_self _ _) e1
        · exact ih f (List.mem_cons_of_mem _ e)

theorem jsSplit_jsJoin (fields : List String) (hne : fields ≠ [])
    (h : ∀ f ∈ fields, pipe ∉ f.data) : jsSplit (jsJoin fields) = fields := by
  have h1 : ∀ f ∈ fields.map String.data, pipe ∉ f := by
    intro f hf
    obtain ⟨s, hs, rfl⟩ := List.mem_map.mp hf
    exact h s hs
  simp only [jsSplit, jsJoin]
  rw [splitChars_joinChars _ (by simpa using hne) h1]
  simp [List.map_map, Function.comp_def]

theorem pipe_not_mem_jsSplit (s : String) : ∀ f ∈ jsSplit s, pipe ∉ f.data := by
  intro f hf
  obtain ⟨cs, hcs, rfl⟩ := List.mem_map.mp hf
  exact pipe_not_mem_splitChars _ cs hcs

theorem splitChars_length_pos (cs : List Char) : 1 ≤ (splitChars cs).length := by
  cases h : splitChars cs with
  | nil => exact absurd h (splitChars_ne_nil cs)
  | cons f fs => simp

theorem splitChars_length_of_pipe (cs : List Char) (h : pipe ∈ cs) :
    2 ≤ (splitChars cs).length := by
  induction cs with
  | nil => simp at h
  | cons c cs ih =>
    rw [splitChars_cons]
    by_cases hc : c = pipe
    · simp only [hc, if_true, List.length_cons]
      have := splitChars_length_pos cs
      omega
    · simp only [hc, if_false, List.length_cons, List.length_tail]
      have hmem : pipe ∈ cs := by
        rcases List.mem_cons.mp h with e | e
        · exact absurd e.symm hc
        · exact e
      have := ih hmem
      omega

theorem length_le_splitChars_joinChars (fs : List (List Char)) (hne : fs ≠ []) :
    fs.length ≤ (splitChars (joinChars fs)).length := by
  induction fs with
  | nil => exact absurd rfl hne
  | cons f rest ih =>
    cases rest with
    | nil => simpa [joinChars] using splitChars_length_pos f
    | cons g gs =>
      simp only [joinChars]
      rw [splitChars_append_pipe, List.length_append]
      have h1 := splitChars_length_pos f
      have h2 := ih (by simp)
      simp only [List.length_cons] at h2 ⊢
      omega

theorem length_lt_splitChars_joinChars (fs : List (List Char)) (f : List Char)
    (hf : f ∈ fs) (hp : pipe ∈ f) : fs.length < (splitChars (joinChars fs)).length := by
  induction fs with
  | nil => simp at hf
  | cons g rest ih =>
    cases rest with
    | nil =>
      have e : f = g := by simpa using hf
      subst e
      simpa [joinChars] using splitChars_length_of_pipe f hp
    | cons g1 gs =>
      simp only [joinChars]
      rw [splitChars_append_pipe, List.length_append]
      rcases List.mem_cons.mp hf with e | e
      · subst e
        have h1 := splitChars_length_of_pipe f hp
        have h2 := length_le_splitChars_joinChars (g1 :: gs) (by simp)
        simp only [List.length_cons] at h2 ⊢
        omega
      · have h1 := splitChars_length_pos g
        have h2 := ih e
        simp only [List.length_cons] at h2 ⊢
        omega

theorem length_lt_jsSplit_jsJoin (fields : List String) (f : String) (hf : f ∈ fields)
    (hp : pipe ∈ f.data) : fields.length < (jsSplit (jsJoin fields)).length := by
  have := length_lt_splitChars_joinChars (fields.map String.data) f.data
    (List.mem_map.mpr ⟨f, hf, rfl⟩) hp
  simpa [jsSplit, jsJoin] using this

theorem isJsSpace_pipe : isJsSpace pipe = false := by decide

theorem mem_dropWhile_of_false (p : Char → Bool) (c : Char) (l : List Char) (h : c ∈ l)
    (hc : p c = false) : c ∈ l.dropWhile p := by
  induction l with
  | nil => simp at h
  | cons x xs ih =>
    rw [List.dropWhile_cons]
    by_cases hx : p x = true
    · rw [if_pos hx]
      rcases List.mem_cons.mp h with e | e
      · rw [e, hx] at hc; exact absurd hc (by simp)
      · exact ih e
    · rw [if_neg hx]; exact h

theorem mem_trimChars (c : Char) (cs : List Char) (h : c ∈ cs) (hc : isJsSpace c = false) :
    c ∈ trimChars cs := by
  unfold trimChars
  rw [List.mem_reverse]
  apply mem_dropWhile_of_false _ _ _ _ hc
  rw [List.mem_reverse]
  exact mem_dropWhile_of_false _ _ _ h hc

theorem mem_collapseSpacesFrom (c : Char) (cs : List Char) (h : c ∈ cs)
    (hc : isJsSpace c = false) : ∀ b, c ∈ collapseSpacesFrom b cs := by
  induction cs with
  | nil => simp at h
  | cons x xs ih =>
    intro b
    rcases List.mem_cons.mp h with e | e
    · subst e
      simp [collapseSpacesFrom, hc]
    · simp only [collapseSpacesFrom]
      split
      · split
        · exact ih e true
        · exact List.mem_cons_of_mem _ (ih e true)
      · exact List.mem_cons_of_mem _ (ih e false)

theorem jsOr_of_mem (s d : String) (c : Char) (h : c ∈ s.data) : jsOr s d = s := by
  unfold jsOr
  split
  · next e => rw [e] at h; simp at h
  · rfl

theorem pipe_mem_sanitizedName (name : String) (h : pipe ∈ name.data) :
    pipe ∈ (sanitizedName name).data := by
  simp only [sanitizedName, jsOr_of_mem name _ pipe h, collapseSpaces]
  exact mem_collapseSpacesFrom _ _ (mem_trimChars _ _ h isJsSpace_pipe) isJsSpace_pipe false

theorem pipe_mem_sanitizedEmail (email : String) (h : pipe ∈ email.data) :
    pipe ∈ (sanitizedEmail email).data := by
  simp only [sanitizedEmail, jsOr_of_mem email _ pipe h]
  exact mem_trimChars _ _ h isJsSpace_pipe

theorem pipe_not_mem_sanitizedPhone (phone : String) : pipe ∉ (sanitizedPhone phone).data := by
  simp only [sanitizedPhone, digitsOnly, List.mem_filter, not_and]
  intro _
  decide

/-! ## Lemmas on `createOrder` -/

theorem invalidOrderAmount_of_not_positive (order : Order)
    (h : jsPositive order.finalAmount = false) :
    invalidOrderAmount (orderAmountOf order) = true := by
  unfold orderAmountOf invalidOrderAmount
  cases hf : order.finalAmount with
  | nan => simp [jsNumberFalsy, jsZero]
  | inf neg =>
    rw [hf] at h
    simp [jsPositive] at h
    simp [jsNumberFalsy, jsIsNaN, jsLeZero, h]
  | fin neg mant exp =>
    rw [hf] at h
    cases mant with
    | zero => simp [jsNumberFalsy, jsZero]
    | succ k =>
      simp [jsPositive] at h
      simp [jsNumberFalsy, jsIsNaN, jsLeZero, h]

theorem orderAmount_of_positive (order : Order) (h : jsPositive order.finalAmount = true) :
    orderAmountOf order = order.finalAmount ∧
    invalidOrderAmount order.finalAmount = false ∧
    jsIsNaN order.finalAmount = false := by
  unfold orderAmountOf invalidOrderAmount
  cases hf : order.finalAmount with
  | nan => rw [hf] at h; simp [jsPositive] at h
  | inf neg =>
    rw [hf] at h
    simp [jsPositive] at h
    simp [jsNumberFalsy, jsIsNaN, jsLeZero, h]
  | fin neg mant exp =>
    rw [hf] at h
    cases mant with
    | zero => simp [jsPositive] at h
    | succ k =>
      simp [jsPositive] at h
      simp [jsNumberFalsy, jsIsNaN, jsLeZero, h]

theorem createOrder_rejected (cfg : BillDeskConfig) (users : List User) (rt : Runtime)
    (order : Order) (db : Db) (h : jsPositive order.finalAmount = false) :
    createOrder cfg users rt order db =
      (Except.error
        "Failed to create BillDesk order: Invalid order amount. Amount must be greater than zero.",
        db) := by
  simp [createOrder, createOrderTry, invalidOrderAmount_of_not_positive order h]

theorem createOrder_accepted (cfg : BillDeskConfig) (users : List User) (rt : Runtime)
    (order : Order) (db : Db) (h : jsPositive order.finalAmount = true)
    (hn : order.orderNumber ≠ "") :
    createOrder cfg users rt order db =
      (Except.ok
        { success := true
          orderId := order._id
          orderNumber := order.orderNumber
          merchantId := cfg.merchantId
          msg := orderMessage cfg users order
          checksum := generateChecksum cfg (orderMessage cfg users order)
          paymentUrl := cfg.paymentUrl
          transactionId := rt.newTransactionId },
        Transaction.saveNew
          { _id := rt.newTransactionId
            order := order._id
            orderNumber := some order.orderNumber
            amount := order.finalAmount
            currency := "INR"
            paymentMethod := "billdesk"
            status := TxnStatus.pending
            metadata :=
              [("billDeskOrderId", some order.orderNumber),
               ("billDeskTxnId", some ("TXN" ++ natToDecimal rt.nowForTxnId)),
               ("msg", some (orderMessage cfg users order)),
               ("checksum", some (generateChecksum cfg (orderMessage cfg users order)))] }
          db) := by
  obtain ⟨h1, h2, h3⟩ := orderAmount_of_positive order h
  have hj : jsOr order.orderNumber
      ("ORD-" ++ natToDecimal rt.nowForOrderId ++ "-" ++ natToDecimal rt.random1000)
      = order.orderNumber := by
    simp [jsOr, hn]
  simp only [createOrder, createOrderTry, h1, h2, hj, Bool.false_eq_true, if_false,
    constructMessage_eq cfg _ _ _ _ _ h3, orderMessage]

theorem createOrder_orders (cfg : BillDeskConfig) (users : List User) (rt : Runtime)
    (order : Order) (db : Db) :
    (createOrder cfg users rt order db).2.orders = db.orders := by
  unfold createOrder createOrderTry
  by_cases hv : invalidOrderAmount (orderAmountOf order) = true
  · simp [hv]
  · simp only [hv, Bool.false_eq_true, if_false]
    cases hm : constructMessage cfg
        (jsOr order.orderNumber
          ("ORD-" ++ natToDecimal rt.nowForOrderId ++ "-" ++ natToDecimal rt.random1000))
        (orderAmountOf order) (customerDetailsOf users order.customer).1
        (customerDetailsOf users order.customer).2.1
        (customerDetailsOf users order.customer).2.2 with
    | error e => simp [hm]
    | ok msg => simp [hm, Transaction.saveNew, Db.record]

theorem storedOrderById_save (db : Db) (id : String) (o o1 : Order)
    (h : storedOrderById db id = some o) (hid : o1._id = o._id) :
    storedOrderById (Order.save o1 db) id = some (Order.preSave o1) := by
  have hkey : o._id = id := by
    have := List.find?_some h
    simpa using this
  unfold storedOrderById at h ⊢
  simp only [Order.save, Db.record]
  refine find?_map_replace _ _ (Order.preSave o1) o _ h ?_ ?_ ?_
  · intro u
    by_cases e : u._id = o1._id
    · right; simp [e]
    · left; simp [e]
  · simp [hid]
  · simp [Order.preSave_id, hid, hkey]

theorem initializePayment_cast_error (cast : ObjectIdCast) (cfg : BillDeskConfig)
    (users : List User) (rt : Runtime) (orderId : String) (db : Db) (message : String)
    (hcast : cast orderId = Except.error message) :
    initializePayment cast cfg users rt orderId db
      = (InitializeResponse.failure 500 message, db) := by
  simp [initializePayment, Order.findById, hcast]

theorem initializePayment_found (cast : ObjectIdCast) (cfg : BillDeskConfig)
    (users : List User) (rt : Runtime) (orderId key : String) (db : Db) (o : Order)
    (hcast : cast orderId = Except.ok key) (h : storedOrderById db key = some o) :
    (initializePayment cast cfg users rt orderId db).2.orders
      = (Order.save { o with paymentStatus := PaymentStatus.pending } db).orders := by
  have h1 : List.find? (fun (u : Order) => decide (u._id = key)) db.orders = some o := h
  simp only [initializePayment, Order.findById, hcast, h1]
  cases hc : createOrder cfg users rt
      (Order.preSave { o with paymentStatus := PaymentStatus.pending })
      (Order.save { o with paymentStatus := PaymentStatus.pending }
        (db.record (DbCall.orderFindById key))) with
  | mk r db3 =>
    have ho := createOrder_orders cfg users rt
      (Order.preSave { o with paymentStatus := PaymentStatus.pending })
      (Order.save { o with paymentStatus := PaymentStatus.pending }
        (db.record (DbCall.orderFindById key)))
    rw [hc] at ho
    cases r with
    | error e => simpa [Order.save, Db.record] using ho
    | ok res =>
      simp only
      split <;> simpa [Order.save, Db.record] using ho

theorem initializePayment_not_found (cast : ObjectIdCast) (cfg : BillDeskConfig)
    (users : List User) (rt : Runtime) (orderId key : String) (db : Db)
    (hcast : cast orderId = Except.ok key) (h : storedOrderById db key = none) :
    initializePayment cast cfg users rt orderId db
      = (InitializeResponse.failure 404 "Order not found",
          db.record (DbCall.orderFindById key)) := by
  have h1 : List.find? (fun (u : Order) => decide (u._id = key)) db.orders = none := h
  simp [initializePayment, Order.findById, hcast, h1]

/-! ## Lemmas on metadata -/

theorem find?_map_set_other (md : Metadata) (key k : String) (value : Option String)
    (hk : k ≠ key) :
    (md.map (fun p => if p.1 = key then (key, value) else p)).find? (fun p => p.1 = k)
      = md.find? (fun p => p.1 = k) := by
  induction md with
  | nil => rfl
  | cons p rest ih =>
    simp only [List.map_cons, List.find?_cons]
    by_cases hp : p.1 = key
    · have h1 : ¬ key = k := fun e => hk e.symm
      have h2 : ¬ p.1 = k := fun e => hk (e.symm.trans hp)
      simp only [hp, if_true, h1, h2, decide_False]
      exact ih
    · simp only [hp, if_false]
      by_cases hpk : p.1 = k
      · simp [hpk]
      · simp only [hpk, decide_False]
        exact ih

theorem find?_map_set_self (md : Metadata) (key : String) (value : Option String)
    (h : ∃ p ∈ md, p.1 = key) :
    (md.map (fun p => if p.1 = key then (key, value) else p)).find? (fun p => p.1 = key)
      = some (key, value) := by
  induction md with
  | nil => obtain ⟨p, hp, _⟩ := h; simp at hp
  | cons p rest ih =>
    simp only [List.map_cons, List.find?_cons]
    by_cases hp : p.1 = key
    · simp [hp]
    · simp only [hp, if_false, decide_False]
      apply ih
      obtain ⟨q, hq, hqk⟩ := h
      rcases List.mem_cons.mp hq with e | e
      · rw [e] at hqk; exact absurd hqk hp
      · exact ⟨q, e, hqk⟩

theorem Metadata.get_set (md : Metadata) (key : String) (value : Option String)
    (k : String) :
    (md.set key value).get k = if k = key then some value else md.get k := by
  unfold Metadata.set Metadata.get
  by_cases hany : md.any (fun p => p.1 = key) = true
  · rw [if_pos hany]
    have hex : ∃ p ∈ md, p.1 = key := by
      obtain ⟨p, hp, hpk⟩ := List.any_eq_true.mp hany
      exact ⟨p, hp, by simpa using hpk⟩
    by_cases hk : k = key
    · subst hk
      rw [find?_map_set_self md k value hex]
      simp
    · rw [find?_map_set_other md key k value hk]
      simp [hk]
  · rw [if_neg hany]
    have hnone : ∀ q ∈ md, ¬ q.1 = key := by
      intro q hq hqk
      exact hany (List.any_eq_true.mpr ⟨q, hq, by simpa using hqk⟩)
    rw [List.find?_append]
    by_cases hk : k = key
    · subst hk
      have : List.find? (fun (p : String × Option String) => decide (p.1 = k)) md = none := by
        rw [List.find?_eq_none]
        intro q hq
        simpa using hnone q hq
      simp [this]
    · have hne : ¬ key = k := fun e => hk e.symm
      simp [hk, hne]

theorem webhookMetadata_get_other (md : Metadata) (m : String) (a b c : Option String)
    (fs : List String) (k : String) (hk : k ∉ payloadKeys) :
    (webhookMetadata md m a b c fs).get k = md.get k := by
  simp only [payloadKeys, List.mem_cons, List.mem_singleton, List.not_mem_nil, or_false,
    not_or] at hk
  obtain ⟨h1, h2, h3, h4, h5, h6, h7⟩ := hk
  simp [webhookMetadata, Metadata.get_set, h1, h2, h3, h4, h5, h6, h7]

theorem returnMetadata_get_other (md : Metadata) (m : String) (fs : List String) (k : String)
    (hk : k ∉ payloadKeys) :
    (returnMetadata md m fs).get k = md.get k := by
  simp only [payloadKeys, List.mem_cons, List.mem_singleton, List.not_mem_nil, or_false,
    not_or] at hk
  obtain ⟨h1, h2, h3, h4, h5, h6, h7⟩ := hk
  simp [returnMetadata, Metadata.get_set, h1, h2, h3, h4, h5, h6, h7]

theorem webhookMetadata_get_keys (md : Metadata) (m : String) (a b c : Option String)
    (fs : List String) :
    (webhookMetadata md m a b c fs).get "billDeskResponse" = some (some m) ∧
    (webhookMetadata md m a b c fs).get "billDeskTxnId" = some a ∧
    (webhookMetadata md m a b c fs).get "bankTxnId" = some b ∧
    (webhookMetadata md m a b c fs).get "txnAmount" = some c ∧
    (webhookMetadata md m a b c fs).get "authStatus" = some (fieldAt fs 7) ∧
    (webhookMetadata md m a b c fs).get "errorStatus" = some (fieldAt fs 17) ∧
    (webhookMetadata md m a b c fs).get "errorDescription" = some (fieldAt fs 18) := by
  simp [webhookMetadata, Metadata.get_set]

theorem returnMetadata_get_keys (md : Metadata) (m : String) (fs : List String) :
    (returnMetadata md m fs).get "billDeskResponse" = some (some m) ∧
    (returnMetadata md m fs).get "billDeskTxnId" = some (some (orEmpty (fieldAt fs 3))) ∧
    (returnMetadata md m fs).get "bankTxnId" = some (some (orEmpty (fieldAt fs 4))) ∧
    (returnMetadata md m fs).get "txnAmount" = some (some (orEmpty (fieldAt fs 5))) ∧
    (returnMetadata md m fs).get "authStatus" = some (some (orEmpty (fieldAt fs 7))) ∧
    (returnMetadata md m fs).get "errorStatus" = some (some (orEmpty (fieldAt fs 17))) ∧
    (returnMetadata md m fs).get "errorDescription"
      = some (some (orEmpty (fieldAt fs 18))) := by
  simp [returnMetadata, Metadata.get_set]

theorem storedTransaction_after_services (cfg : BillDeskConfig) (db : Db) (m : String)
    (t : Transaction) (hm : m ≠ "") (hc : checksumAccepted cfg m = true)
    (hmer : merchantAccepted cfg m = true)
    (ht : storedTransaction db (payloadField m 1) = some t) :
    storedTransaction (processWebhook cfg (requestOf m) db).2 (payloadField m 1)
      = some { t with
          status := statusOfCode (payloadField m 2)
          metadata := webhookMetadata t.metadata m (payloadField m 3) (payloadField m 4)
            (payloadField m 5) (jsSplit m) } ∧
    storedTransaction (handleTransactionReturn cfg (requestOf m).body db).2 (payloadField m 1)
      = some { t with
          status := statusOfCode (payloadField m 2)
          metadata := returnMetadata t.metadata m (jsSplit m) } := by
  rw [processWebhook_found cfg db m t hm hc hmer ht,
    handleTransactionReturn_found cfg db m t hm hc hmer ht]
  have s1 := storedTransaction_save db _ t
    { t with
      status := statusOfCode (payloadField m 2)
      metadata := webhookMetadata t.metadata m (payloadField m 3) (payloadField m 4)
        (payloadField m 5) (jsSplit m) }
    ht rfl rfl (DbCall.transactionFindOne (payloadField m 1))
  have s2 := storedTransaction_save db _ t
    { t with
      status := statusOfCode (payloadField m 2)
      metadata := returnMetadata t.metadata m (jsSplit m) }
    ht rfl rfl (DbCall.transactionFindOne (payloadField m 1))
  exact ⟨s1, s2⟩


theorem payloadField_unkeyedPayload_beyond (d : String) (i : Nat)
    (h : (jsSplit d).length + 1 ≤ i) : payloadField (unkeyedPayload d) i = none := by
  simp only [payloadField, fieldAt, jsSplit_unkeyedPayload, List.get?_eq_getElem?]
  apply List.getElem?_eq_none
  simpa using h

set_option maxRecDepth 1000000 in
theorem sample_amount_payloads_agree :
    ∀ i, i ≠ 5 → i + 1 ≠ (jsSplit (unkeyedPayload successData)).length →
      payloadField (unkeyedPayload successData) i
        = payloadField (unkeyedPayload successDataOtherAmount) i := by
  have l1 : (jsSplit successData).length = 19 := by decide
  have l2 : (jsSplit successDataOtherAmount).length = 19 := by decide
  intro i h5 hl
  rw [jsSplit_unkeyedPayload, List.length_append, l1] at hl
  simp only [List.length_singleton] at hl
  by_cases hi : i < 19
  · rw [payloadField_unkeyedPayload _ i (by omega), payloadField_unkeyedPayload _ i (by omega)]
    interval_cases i <;> first | decide | exact absurd rfl h5
  · rw [payloadField_unkeyedPayload_beyond _ i (by omega),
      payloadField_unkeyedPayload_beyond _ i (by omega)]

/-! ## Lemmas on `updateOrderStatus` -/

theorem includesValue_allowed (s : OrderStatus) (v : Option String)
    (h : includesValue (allowedTransitions s) v = true) :
    ∃ n, v = some n.name ∧ v.bind OrderStatus.ofName? = some n ∧ n ≠ s := by
  cases v with
  | none => simp [includesValue] at h
  | some x =>
    cases s <;> simp [includesValue, allowedTransitions] at h
    · rcases h with h | h <;> subst h
      · exact ⟨OrderStatus.processing, rfl, by decide, by decide⟩
      · exact ⟨OrderStatus.cancelled, rfl, by decide, by decide⟩
    · rcases h with h | h <;> subst h
      · exact ⟨OrderStatus.shipped, rfl, by decide, by decide⟩
      · exact ⟨OrderStatus.cancelled, rfl, by decide, by decide⟩
    · rcases h with h | h <;> subst h
      · exact ⟨OrderStatus.delivered, rfl, by decide, by decide⟩
      · exact ⟨OrderStatus.refunded, rfl, by decide, by decide⟩
    · subst h
      exact ⟨OrderStatus.refunded, rfl, by decide, by decide⟩

theorem restockItems_orders (items : List OrderItem) (db : Db) :
    (restockItems items db).orders = db.orders := by
  unfold restockItems
  induction items generalizing db with
  | nil => rfl
  | cons i rest ih =>
    simp only [List.foldl_cons]
    rw [ih]
    simp [Product.findByIdAndUpdate, Db.record]

theorem restockItems_products (items : List OrderItem) (db : Db) :
    (restockItems items db).products
      = items.foldl (fun ps item => ps.map (fun (p : Product) =>
          if p._id = item.product then { p with stock := p.stock + (item.quantity : Int) }
          else p)) db.products := by
  unfold restockItems
  induction items generalizing db with
  | nil => rfl
  | cons i rest ih =>
    simp only [List.foldl_cons]
    rw [ih]
    simp [Product.findByIdAndUpdate, Db.record]

theorem updateOrderStatus_cast_error (cast : ObjectIdCast) (messages : Messages)
    (id : String) (status : Option String) (db : Db) (message : String)
    (hcast : cast id = Except.error message) :
    updateOrderStatus cast messages id status db = (Except.error message, db) := by
  simp [updateOrderStatus, Order.findById, hcast]

theorem updateOrderStatus_rejected (cast : ObjectIdCast) (messages : Messages)
    (id key : String) (status : Option String) (db : Db) (o : Order)
    (hcast : cast id = Except.ok key) (h : storedOrderById db key = some o)
    (hn : includesValue (allowedTransitions o.status) status = false) :
    updateOrderStatus cast messages id status db
      = (Except.ok { status := 400, success := false, data := none,
                     message := "Invalid status transition." },
          db.record (DbCall.orderFindById key)) := by
  have h1 : List.find? (fun (u : Order) => decide (u._id = key)) db.orders = some o := h
  simp [updateOrderStatus, Order.findById, hcast, h1, hn]

theorem updateOrderStatus_accepted (cast : ObjectIdCast) (messages : Messages)
    (id key : String) (status : Option String) (db : Db) (o : Order) (n : OrderStatus)
    (hcast : cast id = Except.ok key) (h : storedOrderById db key = some o)
    (hy : includesValue (allowedTransitions o.status) status = true)
    (hn : status.bind OrderStatus.ofName? = some n) :
    updateOrderStatus cast messages id status db
      = (Except.ok { status := 200, success := true,
                     data := some (Order.preSave { o with status := n }),
                     message := messages.updateSuccess },
          Order.save { o with status := n }
            (if n = OrderStatus.cancelled then
              restockItems o.items (db.record (DbCall.orderFindById key))
             else db.record (DbCall.orderFindById key))) := by
  have h1 : List.find? (fun (u : Order) => decide (u._id = key)) db.orders = some o := h
  simp [updateOrderStatus, Order.findById, hcast, h1, hy, hn]

theorem OtpStore.get_delete_self (store : OtpStore) (key : String) :
    (store.delete key).get key = none := by
  unfold OtpStore.get OtpStore.delete
  rw [Option.map_eq_none', List.find?_eq_none]
  intro p hp
  have := (List.mem_filter.mp hp).2
  simpa using this

theorem find?_filter_of_imp {α : Type} (f g : α → Bool) (l : List α)
    (h : ∀ a, g a = true → f a = true) : (l.filter f).find? g = l.find? g := by
  induction l with
  | nil => rfl
  | cons a rest ih =>
    cases hg : g a
    · cases hf : f a
      · rw [List.filter_cons_of_neg (by simp [hf]), List.find?_cons_of_neg _ (by simp [hg])]
        exact ih
      · rw [List.filter_cons_of_pos hf, List.find?_cons_of_neg _ (by simp [hg]),
          List.find?_cons_of_neg _ (by simp [hg])]
        exact ih
    · rw [List.filter_cons_of_pos (h a hg), List.find?_cons_of_pos _ hg,
        List.find?_cons_of_pos _ hg]

theorem OtpStore.get_delete_other (store : OtpStore) (key other : String) (h : other ≠ key) :
    (store.delete key).get other = store.get other := by
  unfold OtpStore.get OtpStore.delete
  rw [find?_filter_of_imp]
  intro a ha
  have e : a.1 = other := by simpa using ha
  simpa [e] using h

theorem verifyOTP_empty (phoneNumber otp : String) (now : Nat) (store : OtpStore)
    (h : phoneNumber = "" ∨ otp = "") : verifyOTP phoneNumber otp now store = (false, store) := by
  unfold verifyOTP
  rcases h with h | h <;> simp [h]

theorem verifyOTP_absent (phoneNumber otp : String) (now : Nat) (store : OtpStore)
    (h : store.get (formatPhone phoneNumber) = none) :
    verifyOTP phoneNumber otp now store = (false, store) := by
  unfold verifyOTP
  split
  · rfl
  · simp only [h]

theorem verifyOTP_present (phoneNumber otp : String) (now : Nat) (store : OtpStore)
    (e : OtpEntry) (hp : phoneNumber ≠ "") (ho : otp ≠ "")
    (h : store.get (formatPhone phoneNumber) = some e) :
    verifyOTP phoneNumber otp now store =
      if now > e.expiresAt then (false, store.delete (formatPhone phoneNumber))
      else if e.otp = otp then (true, store.delete (formatPhone phoneNumber))
      else (false, store) := by
  unfold verifyOTP
  simp only [hp, ho, decide_False, Bool.or_self, Bool.false_eq_true, if_false, h]
theorem lt_two_pow_bitLengthFrom (fuel n : Nat) (h : n ≤ fuel) :
    n < 2 ^ bitLengthFrom fuel n := by
  induction fuel generalizing n with
  | zero =>
    have : n = 0 := Nat.le_zero.mp h
    subst this
    simp [bitLengthFrom]
  | succ f ih =>
    unfold bitLengthFrom
    by_cases hn : n = 0
    · simp [hn]
    · rw [if_neg hn]
      have h2 : n / 2 ≤ f := by omega
      have := ih (n / 2) h2
      rw [pow_succ]
      omega

theorem lt_ten_pow_bitLength (n : Nat) : n < 10 ^ (bitLength n + 1) := by
  have h1 := lt_two_pow_bitLengthFrom n n (Nat.le_refl n)
  have h2 : 2 ^ bitLength n ≤ 10 ^ bitLength n := Nat.pow_le_pow_left (by decide) _
  have h3 : 10 ^ bitLength n ≤ 10 ^ (bitLength n + 1) := Nat.pow_le_pow_right (by decide) (by omega)
  unfold bitLength at h2 h3 ⊢
  omega

theorem decimalDigits_eq_digits (fuel n : Nat) (acc : List Char) (h : n < 10 ^ fuel)
    (hn : 0 < n) :
    decimalDigits fuel n acc
      = (Nat.digits 10 n).reverse.map (fun d => Char.ofNat (48 + d)) ++ acc := by
  induction fuel generalizing n acc with
  | zero => simp at h; omega
  | succ f ih =>
    unfold decimalDigits
    rw [Nat.digits_def' (by decide) hn]
    by_cases hz : n / 10 = 0
    · simp [hz]
    · have hlt : n / 10 < 10 ^ f := by
        rw [pow_succ] at h
        omega
      simp only [hz, if_false]
      rw [ih (n / 10) _ hlt (by omega)]
      simp

theorem natToDecimal_data (n : Nat) (hn : 0 < n) :
    (natToDecimal n).data = (Nat.digits 10 n).reverse.map (fun d => Char.ofNat (48 + d)) := by
  unfold natToDecimal
  simp [decimalDigits_eq_digits _ n [] (lt_ten_pow_bitLength n) hn]

theorem digitChar_toNat (d : Nat) (h : d < 10) : (Char.ofNat (48 + d)).toNat = 48 + d := by
  interval_cases d <;> rfl

theorem digitChar_isDigit (d : Nat) (h : d < 10) :
    (decide ('0' ≤ Char.ofNat (48 + d)) && decide (Char.ofNat (48 + d) ≤ '9')) = true := by
  interval_cases d <;> decide

theorem digitChar_ne_zero (d : Nat) (h : d < 10) (h0 : d ≠ 0) : Char.ofNat (48 + d) ≠ '0' := by
  interval_cases d <;> first | exact absurd rfl h0 | decide

theorem decimalValue_digits (l : List Nat) (h : ∀ d ∈ l, d < 10) :
    (l.reverse.map (fun d => Char.ofNat (48 + d))).foldl
      (fun acc c => 10 * acc + (c.toNat - 48)) 0 = Nat.ofDigits 10 l := by
  induction l with
  | nil => rfl
  | cons d t ih =>
    have hd : d < 10 := h d (List.mem_cons_self _ _)
    have ht : ∀ x ∈ t, x < 10 := fun x hx => h x (List.mem_cons_of_mem _ hx)
    rw [List.reverse_cons, List.map_append, List.foldl_append, ih ht, Nat.ofDigits_cons]
    simp only [List.map_cons, List.map_nil, List.foldl_cons, List.foldl_nil,
      digitChar_toNat d hd]
    simp
    omega

theorem natToDecimal_plain (n : Nat) (hn : 0 < n) :
    isPlainDecimal (natToDecimal n) = true ∧ decimalValue (natToDecimal n) = n := by
  have hd := natToDecimal_data n hn
  have hne : Nat.digits 10 n ≠ [] := Nat.digits_ne_nil_iff_ne_zero.mpr (by omega)
  have hlt : ∀ d ∈ Nat.digits 10 n, d < 10 := fun d hd => Nat.digits_lt_base (by decide) hd
  refine ⟨?_, ?_⟩
  · unfold isPlainDecimal
    rw [hd]
    simp only [Bool.and_eq_true, Bool.not_eq_true', decide_eq_true_eq]
    refine ⟨⟨?_, ?_⟩, ?_⟩
    · simpa using hne
    · rw [List.all_eq_true]
      intro c hc
      obtain ⟨d, hdm, rfl⟩ := List.mem_map.mp hc
      exact digitChar_isDigit d (hlt d (List.mem_reverse.mp hdm))
    · have hlast := Nat.getLast_digit_ne_zero 10 (by omega : n ≠ 0)
      rw [List.head?_map, List.head?_reverse, List.getLast?_eq_getLast _ hne]
      simp only [Option.map_some', ne_eq, Option.some.injEq]
      exact digitChar_ne_zero _ (hlt _ (List.getLast_mem hne)) hlast
  · unfold decimalValue
    rw [hd, decimalValue_digits _ hlt, Nat.ofDigits_digits]
theorem roundHalfUp_nearest (m : Nat) (e : Int) :
    0 ≤ roundHalfUp false m e ∧
    (0 ≤ e → roundHalfUp false m e = (m : Int) * ((2 ^ e.toNat : Nat) : Int)) ∧
    (e < 0 →
      2 * ((2 ^ (-e).toNat : Nat) : Int) * roundHalfUp false m e
        ≤ 2 * (m : Int) + ((2 ^ (-e).toNat : Nat) : Int) ∧
      2 * (m : Int) + ((2 ^ (-e).toNat : Nat) : Int)
        < 2 * ((2 ^ (-e).toNat : Nat) : Int) * (roundHalfUp false m e + 1)) := by
  unfold roundHalfUp
  simp only [Bool.false_eq_true, if_false]
  by_cases he : 0 ≤ e
  · rw [if_pos he]
    exact ⟨by positivity, fun _ => rfl, fun h => absurd he (by omega)⟩
  · rw [if_neg he]
    have hd : (0 : Int) < ((2 ^ (-e).toNat : Nat) : Int) := by positivity
    have h2d : (0 : Int) < 2 * ((2 ^ (-e).toNat : Nat) : Int) := by omega
    rw [Int.fdiv_eq_ediv _ (le_of_lt h2d)]
    refine ⟨Int.ediv_nonneg (by positivity) (le_of_lt h2d), fun h => absurd h he, fun _ => ?_⟩
    constructor
    · exact Int.mul_ediv_self_le (ne_of_gt h2d)
    · exact Int.lt_mul_ediv_self_add h2d

theorem overflowToInf_sign (neg : Bool) (m : Nat) (e : Int) (neg1 : Bool) (m1 : Nat) (e1 : Int)
    (h : overflowToInf neg m e = JsNumber.fin neg1 m1 e1) : neg1 = neg := by
  unfold overflowToInf at h
  split at h
  · exact absurd h (by simp)
  · injection h with h1 _ _
    exact h1.symm

theorem roundToDouble_sign (neg : Bool) (m : Nat) (e : Int) (neg1 : Bool) (m1 : Nat) (e1 : Int)
    (h : roundToDouble neg m e = JsNumber.fin neg1 m1 e1) : neg1 = neg := by
  unfold roundToDouble at h
  simp only at h
  split at h
  · exact overflowToInf_sign _ _ _ _ _ _ h
  · exact overflowToInf_sign _ _ _ _ _ _ h

theorem plainNotation_small (n : Nat) (h : n < 2 ^ 53) : plainNotation n = natToDecimal n := by
  unfold plainNotation
  rw [if_pos h]

theorem formattedAmount_of_product (amount : JsNumber) (m : Nat) (e : Int)
    (h : times100 (parseFloat amount) = JsNumber.fin false m e) :
    formattedAmount amount =
      if (roundHalfUp false m e).natAbs < 10 ^ 21 then plainNotation (roundHalfUp false m e).natAbs
      else exponentNotation (roundHalfUp false m e).natAbs := by
  have h0 := (roundHalfUp_nearest m e).1
  unfold formattedAmount
  rw [h]
  unfold mathRound numberToString intValue
  simp only [Int.toNat_zero, pow_zero, mul_one]
  have hs : (if roundHalfUp false m e = 0 then false else decide (roundHalfUp false m e < 0))
      = false := by
    split
    · rfl
    · simp; omega
  rw [hs]
  simp

theorem exponentNotation_has_e (x : Nat) : 'e' ∈ (exponentNotation x).data := by
  unfold exponentNotation
  simp only [String.data_append]
  simp

theorem overflowToInf_inf_sign (neg : Bool) (m : Nat) (e : Int) (neg1 : Bool)
    (h : overflowToInf neg m e = JsNumber.inf neg1) : neg1 = neg := by
  unfold overflowToInf at h
  split at h
  · injection h with h1
    exact h1.symm
  · exact absurd h (by simp)

theorem roundToDouble_inf_sign (neg : Bool) (m : Nat) (e : Int) (neg1 : Bool)
    (h : roundToDouble neg m e = JsNumber.inf neg1) : neg1 = neg := by
  unfold roundToDouble at h
  simp only at h
  split at h
  · exact overflowToInf_inf_sign _ _ _ _ h
  · exact overflowToInf_inf_sign _ _ _ _ h

theorem overflowToInf_ne_nan (neg : Bool) (m : Nat) (e : Int) :
    overflowToInf neg m e ≠ JsNumber.nan := by
  unfold overflowToInf
  split <;> simp

theorem roundToDouble_ne_nan (neg : Bool) (m : Nat) (e : Int) :
    roundToDouble neg m e ≠ JsNumber.nan := by
  unfold roundToDouble
  simp only
  split
  · exact overflowToInf_ne_nan _ _ _
  · exact overflowToInf_ne_nan _ _ _

theorem times100_of_positive (amount : JsNumber) (h : jsPositive amount = true) :
    (∀ (neg : Bool) (m : Nat) (e : Int),
      times100 (parseFloat amount) = JsNumber.fin neg m e → neg = false) ∧
    (∀ neg : Bool, times100 (parseFloat amount) = JsNumber.inf neg → neg = false) ∧
    times100 (parseFloat amount) ≠ JsNumber.nan := by
  cases amount with
  | nan => simp [jsPositive] at h
  | inf neg =>
    simp [jsPositive] at h
    subst h
    simp [parseFloat, times100]
  | fin neg mant exp =>
    cases mant with
    | zero => simp [jsPositive] at h
    | succ k =>
      simp [jsPositive] at h
      subst h
      simp only [parseFloat, times100]
      refine ⟨fun neg m e hr => roundToDouble_sign _ _ _ _ _ _ hr,
        fun neg hr => roundToDouble_inf_sign _ _ _ _ hr, ?_⟩
      exact roundToDouble_ne_nan _ _ _

theorem createOrder_msg (cfg : BillDeskConfig) (users : List User) (rt : Runtime)
    (order : Order) (db : Db) (h : jsPositive order.finalAmount = true) :
    (createOrder cfg users rt order db).1.toOption.map CreateOrderResult.msg
      = some (jsJoin (messageComponents cfg
          (jsOr order.orderNumber
            ("ORD-" ++ natToDecimal rt.nowForOrderId ++ "-" ++ natToDecimal rt.random1000))
          order.finalAmount
          (customerDetailsOf users order.customer).1
          (customerDetailsOf users order.customer).2.1
          (customerDetailsOf users order.customer).2.2)) := by
  obtain ⟨h1, h2, h3⟩ := orderAmount_of_positive order h
  simp only [createOrder, createOrderTry, h1, h2, Bool.false_eq_true, if_false,
    constructMessage_eq cfg _ _ _ _ _ h3]
  rfl
theorem two_pow_pred_bitLengthFrom_le (fuel n : Nat) (h : n ≤ fuel) (hn : 0 < n) :
    2 ^ (bitLengthFrom fuel n - 1) ≤ n := by
  induction fuel generalizing n with
  | zero => omega
  | succ f ih =>
    unfold bitLengthFrom
    rw [if_neg (by omega)]
    simp only [Nat.add_sub_cancel]
    by_cases h2 : n / 2 = 0
    · have : bitLengthFrom f (n / 2) = 0 := by
        rw [h2]
        cases f <;> simp [bitLengthFrom]
      rw [this]
      simpa using hn
    · have hle : n / 2 ≤ f := by omega
      have := ih (n / 2) hle (by omega)
      have hb : 0 < bitLengthFrom f (n / 2) := by
        cases f with
        | zero => omega
        | succ g =>
          unfold bitLengthFrom
          rw [if_neg h2]
          omega
      have e : bitLengthFrom f (n / 2) = (bitLengthFrom f (n / 2) - 1) + 1 := by omega
      rw [e, pow_succ]
      omega

theorem two_pow_pred_bitLength_le (n : Nat) (hn : 0 < n) : 2 ^ (bitLength n - 1) ≤ n :=
  two_pow_pred_bitLengthFrom_le n n (Nat.le_refl n) hn

theorem lt_two_pow_bitLength (n : Nat) : n < 2 ^ bitLength n :=
  lt_two_pow_bitLengthFrom n n (Nat.le_refl n)

theorem bitLength_le_of_lt (n j : Nat) (h : n < 2 ^ j) : bitLength n ≤ j := by
  by_cases hn : n = 0
  · subst hn
    simp [bitLength, bitLengthFrom]
  · by_contra hc
    have h1 := two_pow_pred_bitLength_le n (by omega)
    have h2 : 2 ^ j ≤ 2 ^ (bitLength n - 1) := Nat.pow_le_pow_right (by decide) (by omega)
    omega

/-- The rounded quotient of `roundToDouble`, as a function of the mantissa and the
number of digits dropped. -/
theorem roundShift_props (mant s : Nat) (hs : 0 < s) :
    (∀ b, mant ≤ b * 2 ^ s →
      (if mant % 2 ^ s > 2 ^ (s - 1) ∨ (mant % 2 ^ s = 2 ^ (s - 1) ∧ (mant >>> s) % 2 = 1)
        then mant >>> s + 1 else mant >>> s) ≤ b) ∧
    (∀ b, b * 2 ^ s ≤ mant →
      b ≤ (if mant % 2 ^ s > 2 ^ (s - 1) ∨ (mant % 2 ^ s = 2 ^ (s - 1) ∧ (mant >>> s) % 2 = 1)
        then mant >>> s + 1 else mant >>> s)) ∧
    (∀ b, 2 * mant < (2 * b + 1) * 2 ^ s →
      (if mant % 2 ^ s > 2 ^ (s - 1) ∨ (mant % 2 ^ s = 2 ^ (s - 1) ∧ (mant >>> s) % 2 = 1)
        then mant >>> s + 1 else mant >>> s) ≤ b) := by
  have hP : 2 ^ s = 2 * 2 ^ (s - 1) := by
    conv_lhs => rw [show s = (s - 1) + 1 by omega]
    rw [pow_succ]
    ring
  have hh : 0 < 2 ^ (s - 1) := by positivity
  rw [Nat.shiftRight_eq_div_pow]
  have hdm := Nat.div_add_mod mant (2 ^ s)
  have hml := Nat.mod_lt mant (show 0 < 2 ^ s by positivity)
  generalize mant / 2 ^ s = q at *
  generalize mant % 2 ^ s = r at *
  generalize 2 ^ (s - 1) = h at *
  generalize 2 ^ s = P at *
  subst hP
  refine ⟨?_, ?_, ?_⟩
  · intro b hb
    have hq : q ≤ b := by
      by_contra hc
      have : (b + 1) * (2 * h) ≤ q * (2 * h) := Nat.mul_le_mul_right _ (by omega)
      nlinarith
    split
    · rename_i hc
      have hr : 0 < r := by
        rcases hc with hc | hc <;> omega
      by_contra hc2
      have hqb : q = b := by omega
      subst hqb
      nlinarith
    · exact hq
  · intro b hb
    have hq : b ≤ q := by
      by_contra hc
      have : (q + 1) * (2 * h) ≤ b * (2 * h) := Nat.mul_le_mul_right _ (by omega)
      nlinarith
    split <;> omega
  · intro b hb
    have hq : q ≤ b := by
      by_contra hc
      have : (b + 1) * (2 * h) ≤ q * (2 * h) := Nat.mul_le_mul_right _ (by omega)
      nlinarith
    split
    · rename_i hc
      by_contra hc2
      have hqb : q = b := by omega
      subst hqb
      have hr : h ≤ r := by
        rcases hc with hc | hc <;> omega
      nlinarith
    · exact hq
theorem two_zpow_pos (e : Int) : (0 : ℚ) < (2 : ℚ) ^ e := zpow_pos (by norm_num) e

theorem dyadic_nonneg (m : Nat) (e : Int) : 0 ≤ dyadic m e :=
  mul_nonneg (Nat.cast_nonneg m) (le_of_lt (two_zpow_pos e))

theorem dyadic_shift (b : Nat) (e : Int) (s : Nat) :
    dyadic b (e + (s : Int)) = dyadic (b * 2 ^ s) e := by
  unfold dyadic
  rw [zpow_add₀ (by norm_num : (2 : ℚ) ≠ 0), zpow_natCast]
  push_cast
  ring

theorem dyadic_le_dyadic (a b : Nat) (e : Int) : dyadic a e ≤ dyadic b e ↔ a ≤ b := by
  unfold dyadic
  rw [mul_le_mul_right (two_zpow_pos e)]
  exact Nat.cast_le

theorem dyadic_lt_dyadic (a b : Nat) (e : Int) : dyadic a e < dyadic b e ↔ a < b := by
  unfold dyadic
  rw [mul_lt_mul_right (two_zpow_pos e)]
  exact Nat.cast_lt

theorem dyadic_two_pow (n : Nat) (e : Int) : dyadic (2 ^ n) e = (2 : ℚ) ^ (e + (n : Int)) := by
  unfold dyadic
  rw [zpow_add₀ (by norm_num : (2 : ℚ) ≠ 0), zpow_natCast]
  push_cast
  ring

theorem dyadic_regrid (b : Nat) (t e1 : Int) (h : e1 ≤ t) :
    dyadic b t = dyadic (b * 2 ^ (t - e1).toNat) e1 := by
  rw [← dyadic_shift, Int.toNat_of_nonneg (by omega)]
  congr 1
  omega

theorem bitLength_add_le (mant : Nat) (exp t : Int) (h0 : 0 < mant)
    (h : dyadic mant exp < (2 : ℚ) ^ t) : (bitLength mant : Int) + exp ≤ t := by
  have h1 := two_pow_pred_bitLength_le mant h0
  have h2 : dyadic (2 ^ (bitLength mant - 1)) exp ≤ dyadic mant exp :=
    (dyadic_le_dyadic _ _ _).mpr h1
  rw [dyadic_two_pow] at h2
  have h3 := lt_of_le_of_lt h2 h
  rw [zpow_lt_zpow_iff_right₀ (by norm_num : (1 : ℚ) < 2)] at h3
  have hb : 0 < bitLength mant := by
    by_contra hc
    have := lt_two_pow_bitLength mant
    have e : bitLength mant = 0 := by omega
    rw [e] at this
    omega
  omega

theorem lt_bitLength_add (mant : Nat) (exp t : Int)
    (h : (2 : ℚ) ^ t ≤ dyadic mant exp) : t < (bitLength mant : Int) + exp := by
  have h1 := lt_two_pow_bitLength mant
  have h2 : dyadic mant exp < dyadic (2 ^ bitLength mant) exp :=
    (dyadic_lt_dyadic _ _ _).mpr h1
  rw [dyadic_two_pow] at h2
  have h3 := lt_of_le_of_lt h h2
  rw [zpow_lt_zpow_iff_right₀ (by norm_num : (1 : ℚ) < 2)] at h3
  omega
theorem two_mul_dyadic (c : Nat) (t : Int) : 2 * dyadic c t = dyadic (2 * c) t := by
  unfold dyadic
  push_cast
  ring

theorem overflowToInf_small (q : Nat) (e : Int) (h : (bitLength q : Int) + e ≤ 1024) :
    overflowToInf false q e = JsNumber.fin false q e := by
  unfold overflowToInf
  rw [if_neg (by omega)]

theorem roundToDouble_spec (mant : Nat) (exp : Int) (h0 : 0 < mant)
    (hv : dyadic mant exp < (2 : ℚ) ^ (53 : Int)) :
    ∃ (q : Nat) (e1 : Int), roundToDouble false mant exp = JsNumber.fin false q e1 ∧
      ∀ (b : Nat) (t : Int), -1074 ≤ t → dyadic mant exp < (2 : ℚ) ^ (t + 53) →
        (dyadic mant exp ≤ dyadic b t → dyadic q e1 ≤ dyadic b t) ∧
        (dyadic b t ≤ dyadic mant exp → dyadic b t ≤ dyadic q e1) ∧
        (2 ^ 52 ≤ b → 2 * dyadic mant exp < dyadic (2 * b + 1) t →
          dyadic q e1 ≤ dyadic b t) := by
  have hbl : (bitLength mant : Int) + exp ≤ 53 := bitLength_add_le mant exp 53 h0 hv
  have hlow : ∀ (b : Nat) (t : Int), 2 ^ 52 ≤ b → (2 : ℚ) ^ (t + 52) ≤ dyadic b t := by
    intro b t hb
    have := (dyadic_le_dyadic (2 ^ 52) b t).mpr hb
    rw [dyadic_two_pow] at this
    exact this
  unfold roundToDouble
  simp only []
  by_cases hsh : max ((bitLength mant : Int) - 53) (-1074 - exp) ≤ 0
  · rw [if_pos hsh]
    refine ⟨mant, exp, overflowToInf_small mant exp (by omega), ?_⟩
    intro b t ht hvt
    refine ⟨id, id, ?_⟩
    intro hb hmid
    by_cases hlt : dyadic mant exp < (2 : ℚ) ^ (t + 52)
    · exact le_of_lt (lt_of_lt_of_le hlt (hlow b t hb))
    · have h1 := lt_bitLength_add mant exp (t + 52) (not_lt.mp hlt)
      have hte : t ≤ exp := by omega
      rw [dyadic_regrid mant exp t hte] at hmid ⊢
      rw [two_mul_dyadic, dyadic_lt_dyadic] at hmid
      rw [dyadic_le_dyadic]
      omega
  · rw [if_neg hsh]
    have hspos : 0 < (max ((bitLength mant : Int) - 53) (-1074 - exp)).toNat := by omega
    obtain ⟨hA, hB, hC⟩ := roundShift_props mant
      (max ((bitLength mant : Int) - 53) (-1074 - exp)).toNat hspos
    have hsh2 : ((max ((bitLength mant : Int) - 53) (-1074 - exp)).toNat : Int)
        = max ((bitLength mant : Int) - 53) (-1074 - exp) := Int.toNat_of_nonneg (by omega)
    generalize hs : (max ((bitLength mant : Int) - 53) (-1074 - exp)).toNat = s at *
    generalize hsd : max ((bitLength mant : Int) - 53) (-1074 - exp) = sh at *
    generalize hq : (if mant % 2 ^ s > 2 ^ (s - 1) ∨ (mant % 2 ^ s = 2 ^ (s - 1) ∧ mant >>> s % 2 = 1)
      then mant >>> s + 1 else mant >>> s) = q1 at *
    have hbs : bitLength mant ≤ 53 + s := by omega
    have hq53 : q1 ≤ 2 ^ 53 := by
      apply hA
      have h1 := lt_two_pow_bitLength mant
      have h2 : 2 ^ bitLength mant ≤ 2 ^ (53 + s) := Nat.pow_le_pow_right (by decide) hbs
      rw [pow_add] at h2
      omega
    have hblq : bitLength q1 ≤ 54 := bitLength_le_of_lt q1 54 (by omega)
    refine ⟨q1, exp + sh, overflowToInf_small q1 (exp + sh) (by omega), ?_⟩
    intro b t ht hvt
    have hblt : (bitLength mant : Int) + exp ≤ t + 53 := bitLength_add_le mant exp _ h0 hvt
    have he1 : exp + sh ≤ t := by omega
    have hgrid : ∀ c : Nat, dyadic c (exp + sh) = dyadic (c * 2 ^ s) exp := by
      intro c
      rw [← hsh2, dyadic_shift]
    have hup : ∀ c : Nat, dyadic mant exp ≤ dyadic c t → dyadic q1 (exp + sh) ≤ dyadic c t := by
      intro c hc
      rw [dyadic_regrid c t (exp + sh) he1] at hc ⊢
      rw [hgrid, dyadic_le_dyadic] at hc
      rw [dyadic_le_dyadic]
      exact hA _ hc
    refine ⟨hup b, ?_, ?_⟩
    · intro hc
      rw [dyadic_regrid b t (exp + sh) he1] at hc ⊢
      rw [hgrid, dyadic_le_dyadic] at hc
      rw [dyadic_le_dyadic]
      exact hB _ hc
    · intro hb hmid
      by_cases hlt : dyadic mant exp < (2 : ℚ) ^ (t + 52)
      · have h2 : dyadic mant exp ≤ dyadic (2 ^ 52) t := by
          rw [dyadic_two_pow]
          exact le_of_lt hlt
        exact le_trans (hup _ h2) ((dyadic_le_dyadic _ _ _).mpr hb)
      · have h1 := lt_bitLength_add mant exp (t + 52) (not_lt.mp hlt)
        have het : exp + sh = t := by omega
        rw [← het] at hmid ⊢
        rw [hgrid, two_mul_dyadic, dyadic_lt_dyadic] at hmid
        rw [dyadic_le_dyadic]
        exact hC b hmid
theorem dyadic_add (a b : Nat) (e : Int) : dyadic (a + b) e = dyadic a e + dyadic b e := by
  unfold dyadic
  push_cast
  ring

theorem dyadic_mul_left (c a : Nat) (e : Int) : dyadic (c * a) e = (c : ℚ) * dyadic a e := by
  unfold dyadic
  push_cast
  ring

theorem dyadic_zero_exp (a : Nat) : dyadic a 0 = (a : ℚ) := by
  unfold dyadic
  simp

theorem roundToDouble_zero (exp : Int) (h : exp ≤ 0) :
    ∃ e1 : Int, roundToDouble false 0 exp = JsNumber.fin false 0 e1 := by
  have hb : bitLength 0 = 0 := rfl
  unfold roundToDouble
  simp only []
  by_cases hsh : max ((bitLength 0 : Int) - 53) (-1074 - exp) ≤ 0
  · rw [if_pos hsh]
    exact ⟨exp, overflowToInf_small 0 exp (by rw [hb]; omega)⟩
  · rw [if_neg hsh]
    have hp : 0 < 2 ^ ((max ((bitLength 0 : Int) - 53) (-1074 - exp)).toNat - 1) := by positivity
    refine ⟨exp + max ((bitLength 0 : Int) - 53) (-1074 - exp), ?_⟩
    have hq : (if 0 % 2 ^ (max ((bitLength 0 : Int) - 53) (-1074 - exp)).toNat
          > 2 ^ ((max ((bitLength 0 : Int) - 53) (-1074 - exp)).toNat - 1) ∨
        (0 % 2 ^ (max ((bitLength 0 : Int) - 53) (-1074 - exp)).toNat
          = 2 ^ ((max ((bitLength 0 : Int) - 53) (-1074 - exp)).toNat - 1) ∧
        0 >>> (max ((bitLength 0 : Int) - 53) (-1074 - exp)).toNat % 2 = 1)
        then 0 >>> (max ((bitLength 0 : Int) - 53) (-1074 - exp)).toNat + 1
        else 0 >>> (max ((bitLength 0 : Int) - 53) (-1074 - exp)).toNat) = 0 := by
      rw [if_neg]
      · simp
      · simp only [Nat.zero_mod]
        omega
    rw [hq]
    exact overflowToInf_small 0 _ (by rw [hb] at hsh ⊢; omega)

/-- The largest double below one bounds every draw. -/
theorem unitDraw_le (m : Nat) (e : Int) (hm : m < 2 ^ 53) (he : e ≤ 0)
    (hlt : m < 2 ^ (-e).toNat) : dyadic m e ≤ dyadic (2 ^ 53 - 1) (-53) := by
  by_cases h53 : -53 ≤ e
  · rw [dyadic_regrid m e (-53) h53, dyadic_le_dyadic]
    have h1 : m * 2 ^ (e - -53).toNat < 2 ^ (-e).toNat * 2 ^ (e - -53).toNat :=
      Nat.mul_lt_mul_of_pos_right hlt (by positivity)
    rw [← pow_add] at h1
    have h2 : (-e).toNat + (e - -53).toNat = 53 := by omega
    rw [h2] at h1
    omega
  · have h1 : dyadic m e ≤ dyadic (2 ^ 53 - 1) e := (dyadic_le_dyadic _ _ _).mpr (by omega)
    refine le_trans h1 ?_
    rw [dyadic_regrid (2 ^ 53 - 1) (-53) e (by omega), dyadic_le_dyadic]
    exact Nat.le_mul_of_pos_right _ (by positivity)
theorem two_pow_mul_zpow_neg (j : Nat) : (((2 ^ j : Nat) : ℚ)) * (2 : ℚ) ^ (-(j : Int)) = 1 := by
  push_cast
  rw [← zpow_natCast, ← zpow_add₀ (by norm_num : (2 : ℚ) ≠ 0)]
  simp

theorem two_pow_sub_cast (a j : Nat) (h : j ≤ a) :
    (((2 ^ (a - j) : Nat) : ℚ)) = (2 : ℚ) ^ (-(j : Int) + (a : Int)) := by
  push_cast
  rw [← zpow_natCast]
  congr 1
  omega

/-- The product of a draw and the width of the range stays one step of the grid below
the width. -/
theorem draw_times_width (m : Nat) (e : Int) (D j : Nat) (hm : m < 2 ^ 53) (he : e ≤ 0)
    (hlt : m < 2 ^ (-e).toNat) (hj : j ≤ 52) (hk1 : 2 ^ (52 - j) < D) (hk2 : D < 2 ^ (53 - j)) :
    ∃ (xm : Nat) (xe : Int),
      jsMul (JsNumber.fin false m e) (JsNumber.fin false D 0) = JsNumber.fin false xm xe ∧
      dyadic xm xe ≤ (D : ℚ) - (2 : ℚ) ^ (-(j : Int)) := by
  have hw : (0 : ℚ) < (2 : ℚ) ^ (-(j : Int)) := two_zpow_pos _
  have hDw : (2 : ℚ) ^ (-(j : Int)) ≤ (D : ℚ) := by
    have h1 : (2 : ℚ) ^ (-(j : Int)) ≤ 1 := by
      have := zpow_le_zpow_right₀ (by norm_num : (1 : ℚ) ≤ 2) (show -(j : Int) ≤ 0 by omega)
      simpa using this
    have h2 : (1 : ℚ) ≤ (D : ℚ) := by
      have : 1 ≤ D := by
        have : 0 < 2 ^ (52 - j) := by positivity
        omega
      exact_mod_cast this
    linarith
  show ∃ (xm : Nat) (xe : Int),
      roundToDouble (xor false false) (m * D) (e + 0) = JsNumber.fin false xm xe ∧ _
  simp only [Bool.xor_false, add_zero]
  by_cases h0 : m = 0
  · subst h0
    obtain ⟨e1, h1⟩ := roundToDouble_zero e he
    refine ⟨0, e1, by simpa using h1, ?_⟩
    have hz : dyadic 0 e1 = 0 := by
      unfold dyadic
      simp
    rw [hz]
    linarith
  · have hD1 : 0 < D := by
      have : 0 < 2 ^ (52 - j) := by positivity
      omega
    have hmD : 0 < m * D := Nat.mul_pos (by omega) hD1
    have hr := unitDraw_le m e hm he hlt
    have hr0 := dyadic_nonneg m e
    have hu : dyadic (2 ^ 53 - 1) (-53) = 1 - (2 : ℚ) ^ (-(53 : Int)) := by
      unfold dyadic
      have h1 : (((2 ^ 53 - 1 : Nat)) : ℚ) = (2 : ℚ) ^ 53 - 1 := by norm_num
      rw [h1, sub_mul, one_mul]
      congr 1
      rw [← zpow_natCast, ← zpow_add₀ (by norm_num : (2 : ℚ) ≠ 0)]
      norm_num
    rw [hu] at hr
    have hV : dyadic (m * D) e = (D : ℚ) * dyadic m e := by
      rw [mul_comm, dyadic_mul_left]
    have hDq : (0 : ℚ) < (D : ℚ) := by exact_mod_cast hD1
    have hk1q : (2 : ℚ) ^ (-(j : Int) + (52 : Int)) < (D : ℚ) := by
      have : ((2 ^ (52 - j) : Nat) : ℚ) < (D : ℚ) := by exact_mod_cast hk1
      rw [two_pow_sub_cast 52 j hj] at this
      exact_mod_cast this
    have hk2q : (D : ℚ) < (2 : ℚ) ^ (-(j : Int) + (53 : Int)) := by
      have : (D : ℚ) < ((2 ^ (53 - j) : Nat) : ℚ) := by exact_mod_cast hk2
      rw [two_pow_sub_cast 53 j (by omega)] at this
      exact_mod_cast this
    have hVD : dyadic (m * D) e < (D : ℚ) := by
      rw [hV]
      have hu0 : (0 : ℚ) < (2 : ℚ) ^ (-(53 : Int)) := two_zpow_pos _
      nlinarith
    have hv53 : dyadic (m * D) e < (2 : ℚ) ^ (53 : Int) := by
      refine lt_trans hVD (lt_of_lt_of_le hk2q ?_)
      exact zpow_le_zpow_right₀ (by norm_num) (by omega)
    obtain ⟨q, e1, hq, hprop⟩ := roundToDouble_spec (m * D) e hmD hv53
    refine ⟨q, e1, hq, ?_⟩
    have hB : 1 ≤ D * 2 ^ j := Nat.mul_pos hD1 (by positivity)
    obtain ⟨_, _, hC⟩ := hprop (D * 2 ^ j - 1) (-(j : Int)) (by omega) (lt_trans hVD hk2q)
    have hBq : (((D * 2 ^ j - 1 : Nat)) : ℚ) = (D : ℚ) * ((2 ^ j : Nat) : ℚ) - 1 := by
      rw [Nat.cast_sub hB]
      push_cast
      ring
    have hval : dyadic (D * 2 ^ j - 1) (-(j : Int)) = (D : ℚ) - (2 : ℚ) ^ (-(j : Int)) := by
      unfold dyadic
      rw [hBq, sub_mul, mul_assoc, two_pow_mul_zpow_neg, mul_one, one_mul]
    rw [hval] at hC
    apply hC
    · have h1 : 2 ^ (52 - j) * 2 ^ j < D * 2 ^ j := Nat.mul_lt_mul_of_pos_right hk1 (by positivity)
      rw [← pow_add] at h1
      have h2 : 52 - j + j = 52 := by omega
      rw [h2] at h1
      omega
    · have hmidv : dyadic (2 * (D * 2 ^ j - 1) + 1) (-(j : Int))
          = 2 * (D : ℚ) - (2 : ℚ) ^ (-(j : Int)) := by
        rw [dyadic_add, ← two_mul_dyadic, hval]
        unfold dyadic
        push_cast
        ring
      rw [hmidv, hV]
      have hsplit : (2 : ℚ) ^ (-(j : Int) + (52 : Int))
          = (2 : ℚ) ^ (-(j : Int)) * (2 : ℚ) ^ (52 : Int) :=
        zpow_add₀ (by norm_num) _ _
      have h53 : (2 : ℚ) ^ (52 : Int) * (2 * (2 : ℚ) ^ (-(53 : Int))) = 1 := by
        norm_num
      have hu0 : (0 : ℚ) < (2 : ℚ) ^ (-(53 : Int)) := two_zpow_pos _
      rw [hsplit] at hk1q
      have key : (2 : ℚ) ^ (-(j : Int)) < 2 * (D : ℚ) * (2 : ℚ) ^ (-(53 : Int)) := by
        have := mul_lt_mul_of_pos_right hk1q (show (0 : ℚ) < 2 * (2 : ℚ) ^ (-(53 : Int)) by positivity)
        rw [mul_assoc, h53, mul_one] at this
        linarith
      nlinarith
theorem dyadic_pred_grid (T j : Nat) (hT : 0 < T) :
    dyadic (T * 2 ^ j - 1) (-(j : Int)) = (T : ℚ) - (2 : ℚ) ^ (-(j : Int)) := by
  have hB : 1 ≤ T * 2 ^ j := Nat.mul_pos hT (by positivity)
  have hBq : (((T * 2 ^ j - 1 : Nat)) : ℚ) = (T : ℚ) * ((2 ^ j : Nat) : ℚ) - 1 := by
    rw [Nat.cast_sub hB]
    push_cast
    ring
  unfold dyadic
  rw [hBq, sub_mul, mul_assoc, two_pow_mul_zpow_neg, mul_one, one_mul]

/-- The sum of the lower bound and a product below the width stays one step of the
grid below the upper bound. -/
theorem min_plus_product (M D j xm : Nat) (xe : Int) (hM : 1 ≤ M) (hj : j ≤ 52)
    (hk2 : M + D < 2 ^ (53 - j)) (hx : dyadic xm xe ≤ (D : ℚ) - (2 : ℚ) ^ (-(j : Int))) :
    ∃ (ym : Nat) (ye : Int),
      jsAdd (JsNumber.fin false M 0) (JsNumber.fin false xm xe) = JsNumber.fin false ym ye ∧
      (M : ℚ) ≤ dyadic ym ye ∧
      dyadic ym ye ≤ ((M + D : Nat) : ℚ) - (2 : ℚ) ^ (-(j : Int)) := by
  have hw : (0 : ℚ) < (2 : ℚ) ^ (-(j : Int)) := two_zpow_pos _
  have hx0 := dyadic_nonneg xm xe
  have hTq : (((M + D : Nat)) : ℚ) < (2 : ℚ) ^ (-(j : Int) + (53 : Int)) := by
    have : (((M + D : Nat)) : ℚ) < ((2 ^ (53 - j) : Nat) : ℚ) := by exact_mod_cast hk2
    rw [two_pow_sub_cast 53 j (by omega)] at this
    exact_mod_cast this
  have hN : signedScaled false M (0 - min 0 xe).toNat + signedScaled false xm (xe - min 0 xe).toNat
      = ((M * 2 ^ (0 - min 0 xe).toNat + xm * 2 ^ (xe - min 0 xe).toNat : Nat) : Int) := by
    unfold signedScaled
    push_cast
    simp
  have hNpos : 0 < M * 2 ^ (0 - min 0 xe).toNat + xm * 2 ^ (xe - min 0 xe).toNat := by
    have : 0 < M * 2 ^ (0 - min 0 xe).toNat := Nat.mul_pos hM (by positivity)
    omega
  have hval : dyadic (M * 2 ^ (0 - min 0 xe).toNat + xm * 2 ^ (xe - min 0 xe).toNat) (min 0 xe)
      = (M : ℚ) + dyadic xm xe := by
    rw [dyadic_add, ← dyadic_shift, ← dyadic_shift, Int.toNat_of_nonneg (by omega),
      Int.toNat_of_nonneg (by omega)]
    have e1 : min 0 xe + (0 - min 0 xe) = 0 := by omega
    have e2 : min 0 xe + (xe - min 0 xe) = xe := by omega
    rw [e1, e2, dyadic_zero_exp]
  have hsum : jsAdd (JsNumber.fin false M 0) (JsNumber.fin false xm xe)
      = roundToDouble false
          (M * 2 ^ (0 - min 0 xe).toNat + xm * 2 ^ (xe - min 0 xe).toNat) (min 0 xe) := by
    unfold jsAdd
    simp only [hN]
    rw [if_neg (by omega)]
    congr 1
  rw [hsum]
  have hcast : (((M + D : Nat)) : ℚ) = (M : ℚ) + (D : ℚ) := by push_cast; ring
  have hS : dyadic (M * 2 ^ (0 - min 0 xe).toNat + xm * 2 ^ (xe - min 0 xe).toNat) (min 0 xe)
      < (2 : ℚ) ^ (-(j : Int) + (53 : Int)) := by
    rw [hval]
    linarith
  have hS53 : dyadic (M * 2 ^ (0 - min 0 xe).toNat + xm * 2 ^ (xe - min 0 xe).toNat) (min 0 xe)
      < (2 : ℚ) ^ (53 : Int) :=
    lt_of_lt_of_le hS (zpow_le_zpow_right₀ (by norm_num) (by omega))
  obtain ⟨q, e1, hq, hprop⟩ := roundToDouble_spec _ _ hNpos hS53
  refine ⟨q, e1, hq, ?_, ?_⟩
  · obtain ⟨_, hB, _⟩ := hprop M 0 (by omega) (by simpa using hS53)
    rw [dyadic_zero_exp] at hB
    apply hB
    rw [hval]
    linarith
  · obtain ⟨hA, _, _⟩ := hprop ((M + D) * 2 ^ j - 1) (-(j : Int)) (by omega) hS
    rw [dyadic_pred_grid (M + D) j (by omega)] at hA
    apply hA
    rw [hval]
    linarith
theorem numberToString_nat (n : Nat) (h : n < 2 ^ 53) :
    numberToString (JsNumber.fin false n 0) = natToDecimal n := by
  have h21 : n < 10 ^ 21 := lt_trans h (by norm_num)
  unfold numberToString intValue
  simp only [Int.toNat_zero, pow_zero, mul_one, Bool.false_and, Bool.false_eq_true, if_false]
  rw [if_pos h21, plainNotation_small n h]

theorem fin_of_natCast (n : Nat) :
    JsNumber.fin (if (n : Int) = 0 then false else decide ((n : Int) < 0)) (n : Int).natAbs 0
      = JsNumber.fin false n 0 := by
  have h1 : ¬ ((n : Int) < 0) := by omega
  have h2 : (if (n : Int) = 0 then false else decide ((n : Int) < 0)) = false := by
    split
    · rfl
    · exact decide_eq_false h1
  rw [h2, Int.natAbs_ofNat]

theorem mathFloor_nonneg (ym : Nat) (ye : Int) :
    mathFloor (JsNumber.fin false ym ye)
      = JsNumber.fin false (if 0 ≤ ye then ym * 2 ^ ye.toNat else ym / 2 ^ (-ye).toNat) 0 := by
  unfold mathFloor
  simp only [Bool.false_eq_true, if_false]
  by_cases h : 0 ≤ ye
  · simp only [h, if_true]
    have e : (ym : Int) * ((2 ^ ye.toNat : Nat) : Int) = ((ym * 2 ^ ye.toNat : Nat) : Int) := by
      push_cast
      ring
    rw [e]
    exact fin_of_natCast _
  · simp only [h, if_false]
    have e : Int.fdiv (ym : Int) ((2 ^ (-ye).toNat : Nat) : Int)
        = ((ym / 2 ^ (-ye).toNat : Nat) : Int) := by
      rw [Int.fdiv_eq_ediv _ (by positivity)]
      push_cast
      rfl
    rw [e]
    exact fin_of_natCast _

/-- The integer part of a double between two natural numbers, printed. -/
theorem floor_to_string (ym : Nat) (ye : Int) (M T : Nat) (hT : T ≤ 2 ^ 53)
    (hlo : (M : ℚ) ≤ dyadic ym ye) (hhi : dyadic ym ye < (T : ℚ)) :
    ∃ n : Nat, numberToString (mathFloor (JsNumber.fin false ym ye)) = natToDecimal n ∧
      M ≤ n ∧ n < T := by
  rw [mathFloor_nonneg]
  rw [← dyadic_zero_exp M] at hlo
  rw [← dyadic_zero_exp T] at hhi
  by_cases h : 0 ≤ ye
  · simp only [h, if_true]
    have e : dyadic ym ye = dyadic (ym * 2 ^ ye.toNat) 0 := by
      rw [dyadic_regrid ym ye 0 h]
      simp
    rw [e, dyadic_le_dyadic] at hlo
    rw [e, dyadic_lt_dyadic] at hhi
    exact ⟨_, numberToString_nat _ (by omega), hlo, hhi⟩
  · simp only [h, if_false]
    have hd : 0 < 2 ^ (-ye).toNat := by positivity
    have e : ∀ c : Nat, dyadic c 0 = dyadic (c * 2 ^ (-ye).toNat) ye := by
      intro c
      rw [dyadic_regrid c 0 ye (by omega)]
      simp
    rw [e, dyadic_le_dyadic] at hlo
    rw [e, dyadic_lt_dyadic] at hhi
    have h1 : M ≤ ym / 2 ^ (-ye).toNat := (Nat.le_div_iff_mul_le hd).mpr hlo
    have h2 : ym / 2 ^ (-ye).toNat < T := (Nat.div_lt_iff_lt_mul hd).mpr hhi
    exact ⟨_, numberToString_nat _ (by omega), h1, h2⟩
/-- A draw scaled to a range `[M, M + D)` whose bounds lie in one binade gives an
integer of the range. -/
theorem scaled_draw_in_range (M D j m : Nat) (e : Int) (hM : 1 ≤ M) (hj : j ≤ 52)
    (hk1 : 2 ^ (52 - j) < D) (hk2 : M + D < 2 ^ (53 - j)) (hm : m < 2 ^ 53) (he : e ≤ 0)
    (hlt : m < 2 ^ (-e).toNat) :
    ∃ n : Nat,
      numberToString (mathFloor (jsAdd (JsNumber.fin false M 0)
        (jsMul (JsNumber.fin false m e) (JsNumber.fin false D 0)))) = natToDecimal n ∧
      M ≤ n ∧ n < M + D := by
  obtain ⟨xm, xe, hx, hxb⟩ := draw_times_width m e D j hm he hlt hj hk1 (by omega)
  obtain ⟨ym, ye, hy, hlo, hhi⟩ := min_plus_product M D j xm xe hM hj hk2 hxb
  rw [hx, hy]
  have hw : (0 : ℚ) < (2 : ℚ) ^ (-(j : Int)) := two_zpow_pos _
  have h53 : 2 ^ (53 - j) ≤ 2 ^ 53 := Nat.pow_le_pow_right (by decide) (by omega)
  have hT : M + D ≤ 2 ^ 53 := by omega
  exact floor_to_string ym ye M (M + D) hT hlo (by linarith)

set_option maxRecDepth 1000000 in
theorem otp_constants (L : Nat) (h1 : 1 ≤ L) (h15 : L ≤ 15) :
    mathPow10 ((L : Int) - 1) = JsNumber.fin false (10 ^ (L - 1)) 0 ∧
    jsAdd (jsSub (jsSub (mathPow10 (L : Int)) jsOne) (mathPow10 ((L : Int) - 1))) jsOne
      = JsNumber.fin false (9 * 10 ^ (L - 1)) 0 ∧
    53 - bitLength (9 * 10 ^ (L - 1)) ≤ 52 ∧
    2 ^ (52 - (53 - bitLength (9 * 10 ^ (L - 1)))) < 9 * 10 ^ (L - 1) ∧
    10 ^ (L - 1) + 9 * 10 ^ (L - 1) < 2 ^ (53 - (53 - bitLength (9 * 10 ^ (L - 1)))) := by
  interval_cases L <;> decide

theorem natToDecimal_length (n L : Nat) (h1 : 1 ≤ L) (hlo : 10 ^ (L - 1) ≤ n) (hhi : n < 10 ^ L) :
    (natToDecimal n).length = L := by
  have hn : 0 < n := lt_of_lt_of_le (by positivity) hlo
  have hlog : Nat.log 10 n = L - 1 :=
    Nat.log_eq_of_pow_le_of_lt_pow hlo (by rwa [Nat.sub_add_cancel h1])
  rw [String.length, natToDecimal_data n hn, List.length_map, List.length_reverse,
    Nat.digits_len 10 n (by decide) (by omega), hlog]
  omega

/-- For the lengths 1 to 15 and every draw, `generateOTP` returns an integer of
`length` digits. -/
theorem generateOTP_in_range (L m : Nat) (e : Int) (h1 : 1 ≤ L) (h15 : L ≤ 15)
    (hm : m < 2 ^ 53) (he : e ≤ 0) (hlt : m < 2 ^ (-e).toNat) :
    ∃ n : Nat, generateOTP L (JsNumber.fin false m e) = natToDecimal n ∧
      10 ^ (L - 1) ≤ n ∧ n < 10 ^ L := by
  obtain ⟨c1, c2, hj, hk1, hk2⟩ := otp_constants L h1 h15
  have hpow : 10 ^ (L - 1) + 9 * 10 ^ (L - 1) = 10 ^ L := by
    obtain ⟨p, rfl⟩ : ∃ p, L = p + 1 := ⟨L - 1, by omega⟩
    simp only [Nat.add_sub_cancel]
    ring
  unfold generateOTP
  simp only []
  rw [c2, c1]
  have := scaled_draw_in_range (10 ^ (L - 1)) (9 * 10 ^ (L - 1))
    (53 - bitLength (9 * 10 ^ (L - 1))) m e (Nat.one_le_pow _ _ (by decide)) hj hk1 hk2 hm he hlt
  rw [hpow] at this
  exact this
theorem ten_pow_pred_length_le (x : Nat) (hx : 0 < x) :
    10 ^ ((natToDecimal x).length - 1) ≤ x := by
  have hlen : (natToDecimal x).length = (Nat.digits 10 x).length := by
    rw [String.length, natToDecimal_data x hx, List.length_map, List.length_reverse]
  have h := Nat.base_pow_length_digits_le 10 x (by decide) (by omega)
  have hpos : 0 < (Nat.digits 10 x).length := by
    rw [Nat.digits_len 10 x (by decide) (by omega)]
    omega
  rw [hlen]
  have e : (Nat.digits 10 x).length = ((Nat.digits 10 x).length - 1) + 1 := by omega
  rw [e, pow_succ] at h
  omega

theorem shortestDigits_pos (x n : Nat) (h : 10 ^ (n - 1) ≤ x) (fuel k : Nat) (hk : 1 ≤ k) :
    0 < (shortestDigits x n fuel k).1 := by
  have hunit : ∀ j, 1 ≤ j → 0 < x / 10 ^ (n - j) := by
    intro j hj
    have h1 : 10 ^ (n - j) ≤ 10 ^ (n - 1) := Nat.pow_le_pow_right (by decide) (by omega)
    exact Nat.div_pos (le_trans h1 h) (by positivity)
  induction fuel generalizing k with
  | zero =>
    unfold shortestDigits
    exact hunit k hk
  | succ f ih =>
    have hlo := hunit k hk
    unfold shortestDigits
    simp only []
    split
    · split
      · exact hlo
      · split
        · exact Nat.succ_pos _
        · split
          · exact hlo
          · exact Nat.succ_pos _
    · split
      · exact hlo
      · split
        · exact Nat.succ_pos _
        · exact ih (k + 1) (by omega)

theorem shortestValue_pos (x : Nat) (hx : 0 < x) : 0 < shortestValue x := by
  have h := shortestDigits_pos x (natToDecimal x).length (ten_pow_pred_length_le x hx) 17 1
    (Nat.le_refl 1)
  unfold shortestValue
  simp only []
  generalize shortestDigits x (natToDecimal x).length 17 1 = r at h
  obtain ⟨s, k⟩ := r
  exact Nat.mul_pos h (by positivity)

theorem plainNotation_plain (x : Nat) (hx : 0 < x) : isPlainDecimal (plainNotation x) = true := by
  unfold plainNotation
  split
  · exact (natToDecimal_plain x hx).1
  · exact (natToDecimal_plain _ (shortestValue_pos x hx)).1
theorem roundHalfUp_of_integer (q : Nat) (e1 : Int) (N : Nat)
    (h : dyadic q e1 = dyadic N 0) : roundHalfUp false q e1 = (N : Int) := by
  unfold roundHalfUp
  simp only [Bool.false_eq_true, if_false]
  by_cases he : 0 ≤ e1
  · rw [if_pos he]
    rw [dyadic_regrid q e1 0 he] at h
    have h1 : q * 2 ^ (e1 - 0).toNat = N :=
      le_antisymm ((dyadic_le_dyadic _ _ 0).mp (le_of_eq h))
        ((dyadic_le_dyadic _ _ 0).mp (le_of_eq h.symm))
    have h2 : (e1 - 0).toNat = e1.toNat := by simp
    rw [h2] at h1
    rw [← h1]
    push_cast
    ring
  · rw [if_neg he]
    rw [dyadic_regrid N 0 e1 (by omega)] at h
    have h1 : q = N * 2 ^ (0 - e1).toNat :=
      le_antisymm ((dyadic_le_dyadic _ _ e1).mp (le_of_eq h))
        ((dyadic_le_dyadic _ _ e1).mp (le_of_eq h.symm))
    have h2 : (0 - e1).toNat = (-e1).toNat := by simp
    rw [h2] at h1
    have hd : (0 : Int) < ((2 ^ (-e1).toNat : Nat) : Int) := by positivity
    rw [Int.fdiv_eq_ediv _ (by positivity), h1]
    have e : 2 * (((N * 2 ^ (-e1).toNat : Nat)) : Int) + ((2 ^ (-e1).toNat : Nat) : Int)
        = ((2 ^ (-e1).toNat : Nat) : Int) * (2 * (N : Int) + 1) := by
      push_cast
      ring
    have e2 : 2 * ((2 ^ (-e1).toNat : Nat) : Int) = ((2 ^ (-e1).toNat : Nat) : Int) * 2 := by ring
    rw [e, e2, Int.mul_ediv_mul_of_pos _ _ hd]
    omega

/-- The product of an amount that is a whole number of paise below `2^53` and 100 is
that number, exactly. -/
theorem times100_exact (a : Nat) (x : Int) (N : Nat) (hN0 : 0 < N) (hN : N < 2 ^ 53)
    (h : a * 100 * 2 ^ x.toNat = N * 2 ^ (-x).toNat) :
    ∃ (q : Nat) (e1 : Int),
      times100 (parseFloat (JsNumber.fin false a x)) = JsNumber.fin false q e1 ∧
      roundHalfUp false q e1 = (N : Int) := by
  have ha : 0 < a := by
    by_contra hc
    have : a = 0 := by omega
    subst this
    have hp : 0 < N * 2 ^ (-x).toNat := Nat.mul_pos hN0 (by positivity)
    simp at h
    omega
  have hpf : parseFloat (JsNumber.fin false a x) = JsNumber.fin false a x := by
    cases a with
    | zero => omega
    | succ k => rfl
  have hval : dyadic (a * 100) x = dyadic N 0 := by
    by_cases hx : 0 ≤ x
    · have h0 : (-x).toNat = 0 := by omega
      rw [h0, pow_zero, mul_one] at h
      rw [dyadic_regrid (a * 100) x 0 hx]
      have h2 : (x - 0).toNat = x.toNat := by simp
      rw [h2, h]
    · have h0 : x.toNat = 0 := by omega
      rw [h0, pow_zero, mul_one] at h
      rw [dyadic_regrid N 0 x (by omega)]
      have h2 : (0 - x).toNat = (-x).toNat := by simp
      rw [h2, h]
  have hNq : dyadic N 0 < (2 : ℚ) ^ (53 : Int) := by
    rw [dyadic_zero_exp]
    have h1 : ((N : ℚ)) < ((2 ^ 53 : Nat) : ℚ) := by exact_mod_cast hN
    have h2 : (2 : ℚ) ^ (53 : Int) = ((2 ^ 53 : Nat) : ℚ) := by norm_num
    rw [h2]
    exact h1
  have hv : dyadic (a * 100) x < (2 : ℚ) ^ (53 : Int) := by rw [hval]; exact hNq
  obtain ⟨q, e1, hq, hprop⟩ := roundToDouble_spec (a * 100) x (by omega) hv
  obtain ⟨hA, hB, _⟩ := hprop N 0 (by omega) (by simpa using hv)
  refine ⟨q, e1, ?_, ?_⟩
  · rw [hpf]
    exact hq
  · exact roundHalfUp_of_integer q e1 N
      (le_antisymm (hA (le_of_eq hval)) (hB (le_of_eq hval.symm)))

theorem formattedAmount_exact (a : Nat) (x : Int) (N : Nat) (hN0 : 0 < N) (hN : N < 2 ^ 53)
    (h : a * 100 * 2 ^ x.toNat = N * 2 ^ (-x).toNat) :
    formattedAmount (JsNumber.fin false a x) = natToDecimal N := by
  obtain ⟨q, e1, hq, hr⟩ := times100_exact a x N hN0 hN h
  rw [formattedAmount_of_product _ q e1 hq, hr]
  have h21 : N < 10 ^ 21 := lt_trans hN (by norm_num)
  simp only [Int.natAbs_ofNat]
  rw [if_pos h21, plainNotation_small N hN]

theorem pipe_not_mem_natToDecimal (n : Nat) (hn : 0 < n) : pipe ∉ (natToDecimal n).data := by
  intro hmem
  rw [natToDecimal_data n hn] at hmem
  obtain ⟨d, hd, hc⟩ := List.mem_map.mp hmem
  have hlt : d < 10 := Nat.digits_lt_base (by decide) (List.mem_reverse.mp hd)
  have := digitChar_isDigit d hlt
  rw [hc] at this
  exact absurd this (by decide)

theorem third_field_of_join (f0 f1 f2 g : String) (rest : List String)
    (h0 : pipe ∉ f0.data) (h1 : pipe ∉ f1.data) (h2 : pipe ∉ f2.data) :
    payloadField (jsJoin (f0 :: f1 :: f2 :: g :: rest)) 2 = some f2 := by
  unfold payloadField fieldAt jsSplit jsJoin
  simp only [List.map_cons, joinChars]
  rw [splitChars_append_pipe, splitChars_append_pipe, splitChars_append_pipe,
    splitChars_of_no_pipe _ h0, splitChars_of_no_pipe _ h1, splitChars_of_no_pipe _ h2]
  simp
/-! ## C1: status of a Transaction that is already terminal -/

set_option maxRecDepth 1000000 in
/-- C1 (counterexample). The Transaction of `ORD-1` is `success`; a verified payload
for `ORD-1` with code `0399` arrives; both service functions leave it `failed`. -/
theorem terminal_status_overwritten :
    checksumAccepted defaultConfig (unkeyedPayload failedData) = true ∧
    merchantAccepted defaultConfig (unkeyedPayload failedData) = true ∧
    payloadField (unkeyedPayload failedData) 1 = some "ORD-1" ∧
    (storedTransaction (sampleDb TxnStatus.success OrderStatus.processing PaymentStatus.paid)
      (some "ORD-1")).map Transaction.status = some TxnStatus.success ∧
    (storedTransaction
      (processWebhook defaultConfig (requestOf (unkeyedPayload failedData))
        (sampleDb TxnStatus.success OrderStatus.processing PaymentStatus.paid)).2
      (some "ORD-1")).map Transaction.status = some TxnStatus.failed ∧
    (storedTransaction
      (handleTransactionReturn defaultConfig (requestOf (unkeyedPayload failedData)).body
        (sampleDb TxnStatus.success OrderStatus.processing PaymentStatus.paid)).2
      (some "ORD-1")).map Transaction.status = some TxnStatus.failed := by
  decide

/-- C1 (amended). For every stored Transaction, whatever its status, and every
verified payload for its order reference, `processWebhook` and
`handleTransactionReturn` leave the Transaction with the status mapped from the
status code of that payload; so a terminal status survives exactly when the code maps
to that same status. -/
theorem status_follows_last_payload (cfg : BillDeskConfig) (db : Db) (m : String)
    (t : Transaction) (hm : m ≠ "") (hc : checksumAccepted cfg m = true)
    (hmer : merchantAccepted cfg m = true)
    (ht : storedTransaction db (payloadField m 1) = some t) :
    ((storedTransaction (processWebhook cfg (requestOf m) db).2
        (payloadField m 1)).map Transaction.status = some (statusOfCode (payloadField m 2)) ∧
     (storedTransaction (handleTransactionReturn cfg (requestOf m).body db).2
        (payloadField m 1)).map Transaction.status = some (statusOfCode (payloadField m 2))) ∧
    ((storedTransaction (processWebhook cfg (requestOf m) db).2
        (payloadField m 1)).map Transaction.status = some t.status
      ↔ statusOfCode (payloadField m 2) = t.status) := by
  have h1 := processWebhook_found cfg db m t hm hc hmer ht
  have h2 := handleTransactionReturn_found cfg db m t hm hc hmer ht
  have s1 := storedTransaction_save db _ t
    { t with
      status := statusOfCode (payloadField m 2)
      metadata := webhookMetadata t.metadata m (payloadField m 3) (payloadField m 4)
        (payloadField m 5) (jsSplit m) }
    ht rfl rfl (DbCall.transactionFindOne (payloadField m 1))
  have s2 := storedTransaction_save db _ t
    { t with
      status := statusOfCode (payloadField m 2)
      metadata := returnMetadata t.metadata m (jsSplit m) }
    ht rfl rfl (DbCall.transactionFindOne (payloadField m 1))
  rw [h1, h2]
  simp only [s1, s2, Option.map_some']
  simp

set_option maxRecDepth 1000000 in
/-- C1 (witness). A `success` Transaction and a verified `0399` payload. -/
theorem status_follows_last_payload_witness :
    unkeyedPayload failedData ≠ "" ∧
    checksumAccepted defaultConfig (unkeyedPayload failedData) = true ∧
    merchantAccepted defaultConfig (unkeyedPayload failedData) = true ∧
    storedTransaction (sampleDb TxnStatus.success OrderStatus.processing PaymentStatus.paid)
      (payloadField (unkeyedPayload failedData) 1) = some (sampleTransaction TxnStatus.success) ∧
    (storedTransaction
      (processWebhook defaultConfig (requestOf (unkeyedPayload failedData))
        (sampleDb TxnStatus.success OrderStatus.processing PaymentStatus.paid)).2
      (payloadField (unkeyedPayload failedData) 1)).map Transaction.status
      = some (statusOfCode (payloadField (unkeyedPayload failedData) 2)) :=
  ⟨by decide, by decide, by decide, by decide,
    (status_follows_last_payload defaultConfig
      (sampleDb TxnStatus.success OrderStatus.processing PaymentStatus.paid)
      (unkeyedPayload failedData) (sampleTransaction TxnStatus.success)
      (by decide) (by decide) (by decide) (by decide)).1.1⟩

/-! ## C2: signing and verifying do not agree -/

set_option maxRecDepth 1000000 in
/-- C2 (the code at the failing input). `constructMessage` accepts the order `ORD-1`
of one hundred rupees and `generateChecksum` signs the message with HMAC-SHA256; the
payload `message + '|' + checksum` is refused by the checksum test of both
`processWebhook` and `handleTransactionReturn`, which compare against the unkeyed
SHA-256 of the message followed by `|undefined`. -/
theorem signed_message_fails_verification :
    constructMessage defaultConfig "ORD-1" (JsNumber.fin false 100 0) "  Asha   Rao "
      "asha@example.com" "+91 98765-43210" = Except.ok sampleMessage ∧
    generateChecksum defaultConfig sampleMessage
      = "ef4aafbf70434c1673ed3645840c6ed541a437d025197c41521483ebec3735ef" ∧
    calculatedChecksum defaultConfig (jsSplit (signedPayload defaultConfig sampleMessage))
      = "f1f8f402127bd329aee731a3d01a38282a17dd633879025026553f0162d8fa25" ∧
    checksumAccepted defaultConfig (signedPayload defaultConfig sampleMessage) = false ∧
    processWebhook defaultConfig (requestOf (signedPayload defaultConfig sampleMessage))
        (sampleDb TxnStatus.pending OrderStatus.pending PaymentStatus.pending)
      = (Except.error "BillDesk webhook processing failed: Invalid checksum in webhook",
          sampleDb TxnStatus.pending OrderStatus.pending PaymentStatus.pending) ∧
    handleTransactionReturn defaultConfig
        (requestOf (signedPayload defaultConfig sampleMessage)).body
        (sampleDb TxnStatus.pending OrderStatus.pending PaymentStatus.pending)
      = (Except.error "BillDesk return data handling failed: Invalid checksum in return data",
          sampleDb TxnStatus.pending OrderStatus.pending PaymentStatus.pending) := by
  decide

/-! ## C3: what the checksum test accepts -/

set_option maxRecDepth 1000000 in
/-- C3 (the code at the failing input). The payload `unkeyedPayload successData` ends
in a field that is not the HMAC-SHA256 of the other fields under the signing password,
yet the checksum test accepts it, and accepts it unchanged after the signing password
is replaced; the payload that does end in that HMAC is refused. The test never reads
the signing password. -/
theorem checksum_test_ignores_secret :
    receivedChecksum (jsSplit (unkeyedPayload successData))
      ≠ some (toLowerCase (hmacSha256Hex defaultConfig.signingPassword successData)) ∧
    checksumAccepted defaultConfig (unkeyedPayload successData) = true ∧
    defaultConfig.signingPassword ≠ rotatedConfig.signingPassword ∧
    checksumAccepted rotatedConfig (unkeyedPayload successData) = true ∧
    receivedChecksum (jsSplit (signedPayload defaultConfig successData))
      = some (toLowerCase (hmacSha256Hex defaultConfig.signingPassword successData)) ∧
    checksumAccepted defaultConfig (signedPayload defaultConfig successData) = false ∧
    (processWebhook defaultConfig (requestOf (unkeyedPayload successData))
        (sampleDb TxnStatus.pending OrderStatus.pending PaymentStatus.pending)).1
      = Except.ok
          { success := true, orderNumber := some "ORD-1", status := TxnStatus.success,
            transactionId := "t1" } := by
  decide

/-! ## C4: a checksum mismatch is thrown -/

set_option maxRecDepth 1000000 in
/-- C4 (counterexample). A payload of twenty fields whose last field is not the
calculated checksum: both service functions throw, they return no result. -/
theorem bad_checksum_is_thrown :
    (jsSplit badChecksumPayload).length = 20 ∧
    checksumAccepted defaultConfig badChecksumPayload = false ∧
    (processWebhook defaultConfig (requestOf badChecksumPayload)
        (sampleDb TxnStatus.pending OrderStatus.pending PaymentStatus.pending)).1
      = Except.error "BillDesk webhook processing failed: Invalid checksum in webhook" ∧
    (handleTransactionReturn defaultConfig (requestOf badChecksumPayload).body
        (sampleDb TxnStatus.pending OrderStatus.pending PaymentStatus.pending)).1
      = Except.error
          "BillDesk return data handling failed: Invalid checksum in return data" := by
  decide

/-- C4 (amended). For every non-empty payload whose last field is not the calculated
checksum, with any number of fields, `processWebhook` and `handleTransactionReturn`
throw the invalid-checksum error and leave the database as it was. -/
theorem checksum_mismatch_is_thrown (cfg : BillDeskConfig) (db : Db) (m : String)
    (hm : m ≠ "") (h : checksumAccepted cfg m = false) :
    processWebhook cfg (requestOf m) db
      = (Except.error "BillDesk webhook processing failed: Invalid checksum in webhook", db) ∧
    handleTransactionReturn cfg (requestOf m).body db
      = (Except.error "BillDesk return data handling failed: Invalid checksum in return data",
          db) :=
  ⟨processWebhook_checksum_rejected cfg db m hm h,
    handleTransactionReturn_checksum_rejected cfg db m hm h⟩

set_option maxRecDepth 1000000 in
/-- C4 (witness). The twenty-field payload with a wrong last field. -/
theorem checksum_mismatch_is_thrown_witness :
    badChecksumPayload ≠ "" ∧
    checksumAccepted defaultConfig badChecksumPayload = false ∧
    processWebhook defaultConfig (requestOf badChecksumPayload)
        (sampleDb TxnStatus.pending OrderStatus.pending PaymentStatus.pending)
      = (Except.error "BillDesk webhook processing failed: Invalid checksum in webhook",
          sampleDb TxnStatus.pending OrderStatus.pending PaymentStatus.pending) :=
  ⟨by decide, by decide,
    (checksum_mismatch_is_thrown defaultConfig
      (sampleDb TxnStatus.pending OrderStatus.pending PaymentStatus.pending)
      badChecksumPayload (by decide) (by decide)).1⟩

/-! ## C5: a webhook that fails the checksum test changes nothing -/

/-- C5. For every webhook payload that fails the checksum test, `handleWebhook`
leaves the database exactly as it was: no Transaction and no Order is modified (status,
metadata, paymentStatus and fulfillment status are untouched), and no database call is
made at all. -/
theorem forged_webhook_changes_nothing (cfg : BillDeskConfig) (db : Db) (m : String)
    (h : checksumAccepted cfg m = false) :
    (handleWebhook cfg (requestOf m) db).2.transactions = db.transactions ∧
    (handleWebhook cfg (requestOf m) db).2.orders = db.orders ∧
    (handleWebhook cfg (requestOf m) db).2 = db := by
  by_cases hm : m = ""
  · subst hm
    simp [handleWebhook, noWebhookData, requestOf]
  · have e := processWebhook_checksum_rejected cfg db m hm h
    have n : noWebhookData (requestOf m) = false := by simp [noWebhookData, requestOf, hm]
    simp [handleWebhook, n, e]

set_option maxRecDepth 1000000 in
/-- C5 (witness). The twenty-field payload with a wrong last field, sent to the
webhook while the Transaction of `ORD-1` is pending. -/
theorem forged_webhook_changes_nothing_witness :
    checksumAccepted defaultConfig badChecksumPayload = false ∧
    (handleWebhook defaultConfig (requestOf badChecksumPayload)
        (sampleDb TxnStatus.pending OrderStatus.pending PaymentStatus.pending)).2
      = sampleDb TxnStatus.pending OrderStatus.pending PaymentStatus.pending :=
  ⟨by decide,
    (forged_webhook_changes_nothing defaultConfig
      (sampleDb TxnStatus.pending OrderStatus.pending PaymentStatus.pending)
      badChecksumPayload (by decide)).2.2⟩

/-! ## C6: a second delivery rewrites the Order -/

set_option maxRecDepth 1000000 in
/-- C6 (counterexample). The Transaction of `ORD-1` is already `success` and the Order
has moved on to `shipped`; the verified success payload is delivered again. Through
either channel the Order is set back to `processing`. -/
theorem second_delivery_resets_order :
    (storedTransaction (sampleDb TxnStatus.success OrderStatus.shipped PaymentStatus.paid)
      (some "ORD-1")).map Transaction.status = some TxnStatus.success ∧
    (storedOrder (sampleDb TxnStatus.success OrderStatus.shipped PaymentStatus.paid)
      (some "ORD-1")).map Order.status = some OrderStatus.shipped ∧
    checksumAccepted defaultConfig (unkeyedPayload successData) = true ∧
    merchantAccepted defaultConfig (unkeyedPayload successData) = true ∧
    payloadField (unkeyedPayload successData) 1 = some "ORD-1" ∧
    (storedOrder
      (handleWebhook defaultConfig (requestOf (unkeyedPayload successData))
        (sampleDb TxnStatus.success OrderStatus.shipped PaymentStatus.paid)).2
      (some "ORD-1")).map Order.status = some OrderStatus.processing ∧
    (storedOrder
      (handlePaymentReturn (fun _ => none) defaultConfig (requestOf (unkeyedPayload successData))
        (sampleDb TxnStatus.success OrderStatus.shipped PaymentStatus.paid)).2
      (some "ORD-1")).map Order.status = some OrderStatus.processing := by
  decide

/-- C6 (amended). For every stored Transaction, finalized or not, and every verified
payload for its order reference, delivery through either channel writes the Order
again: its paymentStatus becomes the one that corresponds to the status code of the
payload, and its fulfillment status becomes `processing` when the code is `0300` and
is left as it was for every other code. -/
theorem delivery_rewrites_order (env : Env) (cfg : BillDeskConfig) (db : Db) (m : String)
    (t : Transaction) (o : Order) (hm : m ≠ "") (hc : checksumAccepted cfg m = true)
    (hmer : merchantAccepted cfg m = true)
    (ht : storedTransaction db (payloadField m 1) = some t)
    (ho : storedOrder db (payloadField m 1) = some o) :
    ((storedOrder (handleWebhook cfg (requestOf m) db).2 (payloadField m 1)).map
        (fun o1 => (o1.paymentStatus, o1.status))
      = some (paymentStatusOf (statusOfCode (payloadField m 2)),
          if statusOfCode (payloadField m 2) = TxnStatus.success then OrderStatus.processing
          else o.status)) ∧
    ((storedOrder (handlePaymentReturn env cfg (requestOf m) db).2 (payloadField m 1)).map
        (fun o1 => (o1.paymentStatus, o1.status))
      = some (paymentStatusOf (statusOfCode (payloadField m 2)),
          if statusOfCode (payloadField m 2) = TxnStatus.success then OrderStatus.processing
          else o.status)) := by
  obtain ⟨h1, h2⟩ := storedOrder_after_handlers env cfg db m t o hm hc hmer ht ho
  rw [h1, h2]
  simp [Order.preSave_paymentStatus, Order.preSave_status, applyOutcome_paymentStatus,
    applyOutcome_status]

set_option maxRecDepth 1000000 in
/-- C6 (witness). The finalized Transaction, the shipped Order and the success
payload delivered again. -/
theorem delivery_rewrites_order_witness :
    unkeyedPayload successData ≠ "" ∧
    checksumAccepted defaultConfig (unkeyedPayload successData) = true ∧
    merchantAccepted defaultConfig (unkeyedPayload successData) = true ∧
    storedTransaction (sampleDb TxnStatus.success OrderStatus.shipped PaymentStatus.paid)
      (payloadField (unkeyedPayload successData) 1)
      = some (sampleTransaction TxnStatus.success) ∧
    storedOrder (sampleDb TxnStatus.success OrderStatus.shipped PaymentStatus.paid)
      (payloadField (unkeyedPayload successData) 1)
      = some (sampleOrder OrderStatus.shipped PaymentStatus.paid) ∧
    ((storedOrder
        (handleWebhook defaultConfig (requestOf (unkeyedPayload successData))
          (sampleDb TxnStatus.success OrderStatus.shipped PaymentStatus.paid)).2
        (payloadField (unkeyedPayload successData) 1)).map
        (fun o1 => (o1.paymentStatus, o1.status))
      = some (paymentStatusOf (statusOfCode (payloadField (unkeyedPayload successData) 2)),
          if statusOfCode (payloadField (unkeyedPayload successData) 2) = TxnStatus.success
          then OrderStatus.processing
          else (sampleOrder OrderStatus.shipped PaymentStatus.paid).status)) :=
  ⟨by decide, by decide, by decide, by decide, by decide,
    (delivery_rewrites_order (fun _ => none) defaultConfig
      (sampleDb TxnStatus.success OrderStatus.shipped PaymentStatus.paid)
      (unkeyedPayload successData) (sampleTransaction TxnStatus.success)
      (sampleOrder OrderStatus.shipped PaymentStatus.paid)
      (by decide) (by decide) (by decide) (by decide) (by decide)).1⟩

/-! ## C7: the webhook handler and the inventory -/

set_option maxRecDepth 1000000 in
/-- C7 (counterexample). The verified success payload for the pending Transaction of
`ORD-1` is handled twice by `handleWebhook`. The Transaction is `success` and the Order
`paid`, but the stock of the ordered product is still ten, the cart still holds the
item, and the eight database calls made contain no stock update and no cart write:
zero decrements and zero cart clears, where the claim counts one of each. -/
theorem webhook_twice_decrements_nothing :
    checksumAccepted defaultConfig (unkeyedPayload successData) = true ∧
    (storedTransaction
      (handleWebhook defaultConfig (requestOf (unkeyedPayload successData))
        (handleWebhook defaultConfig (requestOf (unkeyedPayload successData))
          (sampleDb TxnStatus.pending OrderStatus.pending PaymentStatus.pending)).2).2
      (some "ORD-1")).map Transaction.status = some TxnStatus.success ∧
    (storedOrder
      (handleWebhook defaultConfig (requestOf (unkeyedPayload successData))
        (handleWebhook defaultConfig (requestOf (unkeyedPayload successData))
          (sampleDb TxnStatus.pending OrderStatus.pending PaymentStatus.pending)).2).2
      (some "ORD-1")).map Order.paymentStatus = some PaymentStatus.paid ∧
    (handleWebhook defaultConfig (requestOf (unkeyedPayload successData))
      (handleWebhook defaultConfig (requestOf (unkeyedPayload successData))
        (sampleDb TxnStatus.pending OrderStatus.pending PaymentStatus.pending)).2).2.products
      = [{ _id := "p1", stock := 10 }] ∧
    (handleWebhook defaultConfig (requestOf (unkeyedPayload successData))
      (handleWebhook defaultConfig (requestOf (unkeyedPayload successData))
        (sampleDb TxnStatus.pending OrderStatus.pending PaymentStatus.pending)).2).2.carts
      = [{ _id := "c1", user := "u1", items := [{ product := "p1", quantity := 2 }] }] ∧
    (handleWebhook defaultConfig (requestOf (unkeyedPayload successData))
      (handleWebhook defaultConfig (requestOf (unkeyedPayload successData))
        (sampleDb TxnStatus.pending OrderStatus.pending PaymentStatus.pending)).2).2.calls
      = [DbCall.transactionFindOne (some "ORD-1"), DbCall.transactionSave "t1",
         DbCall.orderFindOne (some "ORD-1"), DbCall.orderSave "o1",
         DbCall.transactionFindOne (some "ORD-1"), DbCall.transactionSave "t1",
         DbCall.orderFindOne (some "ORD-1"), DbCall.orderSave "o1"] := by
  decide

/-- C7 (amended). Calling `handleWebhook` twice with the same request, in particular
with a verified success payload, produces no inventory decrement at all: the stock of
every product after the two calls is what it was before them, and no call that
updates stock is made. -/
theorem webhook_twice_leaves_stock (cfg : BillDeskConfig) (req : Request) (db : Db) :
    (handleWebhook cfg req (handleWebhook cfg req db).2).2.products = db.products ∧
    (handleWebhook cfg req (handleWebhook cfg req db).2).2.calls.filter DbCall.isStockUpdate
      = db.calls.filter DbCall.isStockUpdate := by
  have h1 := handleWebhook_frame cfg req db
  have h2 := handleWebhook_frame cfg req (handleWebhook cfg req db).2
  have h := sameStockAndCarts_trans _ _ _ h1 h2
  exact ⟨h.1, h.2.2.1⟩

/-! ## C8: the status mapping fails closed -/

/-- C8. Every status code other than `0300` is mapped to a status that is not
`success`, and every code outside `0300`, `0399`, `0002` is mapped to `failed`. For a
verified payload whose Transaction and Order exist, in both channels: when the code
is not `0300` the Order is not left `paid`, and when the code is none of the three
known codes the Order is left with paymentStatus `failed`. -/
theorem status_mapping_fails_closed (env : Env) (cfg : BillDeskConfig) (db : Db) (m : String)
    (t : Transaction) (o : Order) (hm : m ≠ "") (hc : checksumAccepted cfg m = true)
    (hmer : merchantAccepted cfg m = true)
    (ht : storedTransaction db (payloadField m 1) = some t)
    (ho : storedOrder db (payloadField m 1) = some o)
    (hcode : payloadField m 2 ≠ some "0300") :
    (∀ code : Option String, code ≠ some "0300" → statusOfCode code ≠ TxnStatus.success) ∧
    (∀ code : Option String, code ≠ some "0300" → code ≠ some "0399" → code ≠ some "0002" →
      statusOfCode code = TxnStatus.failed) ∧
    (processWebhook cfg (requestOf m) db).1.toOption.map ServiceResult.status
      ≠ some TxnStatus.success ∧
    (handleTransactionReturn cfg (requestOf m).body db).1.toOption.map ServiceResult.status
      ≠ some TxnStatus.success ∧
    (storedOrder (handleWebhook cfg (requestOf m) db).2 (payloadField m 1)).map
      Order.paymentStatus ≠ some PaymentStatus.paid ∧
    (storedOrder (handlePaymentReturn env cfg (requestOf m) db).2 (payloadField m 1)).map
      Order.paymentStatus ≠ some PaymentStatus.paid ∧
    (payloadField m 2 ≠ some "0399" → payloadField m 2 ≠ some "0002" →
      (storedOrder (handleWebhook cfg (requestOf m) db).2 (payloadField m 1)).map
        Order.paymentStatus = some PaymentStatus.failed ∧
      (storedOrder (handlePaymentReturn env cfg (requestOf m) db).2 (payloadField m 1)).map
        Order.paymentStatus = some PaymentStatus.failed) := by
  have map1 : ∀ code : Option String, code ≠ some "0300" →
      statusOfCode code ≠ TxnStatus.success := by
    intro code h
    unfold statusOfCode
    rw [if_neg h]
    split <;> [simp; (split <;> simp)]
  have map2 : ∀ code : Option String, code ≠ some "0300" → code ≠ some "0399" →
      code ≠ some "0002" → statusOfCode code = TxnStatus.failed := by
    intro code h1 h2 h3
    simp [statusOfCode, h1, h2, h3]
  obtain ⟨h1, h2⟩ := storedOrder_after_handlers env cfg db m t o hm hc hmer ht ho
  have hs := map1 _ hcode
  have hp : paymentStatusOf (statusOfCode (payloadField m 2)) ≠ PaymentStatus.paid := by
    cases hx : statusOfCode (payloadField m 2) <;> simp_all [paymentStatusOf]
  refine ⟨map1, map2, ?_, ?_, ?_, ?_, ?_⟩
  · rw [processWebhook_found cfg db m t hm hc hmer ht]
    simpa [Except.toOption] using hs
  · rw [handleTransactionReturn_found cfg db m t hm hc hmer ht]
    simpa [Except.toOption] using hs
  · rw [h1]; simpa [Order.preSave_paymentStatus, applyOutcome_paymentStatus] using hp
  · rw [h2]; simpa [Order.preSave_paymentStatus, applyOutcome_paymentStatus] using hp
  · intro h399 h002
    rw [h1, h2]
    simp [Order.preSave_paymentStatus, applyOutcome_paymentStatus, map2 _ hcode h399 h002,
      paymentStatusOf]

set_option maxRecDepth 1000000 in
/-- C8 (witness). A verified payload with the unknown code `9999` for an Order that
is `paid`; the Order is left `failed`. -/
theorem status_mapping_fails_closed_witness :
    unkeyedPayload unknownCodeData ≠ "" ∧
    checksumAccepted defaultConfig (unkeyedPayload unknownCodeData) = true ∧
    merchantAccepted defaultConfig (unkeyedPayload unknownCodeData) = true ∧
    storedTransaction (sampleDb TxnStatus.pending OrderStatus.pending PaymentStatus.paid)
      (payloadField (unkeyedPayload unknownCodeData) 1)
      = some (sampleTransaction TxnStatus.pending) ∧
    storedOrder (sampleDb TxnStatus.pending OrderStatus.pending PaymentStatus.paid)
      (payloadField (unkeyedPayload unknownCodeData) 1)
      = some (sampleOrder OrderStatus.pending PaymentStatus.paid) ∧
    payloadField (unkeyedPayload unknownCodeData) 2 ≠ some "0300" ∧
    (storedOrder
      (handleWebhook defaultConfig (requestOf (unkeyedPayload unknownCodeData))
        (sampleDb TxnStatus.pending OrderStatus.pending PaymentStatus.paid)).2
      (payloadField (unkeyedPayload unknownCodeData) 1)).map Order.paymentStatus
      = some PaymentStatus.failed :=
  ⟨by decide, by decide, by decide, by decide, by decide, by decide,
    ((status_mapping_fails_closed (fun _ => none) defaultConfig
      (sampleDb TxnStatus.pending OrderStatus.pending PaymentStatus.paid)
      (unkeyedPayload unknownCodeData) (sampleTransaction TxnStatus.pending)
      (sampleOrder OrderStatus.pending PaymentStatus.paid)
      (by decide) (by decide) (by decide) (by decide) (by decide) (by decide)).2.2.2.2.2.2
      (by decide) (by decide)).1⟩

/-! ## C9: a payload of another merchant -/

/-- C9. For every payload whose first field is not the configured merchant id,
`processWebhook` and `handleTransactionReturn` fail and leave the database, its trace
included, exactly as it was: no Transaction or Order is looked up or modified. When
the checksum of such a payload is valid the failure is the invalid-merchant error. -/
theorem foreign_merchant_is_rejected (cfg : BillDeskConfig) (db : Db) (m : String)
    (hmer : merchantAccepted cfg m = false) :
    (∃ e, processWebhook cfg (requestOf m) db = (Except.error e, db)) ∧
    (∃ e, handleTransactionReturn cfg (requestOf m).body db = (Except.error e, db)) ∧
    (m ≠ "" → checksumAccepted cfg m = true →
      processWebhook cfg (requestOf m) db
        = (Except.error "BillDesk webhook processing failed: Invalid merchant ID in webhook",
            db) ∧
      handleTransactionReturn cfg (requestOf m).body db
        = (Except.error
            "BillDesk return data handling failed: Invalid merchant ID in return data", db)) := by
  refine ⟨?_, ?_, ?_⟩
  · by_cases hm : m = ""
    · exact ⟨_, by simp [processWebhook, processWebhookTry, requestOf, hm]; rfl⟩
    · cases hc : checksumAccepted cfg m with
      | false => exact ⟨_, processWebhook_checksum_rejected cfg db m hm hc⟩
      | true => exact ⟨_, processWebhook_merchant_rejected cfg db m hm hc hmer⟩
  · by_cases hm : m = ""
    · exact ⟨_, by simp [handleTransactionReturn, handleTransactionReturnTry, requestOf, hm]; rfl⟩
    · cases hc : checksumAccepted cfg m with
      | false => exact ⟨_, handleTransactionReturn_checksum_rejected cfg db m hm hc⟩
      | true => exact ⟨_, handleTransactionReturn_merchant_rejected cfg db m hm hc hmer⟩
  · intro hm hc
    exact ⟨processWebhook_merchant_rejected cfg db m hm hc hmer,
      handleTransactionReturn_merchant_rejected cfg db m hm hc hmer⟩

set_option maxRecDepth 1000000 in
/-- C9 (witness). A payload of the merchant `OTHERMERCH` whose checksum is valid. -/
theorem foreign_merchant_is_rejected_witness :
    merchantAccepted defaultConfig (unkeyedPayload foreignData) = false ∧
    checksumAccepted defaultConfig (unkeyedPayload foreignData) = true ∧
    processWebhook defaultConfig (requestOf (unkeyedPayload foreignData))
        (sampleDb TxnStatus.pending OrderStatus.pending PaymentStatus.pending)
      = (Except.error "BillDesk webhook processing failed: Invalid merchant ID in webhook",
          sampleDb TxnStatus.pending OrderStatus.pending PaymentStatus.pending) :=
  ⟨by decide, by decide,
    ((foreign_merchant_is_rejected defaultConfig
      (sampleDb TxnStatus.pending OrderStatus.pending PaymentStatus.pending)
      (unkeyedPayload foreignData) (by decide)).2.2 (by decide) (by decide)).1⟩

/-! ## C10: the number of fields is not checked -/

set_option maxRecDepth 1000000 in
/-- C10 (counterexample). A payload of four fields (merchant, reference, code,
checksum) is not refused as malformed: both service functions process it and finalize
the Transaction, and the reads at the indices 7, 17 and 18, past the end of the split
payload, yield `undefined`, which `processWebhook` stores. -/
theorem short_payload_is_processed :
    (jsSplit (unkeyedPayload shortData)).length = 4 ∧
    (processWebhook defaultConfig (requestOf (unkeyedPayload shortData))
        (sampleDb TxnStatus.pending OrderStatus.pending PaymentStatus.pending)).1
      = Except.ok
          { success := true, orderNumber := some "ORD-1", status := TxnStatus.success,
            transactionId := "t1" } ∧
    (handleTransactionReturn defaultConfig (requestOf (unkeyedPayload shortData)).body
        (sampleDb TxnStatus.pending OrderStatus.pending PaymentStatus.pending)).1
      = Except.ok
          { success := true, orderNumber := some "ORD-1", status := TxnStatus.success,
            transactionId := "t1" } ∧
    (storedTransaction
      (processWebhook defaultConfig (requestOf (unkeyedPayload shortData))
        (sampleDb TxnStatus.pending OrderStatus.pending PaymentStatus.pending)).2
      (some "ORD-1")).map
        (fun t => (t.status, t.metadata.get "authStatus", t.metadata.get "errorStatus",
          t.metadata.get "errorDescription"))
      = some (TxnStatus.success, some none, some none, some none) := by
  decide

/-- C10 (amended). The service has no structural-parse step. For every non-empty
payload whose number of fields differs from twenty: the only errors it can meet are
the invalid-checksum, invalid-merchant and transaction-not-found errors; when it
passes the checksum and merchant tests and a Transaction has its reference, both
service functions succeed with the status mapped from field 2; and every field read
at an index past the end of the split payload yields `undefined`. -/
theorem field_count_is_not_checked (cfg : BillDeskConfig) (db : Db) (m : String)
    (hm : m ≠ "") (_hcount : (jsSplit m).length ≠ 20) :
    (∀ e, (processWebhook cfg (requestOf m) db).1 = Except.error e →
      e = "BillDesk webhook processing failed: Invalid checksum in webhook" ∨
      e = "BillDesk webhook processing failed: Invalid merchant ID in webhook" ∨
      e = "BillDesk webhook processing failed: Transaction not found") ∧
    (∀ e, (handleTransactionReturn cfg (requestOf m).body db).1 = Except.error e →
      e = "BillDesk return data handling failed: Invalid checksum in return data" ∨
      e = "BillDesk return data handling failed: Invalid merchant ID in return data" ∨
      e = "BillDesk return data handling failed: Transaction not found") ∧
    (∀ t, checksumAccepted cfg m = true → merchantAccepted cfg m = true →
      storedTransaction db (payloadField m 1) = some t →
      (processWebhook cfg (requestOf m) db).1
        = Except.ok
            { success := true, orderNumber := payloadField m 1,
              status := statusOfCode (payloadField m 2), transactionId := t._id } ∧
      (handleTransactionReturn cfg (requestOf m).body db).1
        = Except.ok
            { success := true, orderNumber := payloadField m 1,
              status := statusOfCode (payloadField m 2), transactionId := t._id }) ∧
    (∀ i, (jsSplit m).length ≤ i → payloadField m i = none) := by
  refine ⟨?_, ?_, ?_, ?_⟩
  · intro e he
    cases hc : checksumAccepted cfg m with
    | false =>
      rw [processWebhook_checksum_rejected cfg db m hm hc] at he
      left; exact (Except.error.inj he).symm
    | true =>
      cases hmer : merchantAccepted cfg m with
      | false =>
        rw [processWebhook_merchant_rejected cfg db m hm hc hmer] at he
        right; left; exact (Except.error.inj he).symm
      | true =>
        cases ht : storedTransaction db (payloadField m 1) with
        | none =>
          rw [processWebhook_unknown cfg db m hm hc hmer ht] at he
          right; right; exact (Except.error.inj he).symm
        | some t =>
          rw [processWebhook_found cfg db m t hm hc hmer ht] at he
          cases he
  · intro e he
    cases hc : checksumAccepted cfg m with
    | false =>
      rw [handleTransactionReturn_checksum_rejected cfg db m hm hc] at he
      left; exact (Except.error.inj he).symm
    | true =>
      cases hmer : merchantAccepted cfg m with
      | false =>
        rw [handleTransactionReturn_merchant_rejected cfg db m hm hc hmer] at he
        right; left; exact (Except.error.inj he).symm
      | true =>
        cases ht : storedTransaction db (payloadField m 1) with
        | none =>
          rw [handleTransactionReturn_unknown cfg db m hm hc hmer ht] at he
          right; right; exact (Except.error.inj he).symm
        | some t =>
          rw [handleTransactionReturn_found cfg db m t hm hc hmer ht] at he
          cases he
  · intro t hc hmer ht
    rw [processWebhook_found cfg db m t hm hc hmer ht,
      handleTransactionReturn_found cfg db m t hm hc hmer ht]
    exact ⟨rfl, rfl⟩
  · intro i hi
    simp [payloadField, fieldAt, List.getElem?_eq_none hi]

set_option maxRecDepth 1000000 in
/-- C10 (witness). The verified payload of four fields. -/
theorem field_count_is_not_checked_witness :
    unkeyedPayload shortData ≠ "" ∧
    (jsSplit (unkeyedPayload shortData)).length ≠ 20 ∧
    (processWebhook defaultConfig (requestOf (unkeyedPayload shortData))
        (sampleDb TxnStatus.pending OrderStatus.pending PaymentStatus.pending)).1
      = Except.ok
          { success := true, orderNumber := payloadField (unkeyedPayload shortData) 1,
            status := statusOfCode (payloadField (unkeyedPayload shortData) 2),
            transactionId := (sampleTransaction TxnStatus.pending)._id } :=
  ⟨by decide, by decide,
    ((field_count_is_not_checked defaultConfig
      (sampleDb TxnStatus.pending OrderStatus.pending PaymentStatus.pending)
      (unkeyedPayload shortData) (by decide) (by decide)).2.2.1
      (sampleTransaction TxnStatus.pending) (by decide) (by decide) (by decide)).1⟩

/-! ## C11: what the webhook handler answers -/

set_option maxRecDepth 1000000 in
/-- C11 (counterexample). A webhook whose payload fails the checksum test is answered
with status 500 and `success: false`, a request without body with status 400; neither
gets the acknowledgment `200 {success: true}`. -/
theorem rejected_webhook_gets_error_status :
    (handleWebhook defaultConfig (requestOf badChecksumPayload)
        (sampleDb TxnStatus.pending OrderStatus.pending PaymentStatus.pending)).1
      = HttpResponse.json 500 false
          (some "BillDesk webhook processing failed: Invalid checksum in webhook") ∧
    (handleWebhook defaultConfig { body := none }
        (sampleDb TxnStatus.pending OrderStatus.pending PaymentStatus.pending)).1
      = HttpResponse.json 400 false (some "No webhook data received") := by
  decide

/-- C11 (amended). `handleWebhook` answers `200 {success: true}` exactly for the payloads
that `processWebhook` accepts: checksum and merchant tests passed and a Transaction found,
whether or not an Order has the reference. A payload that fails the checksum test, the
merchant test or the Transaction lookup is answered with status 500, `success: false` and
the error message; a request without payload with status 400 and `success: false`. -/
theorem webhook_answer_by_outcome (cfg : BillDeskConfig) (db : Db) (m : String)
    (hm : m ≠ "") :
    (checksumAccepted cfg m = false →
      (handleWebhook cfg (requestOf m) db).1 = HttpResponse.json 500 false
        (some "BillDesk webhook processing failed: Invalid checksum in webhook")) ∧
    (checksumAccepted cfg m = true → merchantAccepted cfg m = false →
      (handleWebhook cfg (requestOf m) db).1 = HttpResponse.json 500 false
        (some "BillDesk webhook processing failed: Invalid merchant ID in webhook")) ∧
    (checksumAccepted cfg m = true → merchantAccepted cfg m = true →
      storedTransaction db (payloadField m 1) = none →
      (handleWebhook cfg (requestOf m) db).1 = HttpResponse.json 500 false
        (some "BillDesk webhook processing failed: Transaction not found")) ∧
    (checksumAccepted cfg m = true → merchantAccepted cfg m = true →
      storedTransaction db (payloadField m 1) ≠ none →
      (handleWebhook cfg (requestOf m) db).1 = HttpResponse.json 200 true none) ∧
    (∀ req : Request, noWebhookData req = true →
      (handleWebhook cfg req db).1
        = HttpResponse.json 400 false (some "No webhook data received")) := by
  have hd := noWebhookData_requestOf m hm
  refine ⟨?_, ?_, ?_, ?_, ?_⟩
  · intro hc
    rw [handleWebhook_error cfg _ db db _ hd (processWebhook_checksum_rejected cfg db m hm hc)]
  · intro hc hmer
    rw [handleWebhook_error cfg _ db db _ hd
      (processWebhook_merchant_rejected cfg db m hm hc hmer)]
  · intro hc hmer ht
    rw [handleWebhook_error cfg _ db _ _ hd (processWebhook_unknown cfg db m hm hc hmer ht)]
  · intro hc hmer ht
    cases htx : storedTransaction db (payloadField m 1) with
    | none => exact absurd htx ht
    | some t =>
      cases hox : storedOrder db (payloadField m 1) with
      | none => rw [handleWebhook_no_order cfg db m t hm hc hmer htx hox]
      | some o => rw [handleWebhook_found cfg db m t o hm hc hmer htx hox]
  · intro req h
    simp [handleWebhook, h]

set_option maxRecDepth 1000000 in
/-- C11 (witness). The twenty-field payload with a wrong last field is answered with
status 500. -/
theorem webhook_answer_by_outcome_witness :
    badChecksumPayload ≠ "" ∧
    checksumAccepted defaultConfig badChecksumPayload = false ∧
    (handleWebhook defaultConfig (requestOf badChecksumPayload)
        (sampleDb TxnStatus.pending OrderStatus.pending PaymentStatus.pending)).1
      = HttpResponse.json 500 false
          (some "BillDesk webhook processing failed: Invalid checksum in webhook") :=
  ⟨by decide, by decide,
    (webhook_answer_by_outcome defaultConfig
      (sampleDb TxnStatus.pending OrderStatus.pending PaymentStatus.pending)
      badChecksumPayload (by decide)).1 (by decide)⟩

/-! ## C12: a payload for an unknown Transaction -/

/-- C12. For every verified payload with the configured merchant id whose order
reference matches no stored Transaction, both service functions fail with the
transaction-not-found error after the one lookup, and through the service functions and
through both handlers the Transactions and the Orders are exactly what they were: none
is created, none is modified. -/
theorem unknown_transaction_is_rejected (env : Env) (cfg : BillDeskConfig) (db : Db)
    (m : String) (hm : m ≠ "") (hc : checksumAccepted cfg m = true)
    (hmer : merchantAccepted cfg m = true)
    (ht : storedTransaction db (payloadField m 1) = none) :
    (processWebhook cfg (requestOf m) db
      = (Except.error "BillDesk webhook processing failed: Transaction not found",
          db.record (DbCall.transactionFindOne (payloadField m 1))) ∧
     handleTransactionReturn cfg (requestOf m).body db
      = (Except.error "BillDesk return data handling failed: Transaction not found",
          db.record (DbCall.transactionFindOne (payloadField m 1)))) ∧
    ((handleWebhook cfg (requestOf m) db).2.transactions = db.transactions ∧
     (handleWebhook cfg (requestOf m) db).2.orders = db.orders) ∧
    ((handlePaymentReturn env cfg (requestOf m) db).2.transactions = db.transactions ∧
     (handlePaymentReturn env cfg (requestOf m) db).2.orders = db.orders) := by
  have h1 := processWebhook_unknown cfg db m hm hc hmer ht
  have h2 := handleTransactionReturn_unknown cfg db m hm hc hmer ht
  refine ⟨⟨h1, h2⟩, ?_, ?_⟩
  · rw [handleWebhook_error cfg _ db _ _ (noWebhookData_requestOf m hm) h1]
    exact ⟨rfl, rfl⟩
  · rw [handlePaymentReturn_error env cfg _ db _ _ h2]
    exact ⟨rfl, rfl⟩

set_option maxRecDepth 1000000 in
/-- C12 (witness). A verified success payload for `ORD-404`, a reference without
Transaction. -/
theorem unknown_transaction_is_rejected_witness :
    unkeyedPayload unknownRefData ≠ "" ∧
    checksumAccepted defaultConfig (unkeyedPayload unknownRefData) = true ∧
    merchantAccepted defaultConfig (unkeyedPayload unknownRefData) = true ∧
    storedTransaction (sampleDb TxnStatus.pending OrderStatus.pending PaymentStatus.pending)
      (payloadField (unkeyedPayload unknownRefData) 1) = none ∧
    (handleWebhook defaultConfig (requestOf (unkeyedPayload unknownRefData))
        (sampleDb TxnStatus.pending OrderStatus.pending PaymentStatus.pending)).2.orders
      = (sampleDb TxnStatus.pending OrderStatus.pending PaymentStatus.pending).orders :=
  ⟨by decide, by decide, by decide, by decide,
    (unknown_transaction_is_rejected (fun _ => none) defaultConfig
      (sampleDb TxnStatus.pending OrderStatus.pending PaymentStatus.pending)
      (unkeyedPayload unknownRefData) (by decide) (by decide) (by decide) (by decide)).2.1.2⟩

/-! ## C13: where the browser return is redirected -/

set_option maxRecDepth 1000000 in
/-- C13 (counterexample). A verified success payload whose Transaction exists: when no
Order has the reference the browser is sent to the failure page although the mapped
status is `success` and the Transaction has been finalized as `success`; when the Order
exists the success page is parameterized by the database id `o1` of the Order, not by
the order reference `ORD-1`. -/
theorem return_redirect_differs :
    (handleTransactionReturn defaultConfig (requestOf (unkeyedPayload successData)).body
        sampleDbNoOrder).1.toOption.map ServiceResult.status = some TxnStatus.success ∧
    (storedTransaction
      (handlePaymentReturn (fun _ => none) defaultConfig
        (requestOf (unkeyedPayload successData)) sampleDbNoOrder).2
      (some "ORD-1")).map Transaction.status = some TxnStatus.success ∧
    (handlePaymentReturn (fun _ => none) defaultConfig
        (requestOf (unkeyedPayload successData)) sampleDbNoOrder).1
      = HttpResponse.redirect "http://localhost:5173/payment/failed?message=Order not found" ∧
    (sampleOrder OrderStatus.pending PaymentStatus.pending).orderNumber = "ORD-1" ∧
    (handlePaymentReturn (fun _ => none) defaultConfig
        (requestOf (unkeyedPayload successData))
        (sampleDb TxnStatus.pending OrderStatus.pending PaymentStatus.pending)).1
      = HttpResponse.redirect "http://localhost:5173/thank-you?orderId=o1" := by
  decide

/-- C13 (amended). For every request `handlePaymentReturn` answers with a redirect. A
request that the service rejects (no payload, checksum, merchant, unknown Transaction)
is sent to the failure page with the encoded error message. An accepted payload whose
Order exists is sent to the success page when the mapped status is `success`, to the
failure page when it is `failed` and to the pending page when it is `pending`, each
parameterized by the database id of the Order; an accepted payload without Order is
sent to the failure page with the message `Order not found`. -/
theorem return_redirect_by_outcome (env : Env) (cfg : BillDeskConfig) (db : Db) (m : String)
    (hm : m ≠ "") :
    (∀ (req : Request) (db1 : Db), ∃ url,
      (handlePaymentReturn env cfg req db1).1 = HttpResponse.redirect url) ∧
    (∀ e, (handleTransactionReturn cfg (requestOf m).body db).1 = Except.error e →
      (handlePaymentReturn env cfg (requestOf m) db).1 = HttpResponse.redirect
        (frontendUrl env ++ "/payment/failed?message=" ++ encodeURIComponent e)) ∧
    (∀ t o, checksumAccepted cfg m = true → merchantAccepted cfg m = true →
      storedTransaction db (payloadField m 1) = some t →
      storedOrder db (payloadField m 1) = some o →
      (handlePaymentReturn env cfg (requestOf m) db).1 = HttpResponse.redirect
        (frontendUrl env ++
          (match statusOfCode (payloadField m 2) with
           | TxnStatus.success => "/thank-you?orderId="
           | TxnStatus.failed => "/payment/failed?orderId="
           | TxnStatus.pending => "/payment/pending?orderId=") ++ o._id)) ∧
    (∀ t, checksumAccepted cfg m = true → merchantAccepted cfg m = true →
      storedTransaction db (payloadField m 1) = some t →
      storedOrder db (payloadField m 1) = none →
      (handlePaymentReturn env cfg (requestOf m) db).1 = HttpResponse.redirect
        (frontendUrl env ++ "/payment/failed?message=Order not found")) := by
  have acc : ∀ (db1 : Db) (m1 : String), m1 ≠ "" → ∃ url,
      (handlePaymentReturn env cfg (requestOf m1) db1).1 = HttpResponse.redirect url := by
    intro db1 m1 hm1
    cases hc : checksumAccepted cfg m1 with
    | false =>
      exact ⟨_, by rw [handlePaymentReturn_error env cfg _ db1 _ _
        (handleTransactionReturn_checksum_rejected cfg db1 m1 hm1 hc)]⟩
    | true =>
      cases hmer : merchantAccepted cfg m1 with
      | false =>
        exact ⟨_, by rw [handlePaymentReturn_error env cfg _ db1 _ _
          (handleTransactionReturn_merchant_rejected cfg db1 m1 hm1 hc hmer)]⟩
      | true =>
        cases ht : storedTransaction db1 (payloadField m1 1) with
        | none =>
          exact ⟨_, by rw [handlePaymentReturn_error env cfg _ db1 _ _
            (handleTransactionReturn_unknown cfg db1 m1 hm1 hc hmer ht)]⟩
        | some t =>
          cases ho : storedOrder db1 (payloadField m1 1) with
          | none => exact ⟨_, by rw [handlePaymentReturn_no_order env cfg db1 m1 t hm1 hc hmer ht ho]⟩
          | some o =>
            rw [handlePaymentReturn_found_full env cfg db1 m1 t o hm1 hc hmer ht ho]
            split
            · exact ⟨_, rfl⟩
            · split <;> exact ⟨_, rfl⟩
  refine ⟨?_, ?_, ?_, ?_⟩
  · intro req db1
    rcases request_cases req with h | ⟨m1, hm1, rfl⟩
    · exact ⟨_, by rw [handlePaymentReturn_error env cfg _ db1 _ _
        (handleTransactionReturn_no_data cfg req db1 h)]⟩
    · exact acc db1 m1 hm1
  · intro e he
    cases hr : handleTransactionReturn cfg (requestOf m).body db with
    | mk r db1 =>
      rw [hr] at he
      simp only at he
      subst he
      rw [handlePaymentReturn_error env cfg _ db db1 e hr]
  · intro t o hc hmer ht ho
    rw [handlePaymentReturn_found_full env cfg db m t o hm hc hmer ht ho]
    cases hs : statusOfCode (payloadField m 2) <;> simp
  · intro t hc hmer ht ho
    rw [handlePaymentReturn_no_order env cfg db m t hm hc hmer ht ho]

set_option maxRecDepth 1000000 in
/-- C13 (witness). The verified success payload for the pending Transaction and the
Order of `ORD-1`: the browser is sent to the success page with the id of the Order. -/
theorem return_redirect_by_outcome_witness :
    unkeyedPayload successData ≠ "" ∧
    (handlePaymentReturn (fun _ => none) defaultConfig (requestOf (unkeyedPayload successData))
        (sampleDb TxnStatus.pending OrderStatus.pending PaymentStatus.pending)).1
      = HttpResponse.redirect
          (frontendUrl (fun _ => none) ++
            (match statusOfCode (payloadField (unkeyedPayload successData) 2) with
             | TxnStatus.success => "/thank-you?orderId="
             | TxnStatus.failed => "/payment/failed?orderId="
             | TxnStatus.pending => "/payment/pending?orderId=") ++
            (sampleOrder OrderStatus.pending PaymentStatus.pending)._id) :=
  ⟨by decide,
    (return_redirect_by_outcome (fun _ => none) defaultConfig
      (sampleDb TxnStatus.pending OrderStatus.pending PaymentStatus.pending)
      (unkeyedPayload successData) (by decide)).2.2.1
      (sampleTransaction TxnStatus.pending)
      (sampleOrder OrderStatus.pending PaymentStatus.pending)
      (by decide) (by decide) (by decide) (by decide)⟩

/-! ## C14: a success payload for a pending Transaction -/

/-- C14. For every verified payload with status code `0300` whose Transaction is
pending and whose Order exists, `handleWebhook` and `handlePaymentReturn` each leave the
Transaction with status `success` and the Order with paymentStatus `paid` and
fulfillment status `processing`. -/
theorem success_payload_marks_paid (env : Env) (cfg : BillDeskConfig) (db : Db) (m : String)
    (t : Transaction) (o : Order) (hm : m ≠ "") (hc : checksumAccepted cfg m = true)
    (hmer : merchantAccepted cfg m = true) (hcode : payloadField m 2 = some "0300")
    (ht : storedTransaction db (payloadField m 1) = some t)
    (_hp : t.status = TxnStatus.pending)
    (ho : storedOrder db (payloadField m 1) = some o) :
    ((storedTransaction (handleWebhook cfg (requestOf m) db).2 (payloadField m 1)).map
        Transaction.status = some TxnStatus.success ∧
     (storedOrder (handleWebhook cfg (requestOf m) db).2 (payloadField m 1)).map
        (fun o1 => (o1.paymentStatus, o1.status))
        = some (PaymentStatus.paid, OrderStatus.processing)) ∧
    ((storedTransaction (handlePaymentReturn env cfg (requestOf m) db).2
        (payloadField m 1)).map Transaction.status = some TxnStatus.success ∧
     (storedOrder (handlePaymentReturn env cfg (requestOf m) db).2 (payloadField m 1)).map
        (fun o1 => (o1.paymentStatus, o1.status))
        = some (PaymentStatus.paid, OrderStatus.processing)) := by
  have hs : statusOfCode (payloadField m 2) = TxnStatus.success := by
    simp [statusOfCode, hcode]
  obtain ⟨t1, t2⟩ := storedTransaction_after_handlers env cfg db m t o hm hc hmer ht ho
  obtain ⟨o1, o2⟩ := storedOrder_after_handlers env cfg db m t o hm hc hmer ht ho
  rw [t1, t2, o1, o2, hs]
  simp [applyOutcome, Order.preSave_paymentStatus, Order.preSave_status]

set_option maxRecDepth 1000000 in
/-- C14 (witness). The verified success payload, the pending Transaction and the
pending Order of `ORD-1`. -/
theorem success_payload_marks_paid_witness :
    unkeyedPayload successData ≠ "" ∧
    checksumAccepted defaultConfig (unkeyedPayload successData) = true ∧
    merchantAccepted defaultConfig (unkeyedPayload successData) = true ∧
    payloadField (unkeyedPayload successData) 2 = some "0300" ∧
    storedTransaction (sampleDb TxnStatus.pending OrderStatus.pending PaymentStatus.pending)
      (payloadField (unkeyedPayload successData) 1)
      = some (sampleTransaction TxnStatus.pending) ∧
    (sampleTransaction TxnStatus.pending).status = TxnStatus.pending ∧
    storedOrder (sampleDb TxnStatus.pending OrderStatus.pending PaymentStatus.pending)
      (payloadField (unkeyedPayload successData) 1)
      = some (sampleOrder OrderStatus.pending PaymentStatus.pending) ∧
    (storedOrder
      (handleWebhook defaultConfig (requestOf (unkeyedPayload successData))
        (sampleDb TxnStatus.pending OrderStatus.pending PaymentStatus.pending)).2
      (payloadField (unkeyedPayload successData) 1)).map
        (fun o1 => (o1.paymentStatus, o1.status))
      = some (PaymentStatus.paid, OrderStatus.processing) :=
  ⟨by decide, by decide, by decide, by decide, by decide, by decide, by decide,
    (success_payload_marks_paid (fun _ => none) defaultConfig
      (sampleDb TxnStatus.pending OrderStatus.pending PaymentStatus.pending)
      (unkeyedPayload successData) (sampleTransaction TxnStatus.pending)
      (sampleOrder OrderStatus.pending PaymentStatus.pending)
      (by decide) (by decide) (by decide) (by decide) (by decide) (by decide)
      (by decide)).1.2⟩

/-! ## C15: the stock after a successful webhook -/

set_option maxRecDepth 1000000 in
/-- C15 (counterexample). The Order `ORD-1` holds two units of product `p1`, of which
ten are in stock. The verified success webhook finalizes its pending Transaction as
`success`; the stock of `p1` is still ten, and no stock update is among the calls. -/
theorem webhook_success_keeps_stock :
    (storedOrder (sampleDb TxnStatus.pending OrderStatus.pending PaymentStatus.pending)
      (some "ORD-1")).map Order.items
      = some [{ product := "p1", quantity := 2, price := Price.fin 1 0 }] ∧
    (sampleDb TxnStatus.pending OrderStatus.pending PaymentStatus.pending).products
      = [{ _id := "p1", stock := 10 }] ∧
    checksumAccepted defaultConfig (unkeyedPayload successData) = true ∧
    (storedTransaction
      (handleWebhook defaultConfig (requestOf (unkeyedPayload successData))
        (sampleDb TxnStatus.pending OrderStatus.pending PaymentStatus.pending)).2
      (some "ORD-1")).map Transaction.status = some TxnStatus.success ∧
    (handleWebhook defaultConfig (requestOf (unkeyedPayload successData))
        (sampleDb TxnStatus.pending OrderStatus.pending PaymentStatus.pending)).2.products
      = [{ _id := "p1", stock := 10 }] ∧
    (handleWebhook defaultConfig (requestOf (unkeyedPayload successData))
        (sampleDb TxnStatus.pending OrderStatus.pending PaymentStatus.pending)).2.calls.filter
        DbCall.isStockUpdate = [] := by
  decide

/-- C15 (amended). For every Order whose pending Transaction is finalized as `success`
by a verified webhook, the stock of every product, those of the line items included,
is after the call what it was before it: `handleWebhook` issues no stock update. -/
theorem webhook_success_leaves_stock (cfg : BillDeskConfig) (db : Db) (m : String)
    (t : Transaction) (o : Order) (hm : m ≠ "") (hc : checksumAccepted cfg m = true)
    (hmer : merchantAccepted cfg m = true) (hcode : payloadField m 2 = some "0300")
    (ht : storedTransaction db (payloadField m 1) = some t)
    (_hp : t.status = TxnStatus.pending)
    (ho : storedOrder db (payloadField m 1) = some o) :
    (storedTransaction (handleWebhook cfg (requestOf m) db).2 (payloadField m 1)).map
        Transaction.status = some TxnStatus.success ∧
    (handleWebhook cfg (requestOf m) db).2.products = db.products ∧
    (handleWebhook cfg (requestOf m) db).2.calls.filter DbCall.isStockUpdate
      = db.calls.filter DbCall.isStockUpdate := by
  have hs : statusOfCode (payloadField m 2) = TxnStatus.success := by
    simp [statusOfCode, hcode]
  have t1 := (storedTransaction_after_handlers (fun _ => none) cfg db m t o hm hc hmer ht ho).1
  have hf := handleWebhook_frame cfg (requestOf m) db
  exact ⟨by rw [t1, hs], hf.1, hf.2.2.1⟩

set_option maxRecDepth 1000000 in
/-- C15 (witness). The verified success webhook for the pending Transaction of
`ORD-1`. -/
theorem webhook_success_leaves_stock_witness :
    unkeyedPayload successData ≠ "" ∧
    checksumAccepted defaultConfig (unkeyedPayload successData) = true ∧
    merchantAccepted defaultConfig (unkeyedPayload successData) = true ∧
    payloadField (unkeyedPayload successData) 2 = some "0300" ∧
    storedTransaction (sampleDb TxnStatus.pending OrderStatus.pending PaymentStatus.pending)
      (payloadField (unkeyedPayload successData) 1)
      = some (sampleTransaction TxnStatus.pending) ∧
    (sampleTransaction TxnStatus.pending).status = TxnStatus.pending ∧
    storedOrder (sampleDb TxnStatus.pending OrderStatus.pending PaymentStatus.pending)
      (payloadField (unkeyedPayload successData) 1)
      = some (sampleOrder OrderStatus.pending PaymentStatus.pending) ∧
    (handleWebhook defaultConfig (requestOf (unkeyedPayload successData))
        (sampleDb TxnStatus.pending OrderStatus.pending PaymentStatus.pending)).2.products
      = (sampleDb TxnStatus.pending OrderStatus.pending PaymentStatus.pending).products :=
  ⟨by decide, by decide, by decide, by decide, by decide, by decide, by decide,
    (webhook_success_leaves_stock defaultConfig
      (sampleDb TxnStatus.pending OrderStatus.pending PaymentStatus.pending)
      (unkeyedPayload successData) (sampleTransaction TxnStatus.pending)
      (sampleOrder OrderStatus.pending PaymentStatus.pending)
      (by decide) (by decide) (by decide) (by decide) (by decide) (by decide)
      (by decide)).2.1⟩

/-! ## C16: a payload that maps to failed -/

set_option maxRecDepth 1000000 in
/-- C16 (counterexample). The Order `ORD-1` holds the amount 100 and two units at the
price 1. A verified payload with the code `0399`, which maps to `failed`, arrives.
After either handler the Order has paymentStatus `failed` and the amount 266: the save
ran the pre-save hook, which computed `2 * 83 - 0 + 100` from the line items. -/
theorem failed_payload_rewrites_totals :
    checksumAccepted defaultConfig (unkeyedPayload failedData) = true ∧
    statusOfCode (payloadField (unkeyedPayload failedData) 2) = TxnStatus.failed ∧
    (storedOrder (sampleDb TxnStatus.pending OrderStatus.pending PaymentStatus.pending)
      (some "ORD-1")).map Order.finalAmount = some (JsNumber.fin false 100 0) ∧
    (storedOrder
      (handleWebhook defaultConfig (requestOf (unkeyedPayload failedData))
        (sampleDb TxnStatus.pending OrderStatus.pending PaymentStatus.pending)).2
      (some "ORD-1")).map (fun o1 => (o1.paymentStatus, o1.finalAmount))
      = some (PaymentStatus.failed, JsNumber.fin false 266 0) ∧
    (storedOrder
      (handlePaymentReturn (fun _ => none) defaultConfig (requestOf (unkeyedPayload failedData))
        (sampleDb TxnStatus.pending OrderStatus.pending PaymentStatus.pending)).2
      (some "ORD-1")).map (fun o1 => (o1.paymentStatus, o1.finalAmount))
      = some (PaymentStatus.failed, JsNumber.fin false 266 0) := by
  decide

/-- C16 (amended). For every verified payload whose status code maps to `failed`, with
its Transaction and its Order stored, each handler writes the Order with paymentStatus
`failed` and the fulfillment status it had; the three totals of the written Order are
the ones `calculateTotal` computes from its line items and discount, whatever the Order
held before; the stock of every product and every cart are what they were, and no call
updates stock or writes a cart. -/
theorem failed_payload_changes_payment_status_only (env : Env) (cfg : BillDeskConfig)
    (db : Db) (m : String) (t : Transaction) (o : Order) (hm : m ≠ "")
    (hc : checksumAccepted cfg m = true) (hmer : merchantAccepted cfg m = true)
    (ht : storedTransaction db (payloadField m 1) = some t)
    (ho : storedOrder db (payloadField m 1) = some o)
    (hf : statusOfCode (payloadField m 2) = TxnStatus.failed) :
    ((storedOrder (handleWebhook cfg (requestOf m) db).2 (payloadField m 1)).map
        (fun o1 => (o1.paymentStatus, o1.status)) = some (PaymentStatus.failed, o.status) ∧
     (storedOrder (handleWebhook cfg (requestOf m) db).2 (payloadField m 1)).map
        (fun o1 => (o1.totalAmountUSD, o1.totalAmountINR, o1.finalAmount))
        = some ((calculateTotal o).totalAmountUSD, (calculateTotal o).totalAmountINR,
            (calculateTotal o).finalAmount) ∧
     (handleWebhook cfg (requestOf m) db).2.products = db.products ∧
     (handleWebhook cfg (requestOf m) db).2.carts = db.carts ∧
     (handleWebhook cfg (requestOf m) db).2.calls.filter DbCall.isStockUpdate
        = db.calls.filter DbCall.isStockUpdate ∧
     (handleWebhook cfg (requestOf m) db).2.calls.filter DbCall.isCartWrite
        = db.calls.filter DbCall.isCartWrite) ∧
    ((storedOrder (handlePaymentReturn env cfg (requestOf m) db).2 (payloadField m 1)).map
        (fun o1 => (o1.paymentStatus, o1.status)) = some (PaymentStatus.failed, o.status) ∧
     (storedOrder (handlePaymentReturn env cfg (requestOf m) db).2 (payloadField m 1)).map
        (fun o1 => (o1.totalAmountUSD, o1.totalAmountINR, o1.finalAmount))
        = some ((calculateTotal o).totalAmountUSD, (calculateTotal o).totalAmountINR,
            (calculateTotal o).finalAmount) ∧
     (handlePaymentReturn env cfg (requestOf m) db).2.products = db.products ∧
     (handlePaymentReturn env cfg (requestOf m) db).2.carts = db.carts ∧
     (handlePaymentReturn env cfg (requestOf m) db).2.calls.filter DbCall.isStockUpdate
        = db.calls.filter DbCall.isStockUpdate ∧
     (handlePaymentReturn env cfg (requestOf m) db).2.calls.filter DbCall.isCartWrite
        = db.calls.filter DbCall.isCartWrite) := by
  have ha : applyOutcome o TxnStatus.failed = { o with paymentStatus := PaymentStatus.failed } := by
    simp [applyOutcome]
  have hns : statusOfCode (payloadField m 2) ≠ TxnStatus.success := by simp [hf]
  obtain ⟨o1, o2⟩ := storedOrder_after_handlers env cfg db m t o hm hc hmer ht ho
  have f1 := handleWebhook_frame cfg (requestOf m) db
  have f2 := handlePaymentReturn_frame_not_success env cfg db m t o hm hc hmer ht ho hns
  rw [hf, ha] at o1 o2
  rw [o1, o2]
  exact ⟨⟨rfl, rfl, f1.1, f1.2.1, f1.2.2.1, f1.2.2.2⟩, ⟨rfl, rfl, f2.1, f2.2.1, f2.2.2.1, f2.2.2.2⟩⟩

set_option maxRecDepth 1000000 in
/-- C16 (witness). The verified `0399` payload for the pending Transaction and the
pending Order of `ORD-1`. -/
theorem failed_payload_changes_payment_status_only_witness :
    unkeyedPayload failedData ≠ "" ∧
    checksumAccepted defaultConfig (unkeyedPayload failedData) = true ∧
    merchantAccepted defaultConfig (unkeyedPayload failedData) = true ∧
    storedTransaction (sampleDb TxnStatus.pending OrderStatus.pending PaymentStatus.pending)
      (payloadField (unkeyedPayload failedData) 1)
      = some (sampleTransaction TxnStatus.pending) ∧
    storedOrder (sampleDb TxnStatus.pending OrderStatus.pending PaymentStatus.pending)
      (payloadField (unkeyedPayload failedData) 1)
      = some (sampleOrder OrderStatus.pending PaymentStatus.pending) ∧
    statusOfCode (payloadField (unkeyedPayload failedData) 2) = TxnStatus.failed ∧
    (storedOrder
      (handlePaymentReturn (fun _ => none) defaultConfig (requestOf (unkeyedPayload failedData))
        (sampleDb TxnStatus.pending OrderStatus.pending PaymentStatus.pending)).2
      (payloadField (unkeyedPayload failedData) 1)).map
        (fun o1 => (o1.paymentStatus, o1.status))
      = some (PaymentStatus.failed,
          (sampleOrder OrderStatus.pending PaymentStatus.pending).status) :=
  ⟨by decide, by decide, by decide, by decide, by decide, by decide,
    (failed_payload_changes_payment_status_only (fun _ => none) defaultConfig
      (sampleDb TxnStatus.pending OrderStatus.pending PaymentStatus.pending)
      (unkeyedPayload failedData) (sampleTransaction TxnStatus.pending)
      (sampleOrder OrderStatus.pending PaymentStatus.pending)
      (by decide) (by decide) (by decide) (by decide) (by decide) (by decide)).2.1⟩

/-! ## C17: a payload that maps to pending -/

set_option maxRecDepth 1000000 in
/-- C17 (counterexample). The Order `ORD-1` is `paid`; a verified payload with the
code `0002`, which maps to `pending`, arrives. Neither handler fails: the webhook is
answered with status 200, the browser is sent to the pending page, and the Order is
written with paymentStatus `pending`. -/
theorem pending_payload_unpays_order :
    checksumAccepted defaultConfig (unkeyedPayload pendingData) = true ∧
    statusOfCode (payloadField (unkeyedPayload pendingData) 2) = TxnStatus.pending ∧
    (storedOrder (sampleDb TxnStatus.success OrderStatus.processing PaymentStatus.paid)
      (some "ORD-1")).map Order.paymentStatus = some PaymentStatus.paid ∧
    (handleWebhook defaultConfig (requestOf (unkeyedPayload pendingData))
        (sampleDb TxnStatus.success OrderStatus.processing PaymentStatus.paid)).1
      = HttpResponse.json 200 true none ∧
    (storedOrder
      (handleWebhook defaultConfig (requestOf (unkeyedPayload pendingData))
        (sampleDb TxnStatus.success OrderStatus.processing PaymentStatus.paid)).2
      (some "ORD-1")).map Order.paymentStatus = some PaymentStatus.pending ∧
    (handlePaymentReturn (fun _ => none) defaultConfig (requestOf (unkeyedPayload pendingData))
        (sampleDb TxnStatus.success OrderStatus.processing PaymentStatus.paid)).1
      = HttpResponse.redirect "http://localhost:5173/payment/pending?orderId=o1" ∧
    (storedOrder
      (handlePaymentReturn (fun _ => none) defaultConfig (requestOf (unkeyedPayload pendingData))
        (sampleDb TxnStatus.success OrderStatus.processing PaymentStatus.paid)).2
      (some "ORD-1")).map Order.paymentStatus = some PaymentStatus.pending := by
  decide

/-- C17 (amended). For every verified payload whose status code maps to `pending`,
with its Transaction and its Order stored, the handlers do not fail: `handleWebhook`
answers `200 {success: true}`, `handlePaymentReturn` redirects to the pending page, and
each writes the Order with paymentStatus `pending`, whatever the paymentStatus was
before, `paid` included. -/
theorem pending_payload_sets_pending (env : Env) (cfg : BillDeskConfig) (db : Db)
    (m : String) (t : Transaction) (o : Order) (hm : m ≠ "")
    (hc : checksumAccepted cfg m = true) (hmer : merchantAccepted cfg m = true)
    (ht : storedTransaction db (payloadField m 1) = some t)
    (ho : storedOrder db (payloadField m 1) = some o)
    (hp : statusOfCode (payloadField m 2) = TxnStatus.pending) :
    ((handleWebhook cfg (requestOf m) db).1 = HttpResponse.json 200 true none ∧
     (storedOrder (handleWebhook cfg (requestOf m) db).2 (payloadField m 1)).map
        Order.paymentStatus = some PaymentStatus.pending) ∧
    ((handlePaymentReturn env cfg (requestOf m) db).1
        = HttpResponse.redirect (frontendUrl env ++ "/payment/pending?orderId=" ++ o._id) ∧
     (storedOrder (handlePaymentReturn env cfg (requestOf m) db).2 (payloadField m 1)).map
        Order.paymentStatus = some PaymentStatus.pending) := by
  have ha : applyOutcome o TxnStatus.pending
      = { o with paymentStatus := PaymentStatus.pending } := by
    simp [applyOutcome]
  obtain ⟨o1, o2⟩ := storedOrder_after_handlers env cfg db m t o hm hc hmer ht ho
  rw [hp, ha] at o1 o2
  rw [o1, o2]
  refine ⟨⟨?_, rfl⟩, ⟨?_, rfl⟩⟩
  · rw [handleWebhook_found cfg db m t o hm hc hmer ht ho]
  · rw [handlePaymentReturn_found_full env cfg db m t o hm hc hmer ht ho, hp]
    simp

set_option maxRecDepth 1000000 in
/-- C17 (witness). The verified `0002` payload for the paid Order of `ORD-1`. -/
theorem pending_payload_sets_pending_witness :
    unkeyedPayload pendingData ≠ "" ∧
    checksumAccepted defaultConfig (unkeyedPayload pendingData) = true ∧
    merchantAccepted defaultConfig (unkeyedPayload pendingData) = true ∧
    storedTransaction (sampleDb TxnStatus.success OrderStatus.processing PaymentStatus.paid)
      (payloadField (unkeyedPayload pendingData) 1)
      = some (sampleTransaction TxnStatus.success) ∧
    storedOrder (sampleDb TxnStatus.success OrderStatus.processing PaymentStatus.paid)
      (payloadField (unkeyedPayload pendingData) 1)
      = some (sampleOrder OrderStatus.processing PaymentStatus.paid) ∧
    statusOfCode (payloadField (unkeyedPayload pendingData) 2) = TxnStatus.pending ∧
    (storedOrder
      (handleWebhook defaultConfig (requestOf (unkeyedPayload pendingData))
        (sampleDb TxnStatus.success OrderStatus.processing PaymentStatus.paid)).2
      (payloadField (unkeyedPayload pendingData) 1)).map Order.paymentStatus
      = some PaymentStatus.pending :=
  ⟨by decide, by decide, by decide, by decide, by decide, by decide,
    (pending_payload_sets_pending (fun _ => none) defaultConfig
      (sampleDb TxnStatus.success OrderStatus.processing PaymentStatus.paid)
      (unkeyedPayload pendingData) (sampleTransaction TxnStatus.success)
      (sampleOrder OrderStatus.processing PaymentStatus.paid)
      (by decide) (by decide) (by decide) (by decide) (by decide) (by decide)).1.2⟩

/-! ## C18: the two channels compared -/

set_option maxRecDepth 1000000 in
/-- C18 (counterexample). For the verified payload of four fields both service
functions succeed, but they do not leave the Transaction with the same metadata: for
the fields read past the end `processWebhook` stores `undefined` and
`handleTransactionReturn` stores the empty string. -/
theorem short_payload_metadata_differs :
    (jsSplit (unkeyedPayload shortData)).length = 4 ∧
    (storedTransaction
      (processWebhook defaultConfig (requestOf (unkeyedPayload shortData))
        (sampleDb TxnStatus.pending OrderStatus.pending PaymentStatus.pending)).2
      (some "ORD-1")).map
        (fun t => (t.metadata.get "bankTxnId", t.metadata.get "errorDescription"))
      = some (some none, some none) ∧
    (storedTransaction
      (handleTransactionReturn defaultConfig (requestOf (unkeyedPayload shortData)).body
        (sampleDb TxnStatus.pending OrderStatus.pending PaymentStatus.pending)).2
      (some "ORD-1")).map
        (fun t => (t.metadata.get "bankTxnId", t.metadata.get "errorDescription"))
      = some (some (some ""), some (some "")) := by
  decide

/-- C18 (amended). For every payload string and every database state,
`processWebhook` (payload given as request body) and `handleTransactionReturn` (payload
given as return data) fail on exactly the same inputs, return the same result object
when they succeed, make the same database calls and leave every Transaction with the
same fields other than metadata, in particular the same status. When the payload has at
least nineteen fields they also leave the same metadata: the whole database is the
same. For a shorter payload the metadata may differ. -/
theorem channels_agree_up_to_metadata (cfg : BillDeskConfig) (db : Db) (m : String) :
    (processWebhook cfg (requestOf m) db).1.toOption
      = (handleTransactionReturn cfg (requestOf m).body db).1.toOption ∧
    (processWebhook cfg (requestOf m) db).2.calls
      = (handleTransactionReturn cfg (requestOf m).body db).2.calls ∧
    (processWebhook cfg (requestOf m) db).2.transactions.map
        (fun t => { t with metadata := [] })
      = (handleTransactionReturn cfg (requestOf m).body db).2.transactions.map
        (fun t => { t with metadata := [] }) ∧
    (19 ≤ (jsSplit m).length →
      (processWebhook cfg (requestOf m) db).2
        = (handleTransactionReturn cfg (requestOf m).body db).2) := by
  by_cases hm : m = ""
  · have hd : noWebhookData (requestOf m) = true := by simp [noWebhookData, requestOf, hm]
    rw [processWebhook_no_data cfg _ db hd, handleTransactionReturn_no_data cfg _ db hd]
    simp [Except.toOption]
  · cases hc : checksumAccepted cfg m with
    | false =>
      rw [processWebhook_checksum_rejected cfg db m hm hc,
        handleTransactionReturn_checksum_rejected cfg db m hm hc]
      simp [Except.toOption]
    | true =>
      cases hmer : merchantAccepted cfg m with
      | false =>
        rw [processWebhook_merchant_rejected cfg db m hm hc hmer,
          handleTransactionReturn_merchant_rejected cfg db m hm hc hmer]
        simp [Except.toOption]
      | true =>
        cases ht : storedTransaction db (payloadField m 1) with
        | none =>
          rw [processWebhook_unknown cfg db m hm hc hmer ht,
            handleTransactionReturn_unknown cfg db m hm hc hmer ht]
          simp [Except.toOption]
        | some t =>
          rw [processWebhook_found cfg db m t hm hc hmer ht,
            handleTransactionReturn_found cfg db m t hm hc hmer ht]
          refine ⟨rfl, ?_, ?_, ?_⟩
          · simp [Transaction.save, Db.record]
          · simp only [Transaction.save, Db.record, List.map_map]
            apply List.map_congr_left
            intro u _
            by_cases hu : u._id = t._id <;> simp [hu]
          · intro h19
            have e := webhookMetadata_eq_returnMetadata t.metadata m (jsSplit m) h19
            simp only [payloadField]
            rw [e]

/-! ## C19: the message and its nine fields -/

set_option maxRecDepth 1000000 in
/-- C19 (counterexample). `constructMessage` accepts the order reference `ORD|1`; the
message it returns splits on `|` into ten fields, not into the nine components. -/
theorem message_with_delimiter_splits_in_ten :
    constructMessage defaultConfig "ORD|1" (JsNumber.fin false 100 0) "Asha Rao"
        "asha@example.com" "9876543210"
      = Except.ok ("BDUATV2APT|ORD|1|10000|INR|Asha Rao|asha@example.com|9876543210|" ++
          "https://54cd-2409-40f0-11da-bc46-19f2-c574-b602-3639.ngrok-free.app/payment/return" ++
          "|DIRECT") ∧
    jsSplit ("BDUATV2APT|ORD|1|10000|INR|Asha Rao|asha@example.com|9876543210|" ++
          "https://54cd-2409-40f0-11da-bc46-19f2-c574-b602-3639.ngrok-free.app/payment/return" ++
          "|DIRECT")
      = ["BDUATV2APT", "ORD", "1", "10000", "INR", "Asha Rao", "asha@example.com",
          "9876543210",
          "https://54cd-2409-40f0-11da-bc46-19f2-c574-b602-3639.ngrok-free.app/payment/return",
          "DIRECT"] := by
  decide

/-- C19 (amended). For every input accepted by `constructMessage`, the returned message
is the nine components merchant id, order reference, formatted amount, `INR`, sanitized
customer name, sanitized customer email, sanitized customer phone, return URL, `DIRECT`,
in that order, joined by `|`; splitting the message on `|` yields exactly those nine
fields if and only if none of them contains `|`. -/
theorem message_is_nine_components (cfg : BillDeskConfig) (refId : String)
    (amount : JsNumber) (name email phone : String) (ha : jsIsNaN amount = false) :
    constructMessage cfg refId amount name email phone
      = Except.ok (jsJoin [cfg.merchantId, refId, formattedAmount amount, "INR",
          sanitizedName name, sanitizedEmail email, sanitizedPhone phone, cfg.returnUrl,
          "DIRECT"]) ∧
    (jsSplit (jsJoin (messageComponents cfg refId amount name email phone))
        = messageComponents cfg refId amount name email phone
      ↔ ∀ c ∈ messageComponents cfg refId amount name email phone, pipe ∉ c.data) := by
  refine ⟨constructMessage_eq cfg refId amount name email phone ha, ?_, ?_⟩
  · intro h c hc
    rw [← h] at hc
    exact pipe_not_mem_jsSplit _ c hc
  · intro h
    exact jsSplit_jsJoin _ (by simp [messageComponents]) h

set_option maxRecDepth 1000000 in
/-- C19 (witness). The order `ORD-1` of one hundred rupees for Asha Rao. -/
theorem message_is_nine_components_witness :
    jsIsNaN (JsNumber.fin false 100 0) = false ∧
    constructMessage defaultConfig "ORD-1" (JsNumber.fin false 100 0) "Asha Rao"
        "asha@example.com" "9876543210"
      = Except.ok (jsJoin [defaultConfig.merchantId, "ORD-1",
          formattedAmount (JsNumber.fin false 100 0), "INR", sanitizedName "Asha Rao",
          sanitizedEmail "asha@example.com", sanitizedPhone "9876543210",
          defaultConfig.returnUrl, "DIRECT"]) :=
  ⟨by decide,
    (message_is_nine_components defaultConfig "ORD-1" (JsNumber.fin false 100 0) "Asha Rao"
      "asha@example.com" "9876543210" (by decide)).1⟩

/-! ## C20: a field that contains the delimiter -/

set_option maxRecDepth 1000000 in
/-- C20 (counterexample). The customer name `Asha|Rao` and the phone `98765|43210`
contain the delimiter. `constructMessage` does not fail: it returns a message in which
the name keeps its `|` and from whose phone the `|` has been removed, and
`generateChecksum` signs that message. -/
theorem delimiter_in_field_is_accepted :
    constructMessage defaultConfig "ORD-1" (JsNumber.fin false 100 0) "Asha|Rao"
        "asha@example.com" "98765|43210"
      = Except.ok ("BDUATV2APT|ORD-1|10000|INR|Asha|Rao|asha@example.com|9876543210|" ++
          "https://54cd-2409-40f0-11da-bc46-19f2-c574-b602-3639.ngrok-free.app/payment/return" ++
          "|DIRECT") ∧
    sanitizedPhone "98765|43210" = "9876543210" ∧
    (generateChecksum defaultConfig
      ("BDUATV2APT|ORD-1|10000|INR|Asha|Rao|asha@example.com|9876543210|" ++
        "https://54cd-2409-40f0-11da-bc46-19f2-c574-b602-3639.ngrok-free.app/payment/return" ++
        "|DIRECT")).length = 64 := by
  decide

/-- C20 (amended). For every input with an accepted amount in which the order
reference, the customer name, the customer email or the customer phone contains `|`,
`constructMessage` does not fail but returns a message. A `|` in the order reference,
the name or the email stays in the message, which then splits into more than nine
fields; a `|` in the phone is removed, as is every other character that is not a
digit. -/
theorem delimiter_is_not_rejected (cfg : BillDeskConfig) (refId : String)
    (amount : JsNumber) (name email phone : String) (ha : jsIsNaN amount = false)
    (_hp : pipe ∈ refId.data ∨ pipe ∈ name.data ∨ pipe ∈ email.data ∨ pipe ∈ phone.data) :
    (∃ msg, constructMessage cfg refId amount name email phone = Except.ok msg ∧
      (pipe ∈ refId.data ∨ pipe ∈ name.data ∨ pipe ∈ email.data →
        9 < (jsSplit msg).length)) ∧
    pipe ∉ (sanitizedPhone phone).data ∧
    (∀ c ∈ (sanitizedPhone phone).data, c.isDigit = true) := by
  refine ⟨⟨_, constructMessage_eq cfg refId amount name email phone ha, ?_⟩,
    pipe_not_mem_sanitizedPhone phone, ?_⟩
  · intro h
    have len : (messageComponents cfg refId amount name email phone).length = 9 := rfl
    rcases h with h | h | h
    · have := length_lt_jsSplit_jsJoin (messageComponents cfg refId amount name email phone)
        refId (by simp [messageComponents]) h
      omega
    · have := length_lt_jsSplit_jsJoin (messageComponents cfg refId amount name email phone)
        (sanitizedName name) (by simp [messageComponents]) (pipe_mem_sanitizedName name h)
      omega
    · have := length_lt_jsSplit_jsJoin (messageComponents cfg refId amount name email phone)
        (sanitizedEmail email) (by simp [messageComponents]) (pipe_mem_sanitizedEmail email h)
      omega
  · intro c hc
    simp only [sanitizedPhone, digitsOnly, List.mem_filter, Bool.and_eq_true,
      decide_eq_true_eq] at hc
    simp only [Char.isDigit, Bool.and_eq_true, decide_eq_true_eq]
    exact ⟨hc.2.1, hc.2.2⟩

set_option maxRecDepth 1000000 in
/-- C20 (witness). The customer name `Asha|Rao`. -/
theorem delimiter_is_not_rejected_witness :
    jsIsNaN (JsNumber.fin false 100 0) = false ∧
    (pipe ∈ ("ORD-1" : String).data ∨ pipe ∈ ("Asha|Rao" : String).data ∨
      pipe ∈ ("asha@example.com" : String).data ∨ pipe ∈ ("9876543210" : String).data) ∧
    ∃ msg, constructMessage defaultConfig "ORD-1" (JsNumber.fin false 100 0) "Asha|Rao"
        "asha@example.com" "9876543210" = Except.ok msg ∧
      (pipe ∈ ("ORD-1" : String).data ∨ pipe ∈ ("Asha|Rao" : String).data ∨
        pipe ∈ ("asha@example.com" : String).data → 9 < (jsSplit msg).length) :=
  ⟨by decide, by decide,
    (delimiter_is_not_rejected defaultConfig "ORD-1" (JsNumber.fin false 100 0) "Asha|Rao"
      "asha@example.com" "9876543210" (by decide) (by decide)).1⟩
/-! ## C21: an amount that is not positive -/

/-- C21. For every order whose amount to charge is zero, negative or not a number,
`createOrder` fails with the invalid-amount error whatever the configuration, the
customer and the runtime values are, and the database is exactly what it was: no
message and no checksum is returned and no Transaction is created. -/
theorem invalid_amount_fails_first (cfg : BillDeskConfig) (users : List User) (rt : Runtime)
    (order : Order) (db : Db) (h : jsPositive order.finalAmount = false) :
    (createOrder cfg users rt order db).1
      = Except.error
          "Failed to create BillDesk order: Invalid order amount. Amount must be greater than zero." ∧
    (createOrder cfg users rt order db).2.transactions = db.transactions ∧
    (createOrder cfg users rt order db).2 = db := by
  rw [createOrder_rejected cfg users rt order db h]
  exact ⟨rfl, rfl, rfl⟩

set_option maxRecDepth 1000000 in
/-- C21 (witness). The sample Order with the amount `-5`. -/
theorem invalid_amount_fails_first_witness :
    jsPositive (sampleOrderOf (JsNumber.fin true 5 0)).finalAmount = false ∧
    (createOrder defaultConfig sampleUsers sampleRuntime (sampleOrderOf (JsNumber.fin true 5 0))
        (sampleDbBeforePayment PaymentStatus.pending)).2
      = sampleDbBeforePayment PaymentStatus.pending :=
  ⟨by decide,
    (invalid_amount_fails_first defaultConfig sampleUsers sampleRuntime
      (sampleOrderOf (JsNumber.fin true 5 0)) (sampleDbBeforePayment PaymentStatus.pending)
      (by decide)).2.2⟩

/-! ## C22: the amount field of the signed message -/

set_option maxRecDepth 1000000 in
/-- C22 (counterexample). An Order of `2^-10` rupees passes the amount test of
`createOrder` and the amount field of its message is `0`; an Order of `10^19` rupees
passes it too and the amount field of its message is `1e+21`; an Order of `2^60`
rupees passes it, the product is the integer `115292150460684697600`, and the amount
field is `115292150460684700000`, the shortest digits that read back as that double. -/
theorem accepted_amounts_signed_as_zero_or_exponent :
    jsPositive (sampleOrderOf (JsNumber.fin false 1 (-10))).finalAmount = true ∧
    ((createOrder defaultConfig sampleUsers sampleRuntime
        (sampleOrderOf (JsNumber.fin false 1 (-10)))
        (sampleDbBeforePayment PaymentStatus.pending)).1.toOption.map
      (fun r => payloadField r.msg 2)) = some (some "0") ∧
    jsPositive (sampleOrderOf (JsNumber.fin false 19073486328125 19)).finalAmount = true ∧
    intValue 19073486328125 19 = 10 ^ 19 ∧
    ((createOrder defaultConfig sampleUsers sampleRuntime
        (sampleOrderOf (JsNumber.fin false 19073486328125 19))
        (sampleDbBeforePayment PaymentStatus.pending)).1.toOption.map
      (fun r => payloadField r.msg 2)) = some (some "1e+21") ∧
    jsPositive (sampleOrderOf (JsNumber.fin false 1 60)).finalAmount = true ∧
    times100 (parseFloat (JsNumber.fin false 1 60)) = JsNumber.fin false 100 60 ∧
    roundHalfUp false 100 60 = 115292150460684697600 ∧
    ((createOrder defaultConfig sampleUsers sampleRuntime
        (sampleOrderOf (JsNumber.fin false 1 60))
        (sampleDbBeforePayment PaymentStatus.pending)).1.toOption.map
      (fun r => payloadField r.msg 2)) = some (some "115292150460684700000") := by
  decide

/-- C22 (amended). For every Order whose amount is greater than zero, `createOrder`
returns the message that `constructMessage` builds, and the third component of that
message is `formattedAmount` of the amount. The product `amount * 100` is not NaN and
not negative. When it is the finite double `m * 2^e`, let `n` be `roundHalfUp` of it:
`n` is not negative and is the integer nearest to the double, the upper one on a tie
(`n = m * 2^e` for `e ≥ 0`, and `n - 1/2 ≤ m / 2^(-e) < n + 1/2` otherwise, written
without fractions); the field is `0` when `n = 0`, it is a plain decimal string when
`0 < n < 10^21`, which spells `n` when `n < 2^53`, and it holds the letter `e` when
`n ≥ 10^21`. When the product is infinite the field is `Infinity`. -/
theorem amount_field_is_rounded_product (cfg : BillDeskConfig) (users : List User)
    (rt : Runtime) (order : Order) (db : Db) (h : jsPositive order.finalAmount = true) :
    (∃ refId : String,
      (createOrder cfg users rt order db).1.toOption.map CreateOrderResult.msg
        = some (jsJoin (messageComponents cfg refId order.finalAmount
            (customerDetailsOf users order.customer).1
            (customerDetailsOf users order.customer).2.1
            (customerDetailsOf users order.customer).2.2)) ∧
      (messageComponents cfg refId order.finalAmount
            (customerDetailsOf users order.customer).1
            (customerDetailsOf users order.customer).2.1
            (customerDetailsOf users order.customer).2.2).get? 2
        = some (formattedAmount order.finalAmount)) ∧
    times100 (parseFloat order.finalAmount) ≠ JsNumber.nan ∧
    (∀ (neg : Bool) (m : Nat) (e : Int),
      times100 (parseFloat order.finalAmount) = JsNumber.fin neg m e →
        neg = false ∧
        0 ≤ roundHalfUp false m e ∧
        (0 ≤ e → roundHalfUp false m e = (m : Int) * ((2 ^ e.toNat : Nat) : Int)) ∧
        (e < 0 →
          2 * ((2 ^ (-e).toNat : Nat) : Int) * roundHalfUp false m e
            ≤ 2 * (m : Int) + ((2 ^ (-e).toNat : Nat) : Int) ∧
          2 * (m : Int) + ((2 ^ (-e).toNat : Nat) : Int)
            < 2 * ((2 ^ (-e).toNat : Nat) : Int) * (roundHalfUp false m e + 1)) ∧
        (roundHalfUp false m e = 0 → formattedAmount order.finalAmount = "0") ∧
        (0 < roundHalfUp false m e → roundHalfUp false m e < 10 ^ 21 →
          isPlainDecimal (formattedAmount order.finalAmount) = true) ∧
        (0 < roundHalfUp false m e → roundHalfUp false m e < 2 ^ 53 →
          (decimalValue (formattedAmount order.finalAmount) : Int) = roundHalfUp false m e) ∧
        (10 ^ 21 ≤ roundHalfUp false m e →
          'e' ∈ (formattedAmount order.finalAmount).data)) ∧
    (∀ neg : Bool, times100 (parseFloat order.finalAmount) = JsNumber.inf neg →
      formattedAmount order.finalAmount = "Infinity") := by
  obtain ⟨hsign, hinf, hnan⟩ := times100_of_positive order.finalAmount h
  refine ⟨⟨_, createOrder_msg cfg users rt order db h, rfl⟩, hnan, ?_, ?_⟩
  · intro neg m e hp
    have hneg := hsign neg m e hp
    subst hneg
    obtain ⟨h0, hge, hlt⟩ := roundHalfUp_nearest m e
    have hf := formattedAmount_of_product order.finalAmount m e hp
    have habs : ((roundHalfUp false m e).natAbs : Int) = roundHalfUp false m e :=
      Int.natAbs_of_nonneg h0
    refine ⟨rfl, h0, hge, hlt, ?_, ?_, ?_, ?_⟩
    · intro hz
      rw [hf, hz]
      decide
    · intro hpos hlt21
      have hlt' : (roundHalfUp false m e).natAbs < 10 ^ 21 := by omega
      have hpos' : 0 < (roundHalfUp false m e).natAbs := by omega
      rw [hf, if_pos hlt']
      exact plainNotation_plain _ hpos'
    · intro hpos hlt53
      have hlt' : (roundHalfUp false m e).natAbs < 2 ^ 53 := by omega
      have hlt21 : (roundHalfUp false m e).natAbs < 10 ^ 21 := lt_trans hlt' (by norm_num)
      have hpos' : 0 < (roundHalfUp false m e).natAbs := by omega
      rw [hf, if_pos hlt21, plainNotation_small _ hlt', (natToDecimal_plain _ hpos').2, habs]
    · intro hge21
      have hge' : ¬ (roundHalfUp false m e).natAbs < 10 ^ 21 := by omega
      rw [hf, if_neg hge']
      exact exponentNotation_has_e _
  · intro neg hp
    have hneg := hinf neg hp
    subst hneg
    unfold formattedAmount
    rw [hp]
    rfl

set_option maxRecDepth 1000000 in
/-- C22 (witness). The sample Order of one hundred rupees: the product is the double
`10000` and the amount field is `10000`. -/
theorem amount_field_is_rounded_product_witness :
    jsPositive (sampleOrderOf (JsNumber.fin false 100 0)).finalAmount = true ∧
    times100 (parseFloat (sampleOrderOf (JsNumber.fin false 100 0)).finalAmount)
      = JsNumber.fin false 10000 0 ∧
    formattedAmount (sampleOrderOf (JsNumber.fin false 100 0)).finalAmount = "10000" ∧
    (decimalValue (formattedAmount (sampleOrderOf (JsNumber.fin false 100 0)).finalAmount) : Int)
      = roundHalfUp false 10000 0 :=
  ⟨by decide, by decide, by decide,
    ((amount_field_is_rounded_product defaultConfig sampleUsers sampleRuntime
      (sampleOrderOf (JsNumber.fin false 100 0)) (sampleDbBeforePayment PaymentStatus.pending)
      (by decide)).2.2.1 false 10000 0 (by decide)).2.2.2.2.2.2.1 (by decide) (by decide)⟩

/-! ## C23: the Transaction that `createOrder` creates -/

set_option maxRecDepth 1000000 in
/-- C23 (counterexample). An Order of an eighth of a rupee, `0.125`, which is twelve
and a half paise: `createOrder` accepts it, the Transaction it creates has the amount
`0.125`, and the amount field of the signed message is `13`. An Order of `2^-10` rupees
gets a Transaction with that amount and a message with the amount field `0`. -/
theorem eighth_rupee_signed_as_thirteen_paise :
    jsPositive (sampleOrderOf (JsNumber.fin false 1 (-3))).finalAmount = true ∧
    (2 : Int) * (1 * 100) = 25 * 2 ^ 3 ∧
    ((createOrder defaultConfig sampleUsers sampleRuntime
        (sampleOrderOf (JsNumber.fin false 1 (-3)))
        (sampleDbBeforePayment PaymentStatus.pending)).2.transactions.map Transaction.amount)
      = [JsNumber.fin false 1 (-3)] ∧
    ((createOrder defaultConfig sampleUsers sampleRuntime
        (sampleOrderOf (JsNumber.fin false 1 (-3)))
        (sampleDbBeforePayment PaymentStatus.pending)).1.toOption.map
      (fun r => payloadField r.msg 2)) = some (some "13") ∧
    ((createOrder defaultConfig sampleUsers sampleRuntime
        (sampleOrderOf (JsNumber.fin false 1 (-10)))
        (sampleDbBeforePayment PaymentStatus.pending)).2.transactions.map Transaction.amount)
      = [JsNumber.fin false 1 (-10)] ∧
    ((createOrder defaultConfig sampleUsers sampleRuntime
        (sampleOrderOf (JsNumber.fin false 1 (-10)))
        (sampleDbBeforePayment PaymentStatus.pending)).1.toOption.map
      (fun r => payloadField r.msg 2)) = some (some "0") := by
  decide

/-- C23 (amended). For every order with a positive amount and an order number,
`createOrder` adds exactly one Transaction: its status is `pending`, its order number
is the order number of the Order, its amount is the `finalAmount` of the Order, and the
signed message, which it keeps in its metadata and which is returned, is the join of
the components of `constructMessage` for that amount. When the amount `a * 2^x` is a
whole number `N` of paise with `0 < N < 2^53` (`a * 100 * 2^x = N`, written without
fractions), the third component is the decimal representation of `N`, and it is the
third field of the message when the merchant id and the order number hold no `|`. -/
theorem created_transaction_matches_order (cfg : BillDeskConfig) (users : List User)
    (rt : Runtime) (order : Order) (db : Db) (h : jsPositive order.finalAmount = true)
    (hn : order.orderNumber ≠ "") :
    ∃ t : Transaction,
      (createOrder cfg users rt order db).2.transactions = db.transactions ++ [t] ∧
      t.status = TxnStatus.pending ∧
      t.orderNumber = some order.orderNumber ∧
      t.amount = order.finalAmount ∧
      t.metadata.get "msg" = some (some (orderMessage cfg users order)) ∧
      (createOrder cfg users rt order db).1.toOption.map CreateOrderResult.msg
        = some (orderMessage cfg users order) ∧
      orderMessage cfg users order
        = jsJoin (messageComponents cfg order.orderNumber t.amount
            (customerDetailsOf users order.customer).1
            (customerDetailsOf users order.customer).2.1
            (customerDetailsOf users order.customer).2.2) ∧
      ∀ (a : Nat) (x : Int) (N : Nat), order.finalAmount = JsNumber.fin false a x →
        0 < N → N < 2 ^ 53 → a * 100 * 2 ^ x.toNat = N * 2 ^ (-x).toNat →
        (messageComponents cfg order.orderNumber t.amount
            (customerDetailsOf users order.customer).1
            (customerDetailsOf users order.customer).2.1
            (customerDetailsOf users order.customer).2.2).get? 2
          = some (natToDecimal N) ∧
        (pipe ∉ cfg.merchantId.data → pipe ∉ order.orderNumber.data →
          payloadField (orderMessage cfg users order) 2 = some (natToDecimal N)) := by
  rw [createOrder_accepted cfg users rt order db h hn]
  refine ⟨{ _id := rt.newTransactionId
            order := order._id
            orderNumber := some order.orderNumber
            amount := order.finalAmount
            currency := "INR"
            paymentMethod := "billdesk"
            status := TxnStatus.pending
            metadata :=
              [("billDeskOrderId", some order.orderNumber),
               ("billDeskTxnId", some ("TXN" ++ natToDecimal rt.nowForTxnId)),
               ("msg", some (orderMessage cfg users order)),
               ("checksum", some (generateChecksum cfg (orderMessage cfg users order)))] },
    ?_, rfl, rfl, rfl, ?_, ?_, rfl, ?_⟩
  · simp [Transaction.saveNew, Db.record]
  · simp [Metadata.get]
  · simp [Except.toOption]
  · intro a x N hfa hN0 hN hpaise
    have hfmt : formattedAmount order.finalAmount = natToDecimal N := by
      rw [hfa]
      exact formattedAmount_exact a x N hN0 hN hpaise
    refine ⟨?_, ?_⟩
    · simp [messageComponents, hfmt]
    · intro h0 h1
      unfold orderMessage messageComponents
      rw [hfmt]
      exact third_field_of_join _ _ _ _ _ h0 h1 (pipe_not_mem_natToDecimal N hN0)

set_option maxRecDepth 1000000 in
/-- C23 (witness). The sample Order of one hundred rupees, ten thousand paise: the new
Transaction is the only one in the database and the third component of the message is
`10000`. -/
theorem created_transaction_matches_order_witness :
    jsPositive (sampleOrderOf (JsNumber.fin false 100 0)).finalAmount = true ∧
    (sampleOrderOf (JsNumber.fin false 100 0)).orderNumber ≠ "" ∧
    natToDecimal 10000 = "10000" ∧
    ∃ t : Transaction,
      (createOrder defaultConfig sampleUsers sampleRuntime
        (sampleOrderOf (JsNumber.fin false 100 0))
        (sampleDbBeforePayment PaymentStatus.pending)).2.transactions
        = (sampleDbBeforePayment PaymentStatus.pending).transactions ++ [t] ∧
      t.status = TxnStatus.pending ∧
      t.orderNumber = some (sampleOrderOf (JsNumber.fin false 100 0)).orderNumber ∧
      t.amount = (sampleOrderOf (JsNumber.fin false 100 0)).finalAmount ∧
      (messageComponents defaultConfig (sampleOrderOf (JsNumber.fin false 100 0)).orderNumber
          t.amount
          (customerDetailsOf sampleUsers (sampleOrderOf (JsNumber.fin false 100 0)).customer).1
          (customerDetailsOf sampleUsers (sampleOrderOf (JsNumber.fin false 100 0)).customer).2.1
          (customerDetailsOf sampleUsers
            (sampleOrderOf (JsNumber.fin false 100 0)).customer).2.2).get? 2
        = some (natToDecimal 10000) :=
  ⟨by decide, by decide, by decide,
    (created_transaction_matches_order defaultConfig sampleUsers sampleRuntime
      (sampleOrderOf (JsNumber.fin false 100 0)) (sampleDbBeforePayment PaymentStatus.pending)
      (by decide) (by decide)).imp
      (fun _ ht => ⟨ht.1, ht.2.1, ht.2.2.1, ht.2.2.2.1,
        (ht.2.2.2.2.2.2.2 100 0 10000 (by decide) (by decide) (by decide) (by decide)).1⟩)⟩

/-! ## C24: what initiating a payment does to the Order -/

set_option maxRecDepth 1000000 in
/-- C24 (counterexample). The Order of the request is `paid`. After
`initializePayment` its paymentStatus is `pending`, both when the gateway order is
created, which adds a Transaction, and when creating it fails: with a discount of 1000
the pre-save hook makes the amount `166 - 1000 + 100`, which is negative, and
`createOrder` refuses it. -/
theorem initialize_payment_unpays_order :
    sampleCast sampleOrderId = Except.ok sampleOrderId ∧
    (storedOrderById (sampleDbWithId OrderStatus.pending PaymentStatus.paid jsZero)
      sampleOrderId).map Order.paymentStatus = some PaymentStatus.paid ∧
    (initializePayment sampleCast defaultConfig sampleUsers sampleRuntime sampleOrderId
        (sampleDbWithId OrderStatus.pending PaymentStatus.paid jsZero)).2.transactions.length
      = 1 ∧
    (storedOrderById
      (initializePayment sampleCast defaultConfig sampleUsers sampleRuntime sampleOrderId
        (sampleDbWithId OrderStatus.pending PaymentStatus.paid jsZero)).2
      sampleOrderId).map Order.paymentStatus = some PaymentStatus.pending ∧
    (storedOrderById
      (sampleDbWithId OrderStatus.pending PaymentStatus.paid (JsNumber.fin false 1000 0))
      sampleOrderId).map Order.paymentStatus = some PaymentStatus.paid ∧
    (initializePayment sampleCast defaultConfig sampleUsers sampleRuntime sampleOrderId
        (sampleDbWithId OrderStatus.pending PaymentStatus.paid (JsNumber.fin false 1000 0))).1
      = InitializeResponse.failure 500
          "Failed to create BillDesk order: Invalid order amount. Amount must be greater than zero." ∧
    (storedOrderById
      (initializePayment sampleCast defaultConfig sampleUsers sampleRuntime sampleOrderId
        (sampleDbWithId OrderStatus.pending PaymentStatus.paid (JsNumber.fin false 1000 0))).2
      sampleOrderId).map Order.paymentStatus = some PaymentStatus.pending := by
  decide

/-- C24 (amended). For every request whose id names a stored Order, whatever the
paymentStatus of that Order was (`paid`, `failed` and `refunded` included), after
`initializePayment` the stored Order has paymentStatus `pending`, whether or not
creating the gateway order then succeeds. -/
theorem initialize_payment_sets_pending (cast : ObjectIdCast) (cfg : BillDeskConfig)
    (users : List User) (rt : Runtime) (orderId key : String) (db : Db) (o : Order)
    (hcast : cast orderId = Except.ok key) (h : storedOrderById db key = some o) :
    (storedOrderById (initializePayment cast cfg users rt orderId db).2 key).map
      Order.paymentStatus = some PaymentStatus.pending := by
  have e := initializePayment_found cast cfg users rt orderId key db o hcast h
  have s := storedOrderById_save db key o
    { o with paymentStatus := PaymentStatus.pending } h rfl
  unfold storedOrderById at s ⊢
  rw [e, s]
  rfl

set_option maxRecDepth 1000000 in
/-- C24 (witness). The paid sample Order, named by its id in the request. -/
theorem initialize_payment_sets_pending_witness :
    sampleCast sampleOrderId = Except.ok sampleOrderId ∧
    storedOrderById (sampleDbWithId OrderStatus.pending PaymentStatus.paid jsZero) sampleOrderId
      = some (sampleOrderWithId OrderStatus.pending PaymentStatus.paid jsZero) ∧
    (storedOrderById
      (initializePayment sampleCast defaultConfig sampleUsers sampleRuntime sampleOrderId
        (sampleDbWithId OrderStatus.pending PaymentStatus.paid jsZero)).2
      sampleOrderId).map Order.paymentStatus = some PaymentStatus.pending :=
  ⟨by decide, by decide,
    initialize_payment_sets_pending sampleCast defaultConfig sampleUsers sampleRuntime
      sampleOrderId sampleOrderId (sampleDbWithId OrderStatus.pending PaymentStatus.paid jsZero)
      (sampleOrderWithId OrderStatus.pending PaymentStatus.paid jsZero)
      (by decide) (by decide)⟩

/-! ## C25: the signing secret of the configuration -/

/-- C25 (counterexample). With no variable set in the environment the configuration is
built all the same, and its signing password is the default written in the source. -/
theorem absent_secret_gets_default :
    (BILLDESK_CONFIG (fun _ => none)).signingPassword = "xkUzRJ8b3u2z5dmzc0wlAgPFiLQrBsbf" := by
  decide

/-- C25 (amended). Building the configuration never fails. When
`BILLDESK_SIGNING_PASSWORD` is unset or empty the signing password is the default
written in the source; when it is set to a non-empty value the signing password is that
value. -/
theorem signing_password_defaults (env : Env) :
    (env "BILLDESK_SIGNING_PASSWORD" = none ∨ env "BILLDESK_SIGNING_PASSWORD" = some "" →
      (BILLDESK_CONFIG env).signingPassword = "xkUzRJ8b3u2z5dmzc0wlAgPFiLQrBsbf") ∧
    (∀ v, env "BILLDESK_SIGNING_PASSWORD" = some v → v ≠ "" →
      (BILLDESK_CONFIG env).signingPassword = v) := by
  constructor
  · intro h
    rcases h with h | h <;> simp [BILLDESK_CONFIG, envOr, h, jsOr]
  · intro v h hv
    simp [BILLDESK_CONFIG, envOr, h, jsOr, hv]

/-! ## C26: the metadata after finalizing -/

/-- C26. For every payload that `processWebhook` or `handleTransactionReturn` processes
successfully, the stored Transaction keeps its amount, currency and order number; every
metadata key other than the seven payload keys has the value it had before; and the
seven keys hold the values of the payload: the payload string and the fields 3, 4, 5, 7,
17 and 18, as read by `processWebhook`, and with `|| ''` applied by
`handleTransactionReturn`. -/
theorem finalize_merges_metadata (cfg : BillDeskConfig) (db : Db) (m : String)
    (t : Transaction) (hm : m ≠ "") (hc : checksumAccepted cfg m = true)
    (hmer : merchantAccepted cfg m = true)
    (ht : storedTransaction db (payloadField m 1) = some t) :
    ∃ t1 t2 : Transaction,
      storedTransaction (processWebhook cfg (requestOf m) db).2 (payloadField m 1) = some t1 ∧
      storedTransaction (handleTransactionReturn cfg (requestOf m).body db).2
        (payloadField m 1) = some t2 ∧
      (t1.amount = t.amount ∧ t1.currency = t.currency ∧ t1.orderNumber = t.orderNumber) ∧
      (t2.amount = t.amount ∧ t2.currency = t.currency ∧ t2.orderNumber = t.orderNumber) ∧
      (∀ k, k ∉ payloadKeys →
        t1.metadata.get k = t.metadata.get k ∧ t2.metadata.get k = t.metadata.get k) ∧
      (t1.metadata.get "billDeskResponse" = some (some m) ∧
       t1.metadata.get "billDeskTxnId" = some (payloadField m 3) ∧
       t1.metadata.get "bankTxnId" = some (payloadField m 4) ∧
       t1.metadata.get "txnAmount" = some (payloadField m 5) ∧
       t1.metadata.get "authStatus" = some (payloadField m 7) ∧
       t1.metadata.get "errorStatus" = some (payloadField m 17) ∧
       t1.metadata.get "errorDescription" = some (payloadField m 18)) ∧
      (t2.metadata.get "billDeskResponse" = some (some m) ∧
       t2.metadata.get "billDeskTxnId" = some (some (orEmpty (payloadField m 3))) ∧
       t2.metadata.get "bankTxnId" = some (some (orEmpty (payloadField m 4))) ∧
       t2.metadata.get "txnAmount" = some (some (orEmpty (payloadField m 5))) ∧
       t2.metadata.get "authStatus" = some (some (orEmpty (payloadField m 7))) ∧
       t2.metadata.get "errorStatus" = some (some (orEmpty (payloadField m 17))) ∧
       t2.metadata.get "errorDescription" = some (some (orEmpty (payloadField m 18)))) := by
  obtain ⟨s1, s2⟩ := storedTransaction_after_services cfg db m t hm hc hmer ht
  refine ⟨_, _, s1, s2, ⟨rfl, rfl, rfl⟩, ⟨rfl, rfl, rfl⟩, ?_, ?_, ?_⟩
  · intro k hk
    exact ⟨webhookMetadata_get_other _ _ _ _ _ _ k hk, returnMetadata_get_other _ _ _ k hk⟩
  · exact webhookMetadata_get_keys _ _ _ _ _ _
  · exact returnMetadata_get_keys _ _ _

set_option maxRecDepth 1000000 in
/-- C26 (witness). The verified success payload and the pending Transaction of `ORD-1`,
whose metadata hold `msg` and `checksum` from its creation. -/
theorem finalize_merges_metadata_witness :
    unkeyedPayload successData ≠ "" ∧
    checksumAccepted defaultConfig (unkeyedPayload successData) = true ∧
    merchantAccepted defaultConfig (unkeyedPayload successData) = true ∧
    storedTransaction (sampleDb TxnStatus.pending OrderStatus.pending PaymentStatus.pending)
      (payloadField (unkeyedPayload successData) 1)
      = some (sampleTransaction TxnStatus.pending) ∧
    ∃ t1 : Transaction,
      storedTransaction
        (processWebhook defaultConfig (requestOf (unkeyedPayload successData))
          (sampleDb TxnStatus.pending OrderStatus.pending PaymentStatus.pending)).2
        (payloadField (unkeyedPayload successData) 1) = some t1 ∧
      t1.metadata.get "msg" = (sampleTransaction TxnStatus.pending).metadata.get "msg" ∧
      t1.metadata.get "checksum"
        = (sampleTransaction TxnStatus.pending).metadata.get "checksum" :=
  ⟨by decide, by decide, by decide, by decide,
    (finalize_merges_metadata defaultConfig
      (sampleDb TxnStatus.pending OrderStatus.pending PaymentStatus.pending)
      (unkeyedPayload successData) (sampleTransaction TxnStatus.pending)
      (by decide) (by decide) (by decide) (by decide)).elim
      (fun t1 h => h.elim (fun _ h2 =>
        ⟨t1, h2.1, (h2.2.2.2.2.1 "msg" (by decide)).1,
          (h2.2.2.2.2.1 "checksum" (by decide)).1⟩))⟩

/-! ## C27: the transition table of `updateOrderStatus` -/

/-- C27. For every request whose id names a stored Order and every requested status:
when the requested status is listed for the current one (pending to processing or
cancelled; processing to shipped or cancelled; shipped to delivered or refunded;
delivered to refunded), the answer is 200, the stored Order has the requested status,
which differs from the old one, and the stock of the products grows by the quantity of
each line item when the new status is `cancelled` and is unchanged otherwise; when it
is not listed the answer is 400 and the orders and the products are unchanged. An
order that is `cancelled` or `refunded` has no listed status, so it keeps its status. -/
theorem status_transition_table (cast : ObjectIdCast) (messages : Messages)
    (id key : String) (status : Option String) (db : Db) (o : Order)
    (hcast : cast id = Except.ok key) (h : storedOrderById db key = some o) :
    (∀ (s : OrderStatus) (x : String),
      includesValue (allowedTransitions s) (some x) = true ↔
        (s = OrderStatus.pending ∧ (x = "processing" ∨ x = "cancelled")) ∨
        (s = OrderStatus.processing ∧ (x = "shipped" ∨ x = "cancelled")) ∨
        (s = OrderStatus.shipped ∧ (x = "delivered" ∨ x = "refunded")) ∨
        (s = OrderStatus.delivered ∧ x = "refunded")) ∧
    (includesValue (allowedTransitions o.status) status = true →
      ∃ n : OrderStatus, status = some n.name ∧ n ≠ o.status ∧
        (updateOrderStatus cast messages id status db).1.toOption.map OrderResponse.status
          = some 200 ∧
        (storedOrderById (updateOrderStatus cast messages id status db).2 key).map Order.status
          = some n ∧
        (updateOrderStatus cast messages id status db).2.products
          = (if n = OrderStatus.cancelled then
              o.items.foldl (fun ps item => ps.map (fun (p : Product) =>
                if p._id = item.product then
                  { p with stock := p.stock + (item.quantity : Int) }
                else p)) db.products
             else db.products)) ∧
    (includesValue (allowedTransitions o.status) status = false →
      (updateOrderStatus cast messages id status db).1.toOption.map OrderResponse.status
        = some 400 ∧
      (updateOrderStatus cast messages id status db).2.orders = db.orders ∧
      (updateOrderStatus cast messages id status db).2.products = db.products) ∧
    (o.status = OrderStatus.cancelled ∨ o.status = OrderStatus.refunded →
      includesValue (allowedTransitions o.status) status = false) := by
  refine ⟨?_, ?_, ?_, ?_⟩
  · intro s x
    cases s <;> simp [includesValue, allowedTransitions]
  · intro hy
    obtain ⟨n, hs, hb, hne⟩ := includesValue_allowed o.status status hy
    refine ⟨n, hs, hne, ?_⟩
    rw [updateOrderStatus_accepted cast messages id key status db o n hcast h hy hb]
    refine ⟨rfl, ?_, ?_⟩
    · have s := storedOrderById_save db key o { o with status := n } h rfl
      unfold storedOrderById at s ⊢
      by_cases hc : n = OrderStatus.cancelled
      · simp only [hc, if_true] at s ⊢
        have e : (Order.save { o with status := OrderStatus.cancelled }
            (restockItems o.items (db.record (DbCall.orderFindById key)))).orders
            = (Order.save { o with status := OrderStatus.cancelled } db).orders := by
          simp [Order.save, Db.record, restockItems_orders]
        rw [e, s]
        rfl
      · simp only [hc, if_false]
        have e : (Order.save { o with status := n } (db.record (DbCall.orderFindById key))).orders
            = (Order.save { o with status := n } db).orders := by
          simp [Order.save, Db.record]
        rw [e, s]
        rfl
    · by_cases hc : n = OrderStatus.cancelled
      · simp only [hc, if_true]
        simp [Order.save, Db.record, restockItems_products]
      · simp only [hc, if_false]
        simp [Order.save, Db.record]
  · intro hn
    rw [updateOrderStatus_rejected cast messages id key status db o hcast h hn]
    exact ⟨rfl, rfl, rfl⟩
  · intro hs
    rcases hs with hs | hs <;> rw [hs] <;> cases status <;> simp [includesValue, allowedTransitions]

set_option maxRecDepth 1000000 in
/-- C27 (witness). The pending sample Order, with two units of `p1`, is cancelled: the
stock of `p1` goes from ten to twelve. -/
theorem status_transition_table_witness :
    sampleCast sampleOrderId = Except.ok sampleOrderId ∧
    storedOrderById (sampleDbWithId OrderStatus.pending PaymentStatus.pending jsZero)
      sampleOrderId
      = some (sampleOrderWithId OrderStatus.pending PaymentStatus.pending jsZero) ∧
    includesValue
      (allowedTransitions (sampleOrderWithId OrderStatus.pending PaymentStatus.pending jsZero).status)
      (some "cancelled") = true ∧
    stockOf (updateOrderStatus sampleCast sampleMessages sampleOrderId (some "cancelled")
      (sampleDbWithId OrderStatus.pending PaymentStatus.pending jsZero)).2 "p1" = some 12 ∧
    ∃ n : OrderStatus, some "cancelled" = some n.name ∧
      (storedOrderById (updateOrderStatus sampleCast sampleMessages sampleOrderId
        (some "cancelled")
        (sampleDbWithId OrderStatus.pending PaymentStatus.pending jsZero)).2
        sampleOrderId).map Order.status = some n :=
  ⟨by decide, by decide, by decide, by decide,
    ((status_transition_table sampleCast sampleMessages sampleOrderId sampleOrderId
      (some "cancelled") (sampleDbWithId OrderStatus.pending PaymentStatus.pending jsZero)
      (sampleOrderWithId OrderStatus.pending PaymentStatus.pending jsZero)
      (by decide) (by decide)).2.1 (by decide)).imp (fun _ hn => ⟨hn.1, hn.2.2.2.1⟩)⟩

/-! ## C28: the length of a generated code -/

set_option maxRecDepth 1000000 in
/-- C28. For the lengths 1 to 15 and every draw `r` with `0 ≤ r < 1`, `generateOTP`
returns the plain decimal representation of an integer `n` with
`10^(length-1) ≤ n ≤ 10^length - 1`, a string of exactly `length` digits. From the
length 16 on this fails. For the length 16 and the largest draw below one,
`1 - 2^-53`, it returns the seventeen digits `10000000000000000`, the integer `10^16`,
which is above `10^16 - 1`. For the length 22 and the draw zero it returns `1e+21`,
which is not a string of digits. -/
theorem generated_code_length_breaks_at_sixteen :
    (∀ (length : Nat) (r : JsNumber), 1 ≤ length → length ≤ 15 → isUnitDraw r = true →
      ∃ n : Nat, generateOTP length r = natToDecimal n ∧
        10 ^ (length - 1) ≤ n ∧ n ≤ 10 ^ length - 1 ∧
        (generateOTP length r).length = length ∧
        isPlainDecimal (generateOTP length r) = true ∧
        decimalValue (generateOTP length r) = n) ∧
    (isUnitDraw (JsNumber.fin false 9007199254740991 (-53)) = true ∧
      generateOTP 16 (JsNumber.fin false 9007199254740991 (-53)) = "10000000000000000" ∧
      (generateOTP 16 (JsNumber.fin false 9007199254740991 (-53))).length = 17 ∧
      decimalValue (generateOTP 16 (JsNumber.fin false 9007199254740991 (-53))) = 10 ^ 16) ∧
    (isUnitDraw (JsNumber.fin false 0 0) = true ∧
      generateOTP 22 (JsNumber.fin false 0 0) = "1e+21" ∧
      (generateOTP 22 (JsNumber.fin false 0 0)).length = 5 ∧
      isPlainDecimal (generateOTP 22 (JsNumber.fin false 0 0)) = false) := by
  refine ⟨?_, by decide, by decide⟩
  intro length r h1 h15 hr
  cases r with
  | nan => simp [isUnitDraw] at hr
  | inf neg => simp [isUnitDraw] at hr
  | fin neg m e =>
    cases neg with
    | true => simp [isUnitDraw] at hr
    | false =>
      simp only [isUnitDraw, Bool.and_eq_true, decide_eq_true_eq] at hr
      obtain ⟨⟨hm, he⟩, hlt⟩ := hr
      obtain ⟨n, hn, hlo, hhi⟩ := generateOTP_in_range length m e h1 h15 hm he hlt
      have hpos : 0 < n := lt_of_lt_of_le (by positivity) hlo
      obtain ⟨p1, p2⟩ := natToDecimal_plain n hpos
      refine ⟨n, hn, hlo, by omega, ?_, ?_, ?_⟩
      · rw [hn]
        exact natToDecimal_length n length h1 hlo hhi
      · rw [hn]
        exact p1
      · rw [hn]
        exact p2

/-! ## C29: `verifyOTP` -/

set_option maxRecDepth 1000000 in
/-- C29 (counterexample). The store holds, under the key `+`, the code `123456` that
expires at time 1000. The empty phone number is normalised to `+`, the code is the
stored one and the time is 0, yet `verifyOTP` answers false and leaves the entry: the
guard of lines 145-148 refuses an empty phone number before the store is read. -/
theorem empty_phone_never_verifies :
    formatPhone "" = "+" ∧
    plusStore.get (formatPhone "") = some { otp := "123456", expiresAt := 1000 } ∧
    ¬ (0 > 1000) ∧
    verifyOTP "" "123456" 0 plusStore = (false, plusStore) := by
  decide

/-- C29 (amended). For every store, phone number, code and time: `verifyOTP` answers
true exactly when the phone number and the code are not empty and the store holds, for
the phone number with `+` in front, an entry with this code that expires no earlier
than now. After the answer true the entry is gone, the other entries are as before,
and the same call again answers false, at any time. For a phone number and a code that
are not empty, an expired entry is removed with the answer false, and a wrong code for
an entry that has not expired leaves the store unchanged. An empty phone number or
code leaves the store unchanged with the answer false. -/
theorem otp_verifies_once_before_expiry (store : OtpStore) (phoneNumber otp : String)
    (now : Nat) :
    ((verifyOTP phoneNumber otp now store).1 = true ↔
      phoneNumber ≠ "" ∧ otp ≠ "" ∧
      ∃ e : OtpEntry, store.get (formatPhone phoneNumber) = some e ∧ e.otp = otp ∧
        now ≤ e.expiresAt) ∧
    ((verifyOTP phoneNumber otp now store).1 = true →
      (verifyOTP phoneNumber otp now store).2 = store.delete (formatPhone phoneNumber) ∧
      (verifyOTP phoneNumber otp now store).2.get (formatPhone phoneNumber) = none ∧
      (∀ other : String, other ≠ formatPhone phoneNumber →
        (verifyOTP phoneNumber otp now store).2.get other = store.get other) ∧
      ∀ later : Nat,
        (verifyOTP phoneNumber otp later (verifyOTP phoneNumber otp now store).2).1 = false) ∧
    (phoneNumber ≠ "" → otp ≠ "" →
      ∀ e : OtpEntry, store.get (formatPhone phoneNumber) = some e →
        (now > e.expiresAt →
          verifyOTP phoneNumber otp now store
            = (false, store.delete (formatPhone phoneNumber)) ∧
          (store.delete (formatPhone phoneNumber)).get (formatPhone phoneNumber) = none) ∧
        (now ≤ e.expiresAt → e.otp ≠ otp →
          verifyOTP phoneNumber otp now store = (false, store))) ∧
    (phoneNumber = "" ∨ otp = "" → verifyOTP phoneNumber otp now store = (false, store)) := by
  have key : (verifyOTP phoneNumber otp now store).1 = true →
      phoneNumber ≠ "" ∧ otp ≠ "" ∧
      ∃ e : OtpEntry, store.get (formatPhone phoneNumber) = some e ∧ e.otp = otp ∧
        now ≤ e.expiresAt ∧
        (verifyOTP phoneNumber otp now store).2 = store.delete (formatPhone phoneNumber) := by
    intro ht
    by_cases hp : phoneNumber = ""
    · rw [verifyOTP_empty phoneNumber otp now store (Or.inl hp)] at ht
      exact absurd ht (by simp)
    by_cases ho : otp = ""
    · rw [verifyOTP_empty phoneNumber otp now store (Or.inr ho)] at ht
      exact absurd ht (by simp)
    cases hg : store.get (formatPhone phoneNumber) with
    | none =>
      rw [verifyOTP_absent phoneNumber otp now store hg] at ht
      exact absurd ht (by simp)
    | some e =>
      rw [verifyOTP_present phoneNumber otp now store e hp ho hg] at ht ⊢
      by_cases hx : now > e.expiresAt
      · rw [if_pos hx] at ht
        exact absurd ht (by simp)
      · rw [if_neg hx] at ht ⊢
        by_cases hc : e.otp = otp
        · rw [if_pos hc]
          exact ⟨hp, ho, e, rfl, hc, Nat.le_of_not_lt hx, rfl⟩
        · rw [if_neg hc] at ht
          exact absurd ht (by simp)
  refine ⟨⟨?_, ?_⟩, ?_, ?_, ?_⟩
  · intro ht
    obtain ⟨hp, ho, e, hg, hc, hx, _⟩ := key ht
    exact ⟨hp, ho, e, hg, hc, hx⟩
  · rintro ⟨hp, ho, e, hg, hc, hx⟩
    rw [verifyOTP_present phoneNumber otp now store e hp ho hg,
      if_neg (Nat.not_lt.mpr hx), if_pos hc]
  · intro ht
    obtain ⟨_, _, _, _, _, _, hs⟩ := key ht
    rw [hs]
    refine ⟨rfl, OtpStore.get_delete_self store _, ?_, ?_⟩
    · intro other hne
      exact OtpStore.get_delete_other store _ other hne
    · intro later
      rw [verifyOTP_absent phoneNumber otp later _ (OtpStore.get_delete_self store _)]
  · intro hp ho e hg
    refine ⟨?_, ?_⟩
    · intro hx
      rw [verifyOTP_present phoneNumber otp now store e hp ho hg, if_pos hx]
      exact ⟨rfl, OtpStore.get_delete_self store _⟩
    · intro hx hc
      rw [verifyOTP_present phoneNumber otp now store e hp ho hg,
        if_neg (Nat.not_lt.mpr hx), if_neg hc]
  · intro h
    exact verifyOTP_empty phoneNumber otp now store h

/-! ## C30: the amount the gateway reports -/

/-- C30. For every stored Transaction and Order and every two payloads that pass the
checksum and merchant tests and differ only in the amount field (index 5) and the last
field, both service functions leave the Transaction with the same status and both
handlers leave the same Order; the amount field is compared with nothing. In
particular, when the status code is `0300` the Transaction is `success` and the Order
`paid` for either payload. -/
theorem outcome_ignores_amount (env : Env) (cfg : BillDeskConfig) (db : Db) (m1 m2 : String)
    (t : Transaction) (o : Order) (h1 : m1 ≠ "") (h2 : m2 ≠ "")
    (hc1 : checksumAccepted cfg m1 = true) (hc2 : checksumAccepted cfg m2 = true)
    (hmer1 : merchantAccepted cfg m1 = true) (hmer2 : merchantAccepted cfg m2 = true)
    (h7 : 7 ≤ (jsSplit m1).length)
    (hsame : ∀ i, i ≠ 5 → i + 1 ≠ (jsSplit m1).length → payloadField m1 i = payloadField m2 i)
    (ht : storedTransaction db (payloadField m1 1) = some t)
    (ho : storedOrder db (payloadField m1 1) = some o) :
    ((storedTransaction (processWebhook cfg (requestOf m1) db).2 (payloadField m1 1)).map
        Transaction.status
      = (storedTransaction (processWebhook cfg (requestOf m2) db).2 (payloadField m1 1)).map
        Transaction.status ∧
     (storedTransaction (handleTransactionReturn cfg (requestOf m1).body db).2
        (payloadField m1 1)).map Transaction.status
      = (storedTransaction (handleTransactionReturn cfg (requestOf m2).body db).2
        (payloadField m1 1)).map Transaction.status) ∧
    (storedOrder (handleWebhook cfg (requestOf m1) db).2 (payloadField m1 1)
      = storedOrder (handleWebhook cfg (requestOf m2) db).2 (payloadField m1 1) ∧
     storedOrder (handlePaymentReturn env cfg (requestOf m1) db).2 (payloadField m1 1)
      = storedOrder (handlePaymentReturn env cfg (requestOf m2) db).2 (payloadField m1 1)) ∧
    (payloadField m1 2 = some "0300" →
      (storedTransaction (processWebhook cfg (requestOf m2) db).2 (payloadField m1 1)).map
        Transaction.status = some TxnStatus.success ∧
      (storedOrder (handleWebhook cfg (requestOf m2) db).2 (payloadField m1 1)).map
        Order.paymentStatus = some PaymentStatus.paid) := by
  have e1 : payloadField m1 1 = payloadField m2 1 := hsame 1 (by decide) (by omega)
  have e2 : payloadField m1 2 = payloadField m2 2 := hsame 2 (by decide) (by omega)
  have ht2 : storedTransaction db (payloadField m2 1) = some t := e1 ▸ ht
  have ho2 : storedOrder db (payloadField m2 1) = some o := e1 ▸ ho
  obtain ⟨a1, a2⟩ := storedTransaction_after_services cfg db m1 t h1 hc1 hmer1 ht
  obtain ⟨b1, b2⟩ := storedTransaction_after_services cfg db m2 t h2 hc2 hmer2 ht2
  obtain ⟨c1, c2⟩ := storedOrder_after_handlers env cfg db m1 t o h1 hc1 hmer1 ht ho
  obtain ⟨d1, d2⟩ := storedOrder_after_handlers env cfg db m2 t o h2 hc2 hmer2 ht2 ho2
  rw [← e1, ← e2] at b1 b2 d1 d2
  rw [a1, a2, b1, b2, c1, c2, d1, d2]
  refine ⟨⟨rfl, rfl⟩, ⟨rfl, rfl⟩, ?_⟩
  intro h300
  simp [statusOfCode, h300, applyOutcome, Order.preSave_paymentStatus]

set_option maxRecDepth 1000000 in
/-- C30 (witness). The verified success payload for `ORD-1` with the amount `10000`
and the one with the amount `1`, for a Transaction of one hundred rupees. -/
theorem outcome_ignores_amount_witness :
    unkeyedPayload successData ≠ "" ∧ unkeyedPayload successDataOtherAmount ≠ "" ∧
    checksumAccepted defaultConfig (unkeyedPayload successData) = true ∧
    checksumAccepted defaultConfig (unkeyedPayload successDataOtherAmount) = true ∧
    merchantAccepted defaultConfig (unkeyedPayload successData) = true ∧
    merchantAccepted defaultConfig (unkeyedPayload successDataOtherAmount) = true ∧
    payloadField (unkeyedPayload successData) 5 = some "10000" ∧
    payloadField (unkeyedPayload successDataOtherAmount) 5 = some "1" ∧
    storedOrder
      (handleWebhook defaultConfig (requestOf (unkeyedPayload successData))
        (sampleDb TxnStatus.pending OrderStatus.pending PaymentStatus.pending)).2
      (payloadField (unkeyedPayload successData) 1)
      = storedOrder
        (handleWebhook defaultConfig (requestOf (unkeyedPayload successDataOtherAmount))
          (sampleDb TxnStatus.pending OrderStatus.pending PaymentStatus.pending)).2
        (payloadField (unkeyedPayload successData) 1) :=
  ⟨by decide, by decide, by decide, by decide, by decide, by decide, by decide, by decide,
    (outcome_ignores_amount (fun _ => none) defaultConfig
      (sampleDb TxnStatus.pending OrderStatus.pending PaymentStatus.pending)
      (unkeyedPayload successData) (unkeyedPayload successDataOtherAmount)
      (sampleTransaction TxnStatus.pending)
      (sampleOrder OrderStatus.pending PaymentStatus.pending)
      (by decide) (by decide) (by decide) (by decide) (by decide) (by decide) (by decide)
      sample_amount_payloads_agree (by decide) (by decide)).2.1.1⟩

end BillDesk
